import Mathlib

/-!
EC2 finders (`internal/service/ec2/find.go`)

A shallow embedding of the lookup functions of `find.go` and theorems about them.

* Go pointers are `Option`s (`nil` is `none`), slices are `List`s.
* The EC2 client `conn` is a record of functions, one per paginated describe operation,
  from the request to what the service answers: the pages it delivers and the error the
  call ends with, if any. The client of the SDK v2 is a second such record.
* Constants and functions of the package that are declared in other files are parameters of
  the finders that use them.
* The closure each finder passes to the paginator mutates a captured slice; here it is a
  state transformer on that slice.
* A finder that reads a field through a pointer which may be `nil` has result type
  `Outcome`, which has a third alternative for the run-time panic.
-/

namespace EC2Find

/-! ## Values of the AWS SDK -/

/-- Go `aws.StringValue`: the string a `*string` points to, the empty string for `nil`. -/
def StringValue : Option String → String
  | some s => s
  | none => ""

/-- Go `aws.StringSlice`: a `[]*string` with a pointer to every element. -/
def StringSlice (ss : List String) : List (Option String) :=
  ss.map some

/-- An `ec2.Filter`. -/
structure Filter where
  Name : Option String := none
  Values : List (Option String) := []
  deriving DecidableEq, Repr

/-- The fields of `ec2.DescribeVpcsInput` that `find.go` sets. -/
structure DescribeVpcsInput where
  Filters : List (Option Filter) := []
  VpcIds : List (Option String) := []
  deriving DecidableEq, Repr

/-- The fields of `ec2.DescribeSubnetsInput` that `find.go` sets. -/
structure DescribeSubnetsInput where
  Filters : List (Option Filter) := []
  SubnetIds : List (Option String) := []
  deriving DecidableEq, Repr

/-- The fields of `ec2.DescribeSecurityGroupsInput` that `find.go` sets. -/
structure DescribeSecurityGroupsInput where
  Filters : List (Option Filter) := []
  GroupIds : List (Option String) := []
  deriving DecidableEq, Repr

/-- The fields of `ec2.DescribeVpcEndpointsInput` that `find.go` sets. -/
structure DescribeVpcEndpointsInput where
  Filters : List (Option Filter) := []
  VpcEndpointIds : List (Option String) := []
  deriving DecidableEq, Repr

/-- The fields of `ec2.DescribeVpcEndpointServiceConfigurationsInput` that `find.go` sets. -/
structure DescribeVpcEndpointServiceConfigurationsInput where
  Filters : List (Option Filter) := []
  ServiceIds : List (Option String) := []
  deriving DecidableEq, Repr

/-- The fields of `ec2.DescribeVpcPeeringConnectionsInput` that `find.go` sets. -/
structure DescribeVpcPeeringConnectionsInput where
  Filters : List (Option Filter) := []
  VpcPeeringConnectionIds : List (Option String) := []
  deriving DecidableEq, Repr

/-- The fields of `ec2.DescribeNatGatewaysInput` that `find.go` sets. -/
structure DescribeNatGatewaysInput where
  Filter : List (Option Filter) := []
  NatGatewayIds : List (Option String) := []
  deriving DecidableEq, Repr

/-- The fields of `ec2.DescribeVpcEndpointServicePermissionsInput` that `find.go` sets. -/
structure DescribeVpcEndpointServicePermissionsInput where
  Filters : List (Option Filter) := []
  ServiceId : Option String := none
  deriving DecidableEq, Repr

/-- The fields of `ec2.DescribeNetworkAclsInput` that `find.go` sets. -/
structure DescribeNetworkAclsInput where
  Filters : List (Option Filter) := []
  NetworkAclIds : List (Option String) := []
  deriving DecidableEq, Repr

/-- The fields of `ec2.DescribeTrafficMirrorFiltersInput` that `find.go` sets. -/
structure DescribeTrafficMirrorFiltersInput where
  Filters : List (Option Filter) := []
  TrafficMirrorFilterIds : List (Option String) := []
  deriving DecidableEq, Repr

/-- The fields of `ec2.DescribeSecurityGroupRulesInput` that `find.go` sets. -/
structure DescribeSecurityGroupRulesInput where
  Filters : List (Option Filter) := []
  SecurityGroupRuleIds : List (Option String) := []
  deriving DecidableEq, Repr

/-- The fields of `ec2.DescribeInternetGatewaysInput` that `find.go` sets. -/
structure DescribeInternetGatewaysInput where
  Filters : List (Option Filter) := []
  InternetGatewayIds : List (Option String) := []
  deriving DecidableEq, Repr

/-- The fields of `ec2.DescribeVpcAttributeInput` that `find.go` sets. -/
structure DescribeVpcAttributeInput where
  Attribute : Option String := none
  VpcId : Option String := none
  deriving DecidableEq, Repr

/-- The fields of `ec2.GetSubnetCidrReservationsInput` that `find.go` sets. -/
structure GetSubnetCidrReservationsInput where
  Filters : List (Option Filter) := []
  SubnetId : Option String := none
  deriving DecidableEq, Repr

/-- An `awstypes.Filter` of the SDK v2, whose values are strings and not pointers. -/
structure TypesFilter where
  Name : Option String := none
  Values : List String := []
  deriving DecidableEq, Repr

/-- The fields of the SDK v2 `DescribeAddressesInput` that `find.go` sets. -/
structure DescribeAddressesInput where
  AllocationIds : List String := []
  Filters : List TypesFilter := []
  PublicIps : List String := []
  deriving DecidableEq, Repr

/-- The fields of the SDK v2 `DescribeVerifiedAccessEndpointsInput` that `find.go` sets. -/
structure DescribeVerifiedAccessEndpointsInput where
  Filters : List TypesFilter := []
  VerifiedAccessEndpointIds : List String := []
  deriving DecidableEq, Repr

/-- The fields of the SDK v2 `DescribeImportSnapshotTasksInput` that `find.go` sets. -/
structure DescribeImportSnapshotTasksInput where
  Filters : List TypesFilter := []
  ImportTaskIds : List String := []
  deriving DecidableEq, Repr

/-- What `find.go` stores in the `interface{}` fields `LastRequest` of its errors: the
request of the describe call, or a bare identifier. -/
inductive Request
  | describeVpcs (input : DescribeVpcsInput)
  | describeSubnets (input : DescribeSubnetsInput)
  | describeSecurityGroups (input : DescribeSecurityGroupsInput)
  | describeVpcEndpoints (input : DescribeVpcEndpointsInput)
  | describeVpcEndpointServiceConfigurations
      (input : DescribeVpcEndpointServiceConfigurationsInput)
  | describeVpcPeeringConnections (input : DescribeVpcPeeringConnectionsInput)
  | describeNatGateways (input : DescribeNatGatewaysInput)
  | describeVpcEndpointServicePermissions (input : DescribeVpcEndpointServicePermissionsInput)
  | describeNetworkAcls (input : DescribeNetworkAclsInput)
  | describeTrafficMirrorFilters (input : DescribeTrafficMirrorFiltersInput)
  | describeAddresses (input : DescribeAddressesInput)
  | describeVerifiedAccessEndpoints (input : DescribeVerifiedAccessEndpointsInput)
  | describeImportSnapshotTasks (input : DescribeImportSnapshotTasksInput)
  | describeSecurityGroupRules (input : DescribeSecurityGroupRulesInput)
  | describeInternetGateways (input : DescribeInternetGatewaysInput)
  | describeVpcAttribute (input : DescribeVpcAttributeInput)
  | getSubnetCidrReservations (input : GetSubnetCidrReservationsInput)
  | id (s : String)
  deriving DecidableEq, Repr

/-! ## Errors -/

/-- An `error` made outside the finders' own error types: an `awserr.Error` of the
service, with its code and message, or an error that is only a text (`fmt.Errorf`, a
transport failure). -/
inductive GoError
  | aws (code message : String)
  | text (msg : String)
  deriving DecidableEq, Repr

/-- The fields of `retry.NotFoundError` that `find.go` sets; a field left out of the
composite literal has its zero value. -/
structure NotFoundError where
  LastError : Option GoError := none
  LastRequest : Option Request := none
  Message : String := ""
  deriving DecidableEq, Repr

/-- The errors a finder returns. `NotFound` is a `*retry.NotFoundError`, which `find.go`
builds with composite literals. `EmptyResult` and `TooManyResults` are what
`tfresource.NewEmptyResultError` and `tfresource.NewTooManyResultsError` build; `find.go`
calls both constructors, with the request or an identifier as argument (in
`FindInternetGatewayAttachment`), and returns an empty-result error and a
`retry.NotFoundError` literal from one function
(`FindSubnetCIDRReservationBySubnetIDAndReservationID`). -/
inductive Err
  | plain (e : GoError)
  | NotFound (e : NotFoundError)
  | EmptyResult (LastRequest : Option Request)
  | TooManyResults (Count : Nat) (LastRequest : Option Request)
  deriving DecidableEq, Repr

/-- The result of a finder whose body reads a field through a pointer that may be `nil`:
a value, an error, or the panic of the nil dereference. -/
inductive Outcome (α : Type)
  | ok (v : α)
  | error (e : Err)
  | panic
  deriving DecidableEq, Repr

/-- Go `tfawserr.ErrCodeEquals`: the error is an `awserr.Error` whose code is one of
`codes`. -/
def ErrCodeEquals (err : Option GoError) (codes : List String) : Bool :=
  match err with
  | some (.aws code _) => codes.any (fun c => code == c)
  | _ => false

/-! ## The paginator -/

/-- What the service answers to one paginated describe call: the pages it delivers, in
order, and the error the call ends with (`none` when every request succeeded). -/
structure Paged (P : Type) where
  pages : List (Option P)
  err : Option GoError

/-- The SDK's `Describe...PagesWithContext` on the remaining pages: `fn` is called on each
page with `lastPage` set on the page after which nothing follows, iteration stops when `fn`
returns `false`, and the call's error is returned unless iteration was stopped. -/
def pagesLoop {P σ : Type} (fn : σ → Option P → Bool → σ × Bool) (err : Option GoError) :
    List (Option P) → σ → σ × Option GoError
  | [], s => (s, err)
  | page :: rest, s =>
    let r := fn s page (rest.isEmpty && err.isNone)
    if r.2 then pagesLoop fn err rest r.1 else (r.1, none)

/-- The SDK's `Describe...PagesWithContext` on an answer of the service. -/
def Paged.PagesWithContext {P σ : Type} (resp : Paged P)
    (fn : σ → Option P → Bool → σ × Bool) (s : σ) : σ × Option GoError :=
  pagesLoop fn resp.err resp.pages s

/-- The loop `for _, v := range items { if v != nil { output = append(output, v) } }`. -/
def appendNonNil {α : Type} (output : List (Option α)) (items : List (Option α)) :
    List (Option α) :=
  items.foldl (fun output v => if v.isSome then output ++ [v] else output) output

/-- The page callback of the plural finders: a `nil` page is skipped, the non-nil records
of a page are appended to `output`, and the callback returns `!lastPage`. -/
def pageFn {P α : Type} (items : P → List (Option α)) (output : List (Option α))
    (page : Option P) (lastPage : Bool) : List (Option α) × Bool :=
  match page with
  | none => (output, !lastPage)
  | some page => (appendNonNil output (items page), !lastPage)

/-- Modelled from the spec: `tfresource.AssertSinglePtrResult` of `internal/tfresource`,
which is not among the sources. It is the step "collapse to single-or-error": a slice with
no element fails with an empty-result error, a slice with more than one element fails with
a too-many-results error carrying their number, and the single element is returned unless
it is `nil` or one of the predicates `fs` rejects it, which is an empty-result error. -/
def AssertSinglePtrResult {α : Type} (a : List (Option α)) (fs : List (α → Bool)) :
    Except Err α :=
  match a with
  | [] => .error (.EmptyResult none)
  | [none] => .error (.EmptyResult none)
  | [some v] => if fs.all (fun f => f v) then .ok v else .error (.EmptyResult none)
  | _ :: _ :: _ => .error (.TooManyResults a.length none)

/-! ## Records and pages of the describe operations -/

/-- An `ec2.VpcCidrBlockState`. -/
structure VpcCidrBlockState where
  State : Option String := none
  StatusMessage : Option String := none
  deriving DecidableEq, Repr

/-- An `ec2.VpcCidrBlockAssociation`. -/
structure VpcCidrBlockAssociation where
  AssociationId : Option String := none
  CidrBlock : Option String := none
  CidrBlockState : Option VpcCidrBlockState := none
  deriving DecidableEq, Repr

/-- The fields of `ec2.Vpc` that `find.go` reads. -/
structure Vpc where
  VpcId : Option String := none
  DhcpOptionsId : Option String := none
  CidrBlockAssociationSet : List (Option VpcCidrBlockAssociation) := []
  deriving DecidableEq, Repr

/-- An `ec2.SubnetCidrBlockState`. -/
structure SubnetCidrBlockState where
  State : Option String := none
  StatusMessage : Option String := none
  deriving DecidableEq, Repr

/-- An `ec2.SubnetIpv6CidrBlockAssociation`. -/
structure SubnetIpv6CidrBlockAssociation where
  AssociationId : Option String := none
  Ipv6CidrBlock : Option String := none
  Ipv6CidrBlockState : Option SubnetCidrBlockState := none
  deriving DecidableEq, Repr

/-- The fields of `ec2.Subnet` that `find.go` reads. -/
structure Subnet where
  SubnetId : Option String := none
  VpcId : Option String := none
  Ipv6CidrBlockAssociationSet : List (Option SubnetIpv6CidrBlockAssociation) := []
  deriving DecidableEq, Repr

/-- The fields of `ec2.SecurityGroup` that identify it. -/
structure SecurityGroup where
  GroupId : Option String := none
  GroupName : Option String := none
  VpcId : Option String := none
  OwnerId : Option String := none
  deriving DecidableEq, Repr

/-- An `ec2.SecurityGroupIdentifier`. -/
structure SecurityGroupIdentifier where
  GroupId : Option String := none
  GroupName : Option String := none
  deriving DecidableEq, Repr

/-- The fields of `ec2.VpcEndpoint` that `find.go` reads. -/
structure VpcEndpoint where
  VpcEndpointId : Option String := none
  State : Option String := none
  RouteTableIds : List (Option String) := []
  SubnetIds : List (Option String) := []
  Groups : List (Option SecurityGroupIdentifier) := []
  deriving DecidableEq, Repr

/-- The fields of `ec2.ServiceConfiguration` that `find.go` reads. -/
structure ServiceConfiguration where
  ServiceId : Option String := none
  ServiceName : Option String := none
  ServiceState : Option String := none
  deriving DecidableEq, Repr

/-- An `ec2.VpcPeeringConnectionStateReason`. -/
structure VpcPeeringConnectionStateReason where
  Code : Option String := none
  Message : Option String := none
  deriving DecidableEq, Repr

/-- The fields of `ec2.VpcPeeringConnection` that `find.go` reads. -/
structure VpcPeeringConnection where
  VpcPeeringConnectionId : Option String := none
  Status : Option VpcPeeringConnectionStateReason := none
  deriving DecidableEq, Repr

/-- The fields of `ec2.NatGateway` that `FindNATGatewayByID` reads. -/
structure NatGateway where
  NatGatewayId : Option String := none
  State : Option String := none
  deriving DecidableEq, Repr

/-- A page of `DescribeVpcs`. -/
structure DescribeVpcsOutput where
  Vpcs : List (Option Vpc) := []
  deriving DecidableEq, Repr

/-- A page of `DescribeSubnets`. -/
structure DescribeSubnetsOutput where
  Subnets : List (Option Subnet) := []
  deriving DecidableEq, Repr

/-- A page of `DescribeSecurityGroups`. -/
structure DescribeSecurityGroupsOutput where
  SecurityGroups : List (Option SecurityGroup) := []
  deriving DecidableEq, Repr

/-- A page of `DescribeVpcEndpoints`. -/
structure DescribeVpcEndpointsOutput where
  VpcEndpoints : List (Option VpcEndpoint) := []
  deriving DecidableEq, Repr

/-- A page of `DescribeVpcEndpointServiceConfigurations`. -/
structure DescribeVpcEndpointServiceConfigurationsOutput where
  ServiceConfigurations : List (Option ServiceConfiguration) := []
  deriving DecidableEq, Repr

/-- A page of `DescribeVpcPeeringConnections`. -/
structure DescribeVpcPeeringConnectionsOutput where
  VpcPeeringConnections : List (Option VpcPeeringConnection) := []
  deriving DecidableEq, Repr

/-- A page of `DescribeNatGateways`. -/
structure DescribeNatGatewaysOutput where
  NatGateways : List (Option NatGateway) := []
  deriving DecidableEq, Repr

/-- The fields of `ec2.AllowedPrincipal` that `find.go` reads. -/
structure AllowedPrincipal where
  Principal : Option String := none
  PrincipalType : Option String := none
  deriving DecidableEq, Repr

/-- The fields of `ec2.NetworkAclEntry` that `find.go` reads, with its CIDR block. -/
structure NetworkAclEntry where
  CidrBlock : Option String := none
  Egress : Option Bool := none
  RuleNumber : Option Int := none
  deriving DecidableEq, Repr

/-- An `ec2.NetworkAclAssociation`. -/
structure NetworkAclAssociation where
  NetworkAclAssociationId : Option String := none
  NetworkAclId : Option String := none
  SubnetId : Option String := none
  deriving DecidableEq, Repr

/-- The fields of `ec2.NetworkAcl` that `find.go` reads. -/
structure NetworkAcl where
  NetworkAclId : Option String := none
  Associations : List (Option NetworkAclAssociation) := []
  Entries : List (Option NetworkAclEntry) := []
  deriving DecidableEq, Repr

/-- The fields of `ec2.TrafficMirrorFilterRule` that identify it. -/
structure TrafficMirrorFilterRule where
  TrafficMirrorFilterRuleId : Option String := none
  TrafficMirrorFilterId : Option String := none
  deriving DecidableEq, Repr

/-- The fields of `ec2.TrafficMirrorFilter` that `find.go` reads. -/
structure TrafficMirrorFilter where
  TrafficMirrorFilterId : Option String := none
  IngressFilterRules : List (Option TrafficMirrorFilterRule) := []
  EgressFilterRules : List (Option TrafficMirrorFilterRule) := []
  deriving DecidableEq, Repr

/-- The fields of the SDK v2 `awstypes.Address` that identify it. -/
structure Address where
  AllocationId : Option String := none
  PublicIp : Option String := none
  deriving DecidableEq, Repr

/-- An `awstypes.VerifiedAccessEndpointStatus`; `Code` is a string enumeration, not a
pointer. -/
structure VerifiedAccessEndpointStatus where
  Code : String := ""
  Message : Option String := none
  deriving DecidableEq, Repr

/-- The fields of `awstypes.VerifiedAccessEndpoint` that `find.go` reads. -/
structure VerifiedAccessEndpoint where
  VerifiedAccessEndpointId : Option String := none
  Status : Option VerifiedAccessEndpointStatus := none
  deriving DecidableEq, Repr

/-- An `awstypes.SnapshotTaskDetail`, as far as it is named here. -/
structure SnapshotTaskDetail where
  SnapshotId : Option String := none
  Status : Option String := none
  deriving DecidableEq, Repr

/-- The fields of `awstypes.ImportSnapshotTask` that `find.go` reads. -/
structure ImportSnapshotTask where
  ImportTaskId : Option String := none
  SnapshotTaskDetail : Option SnapshotTaskDetail := none
  deriving DecidableEq, Repr

/-- A page of `DescribeVpcEndpointServicePermissions`. -/
structure DescribeVpcEndpointServicePermissionsOutput where
  AllowedPrincipals : List (Option AllowedPrincipal) := []
  deriving DecidableEq, Repr

/-- A page of `DescribeNetworkAcls`. -/
structure DescribeNetworkAclsOutput where
  NetworkAcls : List (Option NetworkAcl) := []
  deriving DecidableEq, Repr

/-- A page of `DescribeTrafficMirrorFilters`. -/
structure DescribeTrafficMirrorFiltersOutput where
  TrafficMirrorFilters : List (Option TrafficMirrorFilter) := []
  deriving DecidableEq, Repr

/-- The output of the SDK v2 `DescribeAddresses`. -/
structure DescribeAddressesOutput where
  Addresses : List Address := []
  deriving DecidableEq, Repr

/-- A page of the SDK v2 `DescribeVerifiedAccessEndpoints`. -/
structure DescribeVerifiedAccessEndpointsOutput where
  VerifiedAccessEndpoints : List VerifiedAccessEndpoint := []
  deriving DecidableEq, Repr

/-- A page of the SDK v2 `DescribeImportSnapshotTasks`. -/
structure DescribeImportSnapshotTasksOutput where
  ImportSnapshotTasks : List ImportSnapshotTask := []
  deriving DecidableEq, Repr

/-- The fields of `ec2.SecurityGroupRule` that `find.go` reads, with its group. -/
structure SecurityGroupRule where
  SecurityGroupRuleId : Option String := none
  GroupId : Option String := none
  IsEgress : Option Bool := none
  deriving DecidableEq, Repr

/-- An `ec2.InternetGatewayAttachment`. -/
structure InternetGatewayAttachment where
  State : Option String := none
  VpcId : Option String := none
  deriving DecidableEq, Repr

/-- The fields of `ec2.InternetGateway` that `find.go` reads. -/
structure InternetGateway where
  InternetGatewayId : Option String := none
  Attachments : List (Option InternetGatewayAttachment) := []
  deriving DecidableEq, Repr

/-- An `ec2.AttributeBooleanValue`. -/
structure AttributeBooleanValue where
  Value : Option Bool := none
  deriving DecidableEq, Repr

/-- The fields of `ec2.DescribeVpcAttributeOutput` that `find.go` reads, with the VPC. -/
structure DescribeVpcAttributeOutput where
  EnableDnsHostnames : Option AttributeBooleanValue := none
  EnableDnsSupport : Option AttributeBooleanValue := none
  EnableNetworkAddressUsageMetrics : Option AttributeBooleanValue := none
  VpcId : Option String := none
  deriving DecidableEq, Repr

/-- The fields of `ec2.SubnetCidrReservation` that identify it. -/
structure SubnetCidrReservation where
  SubnetCidrReservationId : Option String := none
  SubnetId : Option String := none
  Cidr : Option String := none
  deriving DecidableEq, Repr

/-- The output of `GetSubnetCidrReservations`. -/
structure GetSubnetCidrReservationsOutput where
  SubnetIpv4CidrReservations : List (Option SubnetCidrReservation) := []
  SubnetIpv6CidrReservations : List (Option SubnetCidrReservation) := []
  deriving DecidableEq, Repr

/-- A page of `DescribeSecurityGroupRules`. -/
structure DescribeSecurityGroupRulesOutput where
  SecurityGroupRules : List (Option SecurityGroupRule) := []
  deriving DecidableEq, Repr

/-- A page of `DescribeInternetGateways`. -/
structure DescribeInternetGatewaysOutput where
  InternetGateways : List (Option InternetGateway) := []
  deriving DecidableEq, Repr

/-- The answer with no page and no error. -/
def Paged.nothing {P : Type} : Paged P :=
  ⟨[], none⟩

/-- What the service answers to the calls of one SDK v2 paginator: the pages that
`NextPage` returns, in order, and the error with which the call after them fails (`none` when
the last page says that nothing follows). A page returned without error is not `nil`. -/
structure Pager (P : Type) where
  pages : List P
  err : Option GoError

/-- The paginator that returns no page and no error. -/
def Pager.nothing {P : Type} : Pager P :=
  ⟨[], none⟩

/-- The EC2 client `conn *ec2.EC2`, as far as the finders use it: for each paginated
describe operation, what the service answers to a request, and for the two operations
without pages what the call returns (an output, which may be `nil`, and an error). -/
structure EC2 where
  DescribeVpcsPages : DescribeVpcsInput → Paged DescribeVpcsOutput := fun _ => Paged.nothing
  DescribeSubnetsPages : DescribeSubnetsInput → Paged DescribeSubnetsOutput :=
    fun _ => Paged.nothing
  DescribeSecurityGroupsPages :
    DescribeSecurityGroupsInput → Paged DescribeSecurityGroupsOutput := fun _ => Paged.nothing
  DescribeVpcEndpointsPages :
    DescribeVpcEndpointsInput → Paged DescribeVpcEndpointsOutput := fun _ => Paged.nothing
  DescribeVpcEndpointServiceConfigurationsPages :
    DescribeVpcEndpointServiceConfigurationsInput →
      Paged DescribeVpcEndpointServiceConfigurationsOutput := fun _ => Paged.nothing
  DescribeVpcPeeringConnectionsPages :
    DescribeVpcPeeringConnectionsInput → Paged DescribeVpcPeeringConnectionsOutput :=
    fun _ => Paged.nothing
  DescribeNatGatewaysPages : DescribeNatGatewaysInput → Paged DescribeNatGatewaysOutput :=
    fun _ => Paged.nothing
  DescribeVpcEndpointServicePermissionsPages :
    DescribeVpcEndpointServicePermissionsInput →
      Paged DescribeVpcEndpointServicePermissionsOutput := fun _ => Paged.nothing
  DescribeNetworkAclsPages : DescribeNetworkAclsInput → Paged DescribeNetworkAclsOutput :=
    fun _ => Paged.nothing
  DescribeTrafficMirrorFiltersPages :
    DescribeTrafficMirrorFiltersInput → Paged DescribeTrafficMirrorFiltersOutput :=
    fun _ => Paged.nothing
  DescribeSecurityGroupRulesPages :
    DescribeSecurityGroupRulesInput → Paged DescribeSecurityGroupRulesOutput :=
    fun _ => Paged.nothing
  DescribeInternetGatewaysPages :
    DescribeInternetGatewaysInput → Paged DescribeInternetGatewaysOutput :=
    fun _ => Paged.nothing
  DescribeVpcAttribute :
    DescribeVpcAttributeInput → Option DescribeVpcAttributeOutput × Option GoError :=
    fun _ => (some {}, none)
  GetSubnetCidrReservations :
    GetSubnetCidrReservationsInput → Option GetSubnetCidrReservationsOutput × Option GoError :=
    fun _ => (some {}, none)

/-- The SDK v2 client `conn *ec2_sdkv2.Client`, as far as the finders use it: what
`DescribeAddresses` returns (an output, which may be `nil`, and an error), and what the
paginators of the two paginated operations return. -/
structure Client where
  DescribeAddresses : DescribeAddressesInput → Option DescribeAddressesOutput × Option GoError :=
    fun _ => (some {}, none)
  DescribeVerifiedAccessEndpoints :
    DescribeVerifiedAccessEndpointsInput → Pager DescribeVerifiedAccessEndpointsOutput :=
    fun _ => Pager.nothing
  DescribeImportSnapshotTasks :
    DescribeImportSnapshotTasksInput → Pager DescribeImportSnapshotTasksOutput :=
    fun _ => Pager.nothing

/-- The constants of the package that `find.go` uses and that are declared in other files
of the package (`errors.go`, `consts.go`): the finders take them as a parameter. -/
structure Consts where
  errCodeInvalidGroupNotFound : String
  errCodeInvalidSecurityGroupIDNotFound : String
  errCodeInvalidSubnetIDNotFound : String
  errCodeInvalidVPCIDNotFound : String
  errCodeInvalidVPCEndpointIdNotFound : String
  errCodeInvalidVPCEndpointServiceIdNotFound : String
  errCodeInvalidVPCPeeringConnectionIDNotFound : String
  errCodeNatGatewayNotFound : String
  vpcEndpointStateDeleted : String
  errCodeInvalidNetworkACLIDNotFound : String
  errCodeInvalidTrafficMirrorFilterIdNotFound : String
  errCodeInvalidAddressNotFound : String
  errCodeInvalidAllocationIDNotFound : String
  errCodeAuthFailure : String
  errCodeInvalidVerifiedAccessEndpointIdNotFound : String
  errCodeInvalidConversionTaskIdMalformed : String
  errCodeInvalidSecurityGroupRuleIdNotFound : String
  errCodeInvalidInternetGatewayIDNotFound : String
  deriving DecidableEq, Repr

/-- The SDK's `ec2.NatGatewayStateDeleted`. -/
def NatGatewayStateDeleted : String := "deleted"

/-- The SDK's `ec2.ServiceStateDeleted`. -/
def ServiceStateDeleted : String := "Deleted"

/-- The SDK's `ec2.ServiceStateFailed`. -/
def ServiceStateFailed : String := "Failed"

/-- The SDK's `ec2.VpcPeeringConnectionStateReasonCodeDeleted`. -/
def VpcPeeringConnectionStateReasonCodeDeleted : String := "deleted"

/-- The SDK's `ec2.VpcPeeringConnectionStateReasonCodeExpired`. -/
def VpcPeeringConnectionStateReasonCodeExpired : String := "expired"

/-- The SDK's `ec2.VpcPeeringConnectionStateReasonCodeFailed`. -/
def VpcPeeringConnectionStateReasonCodeFailed : String := "failed"

/-- The SDK's `ec2.VpcPeeringConnectionStateReasonCodeRejected`. -/
def VpcPeeringConnectionStateReasonCodeRejected : String := "rejected"

/-- The SDK's `ec2.VpcPeeringConnectionStateReasonCodeDeleting`. -/
def VpcPeeringConnectionStateReasonCodeDeleting : String := "deleting"

/-- The SDK's `ec2.VpcPeeringConnectionStateReasonCodePendingAcceptance`. -/
def VpcPeeringConnectionStateReasonCodePendingAcceptance : String := "pending-acceptance"

/-- The SDK's `ec2.VpcCidrBlockStateCodeDisassociated`. -/
def VpcCidrBlockStateCodeDisassociated : String := "disassociated"

/-- The SDK v2 constant `awstypes.VerifiedAccessEndpointStatusCodeDeleted`. -/
def VerifiedAccessEndpointStatusCodeDeleted : String := "deleted"

/-- The SDK's `ec2.SubnetCidrBlockStateCodeDisassociated`. -/
def SubnetCidrBlockStateCodeDisassociated : String := "disassociated"

/-- The SDK's `ec2.VpcAttributeNameEnableDnsHostnames`. -/
def VpcAttributeNameEnableDnsHostnames : String := "enableDnsHostnames"

/-- The SDK's `ec2.VpcAttributeNameEnableDnsSupport`. -/
def VpcAttributeNameEnableDnsSupport : String := "enableDnsSupport"

/-- The SDK's `ec2.VpcAttributeNameEnableNetworkAddressUsageMetrics`. -/
def VpcAttributeNameEnableNetworkAddressUsageMetrics : String :=
  "enableNetworkAddressUsageMetrics"

/-- Go `aws.BoolValue`: the value a `*bool` points to, `false` for `nil`. -/
def BoolValue : Option Bool → Bool
  | some b => b
  | none => false

/-- Go `aws.Int64Value`: the value an `*int64` points to, `0` for `nil`. -/
def Int64Value : Option Int → Int
  | some n => n
  | none => 0

/-- Go `strconv.FormatBool`. -/
def FormatBool (b : Bool) : String :=
  if b then "true" else "false"

/-- Go `strconv.Itoa`: the decimal text of an integer. -/
def Itoa (n : Int) : String :=
  toString n

/-- Go `strings.Contains`: `substr` occurs in `s`. -/
def stringsContains (s substr : String) : Bool :=
  s.data.tails.any (fun t => substr.data.isPrefixOf t)

/-- Go `tfawserr.ErrMessageContains` of the SDK v2: the error is an API error with the code
`code` whose message contains `message`. -/
def ErrMessageContains (err : Option GoError) (code message : String) : Bool :=
  match err with
  | some (.aws c m) => c == code && stringsContains m message
  | _ => false

/-! ## The finders -/

/-- The tail every plural finder shares after the paginated call: an error whose code is one
of `codes` becomes a `retry.NotFoundError` with that error as `LastError` and the request as
`LastRequest`, any other error is returned as it is, and without an error the collected
slice is returned. -/
def finish {α : Type} (codes : List String) (request : Request)
    (r : List (Option α) × Option GoError) : Except Err (List (Option α)) :=
  if ErrCodeEquals r.2 codes then
    .error (.NotFound { LastError := r.2, LastRequest := some request })
  else
    match r.2 with
    | some err => .error (.plain err)
    | none => .ok r.1

/-- Go `FindVPCs`. -/
def FindVPCs (k : Consts) (conn : EC2) (input : DescribeVpcsInput) :
    Except Err (List (Option Vpc)) :=
  finish [k.errCodeInvalidVPCIDNotFound] (.describeVpcs input)
    ((conn.DescribeVpcsPages input).PagesWithContext (pageFn DescribeVpcsOutput.Vpcs) [])

/-- Go `FindVPC`. -/
def FindVPC (k : Consts) (conn : EC2) (input : DescribeVpcsInput) : Except Err Vpc :=
  match FindVPCs k conn input with
  | .error err => .error err
  | .ok output => AssertSinglePtrResult output []

/-- Go `FindVPCByID`. -/
def FindVPCByID (k : Consts) (conn : EC2) (id : String) : Except Err Vpc :=
  let input : DescribeVpcsInput := { VpcIds := StringSlice [id] }
  match FindVPC k conn input with
  | .error err => .error err
  | .ok output =>
    -- Eventual consistency check.
    if StringValue output.VpcId != id then
      .error (.NotFound { LastRequest := some (.describeVpcs input) })
    else
      .ok output

/-- Go `FindSubnets`. -/
def FindSubnets (k : Consts) (conn : EC2) (input : DescribeSubnetsInput) :
    Except Err (List (Option Subnet)) :=
  finish [k.errCodeInvalidSubnetIDNotFound] (.describeSubnets input)
    ((conn.DescribeSubnetsPages input).PagesWithContext
      (pageFn DescribeSubnetsOutput.Subnets) [])

/-- Go `FindSubnet`. -/
def FindSubnet (k : Consts) (conn : EC2) (input : DescribeSubnetsInput) : Except Err Subnet :=
  match FindSubnets k conn input with
  | .error err => .error err
  | .ok output => AssertSinglePtrResult output []

/-- Go `FindSecurityGroups`. -/
def FindSecurityGroups (k : Consts) (conn : EC2) (input : DescribeSecurityGroupsInput) :
    Except Err (List (Option SecurityGroup)) :=
  finish [k.errCodeInvalidGroupNotFound, k.errCodeInvalidSecurityGroupIDNotFound]
    (.describeSecurityGroups input)
    ((conn.DescribeSecurityGroupsPages input).PagesWithContext
      (pageFn DescribeSecurityGroupsOutput.SecurityGroups) [])

/-- Go `FindSecurityGroup`. -/
def FindSecurityGroup (k : Consts) (conn : EC2) (input : DescribeSecurityGroupsInput) :
    Except Err SecurityGroup :=
  match FindSecurityGroups k conn input with
  | .error err => .error err
  | .ok output => AssertSinglePtrResult output []

/-- Go `FindVPCEndpoints`. -/
def FindVPCEndpoints (k : Consts) (conn : EC2) (input : DescribeVpcEndpointsInput) :
    Except Err (List (Option VpcEndpoint)) :=
  finish [k.errCodeInvalidVPCEndpointIdNotFound] (.describeVpcEndpoints input)
    ((conn.DescribeVpcEndpointsPages input).PagesWithContext
      (pageFn DescribeVpcEndpointsOutput.VpcEndpoints) [])

/-- Go `FindVPCEndpoint`. -/
def FindVPCEndpoint (k : Consts) (conn : EC2) (input : DescribeVpcEndpointsInput) :
    Except Err VpcEndpoint :=
  match FindVPCEndpoints k conn input with
  | .error err => .error err
  | .ok output => AssertSinglePtrResult output []

/-- Go `FindVPCEndpointByID`. -/
def FindVPCEndpointByID (k : Consts) (conn : EC2) (id : String) : Except Err VpcEndpoint :=
  let input : DescribeVpcEndpointsInput := { VpcEndpointIds := StringSlice [id] }
  match FindVPCEndpoint k conn input with
  | .error err => .error err
  | .ok output =>
    let state := StringValue output.State
    if state == k.vpcEndpointStateDeleted then
      .error (.NotFound { Message := state, LastRequest := some (.describeVpcEndpoints input) })
    -- Eventual consistency check.
    else if StringValue output.VpcEndpointId != id then
      .error (.NotFound { LastRequest := some (.describeVpcEndpoints input) })
    else
      .ok output

/-- Go `FindVPCEndpointServiceConfigurations`. -/
def FindVPCEndpointServiceConfigurations (k : Consts) (conn : EC2)
    (input : DescribeVpcEndpointServiceConfigurationsInput) :
    Except Err (List (Option ServiceConfiguration)) :=
  finish [k.errCodeInvalidVPCEndpointServiceIdNotFound]
    (.describeVpcEndpointServiceConfigurations input)
    ((conn.DescribeVpcEndpointServiceConfigurationsPages input).PagesWithContext
      (pageFn DescribeVpcEndpointServiceConfigurationsOutput.ServiceConfigurations) [])

/-- Go `FindVPCEndpointServiceConfiguration`. -/
def FindVPCEndpointServiceConfiguration (k : Consts) (conn : EC2)
    (input : DescribeVpcEndpointServiceConfigurationsInput) : Except Err ServiceConfiguration :=
  match FindVPCEndpointServiceConfigurations k conn input with
  | .error err => .error err
  | .ok output => AssertSinglePtrResult output []

/-- Go `FindVPCEndpointServiceConfigurationByID`. -/
def FindVPCEndpointServiceConfigurationByID (k : Consts) (conn : EC2) (id : String) :
    Except Err ServiceConfiguration :=
  let input : DescribeVpcEndpointServiceConfigurationsInput := { ServiceIds := StringSlice [id] }
  match FindVPCEndpointServiceConfiguration k conn input with
  | .error err => .error err
  | .ok output =>
    let state := StringValue output.ServiceState
    if state == ServiceStateDeleted || state == ServiceStateFailed then
      .error (.NotFound
        { Message := state, LastRequest := some (.describeVpcEndpointServiceConfigurations input) })
    -- Eventual consistency check.
    else if StringValue output.ServiceId != id then
      .error (.NotFound { LastRequest := some (.describeVpcEndpointServiceConfigurations input) })
    else
      .ok output

/-- The text `fmt.Errorf` builds in `FindVPCEndpointRouteTableAssociationExists`. -/
def routeTableAssociationNotFound (vpcEndpointID routeTableID : String) : GoError :=
  .text ("VPC Endpoint (" ++ vpcEndpointID ++ ") Route Table (" ++ routeTableID
    ++ ") Association not found")

/-- Go `FindVPCEndpointRouteTableAssociationExists`; the result is the returned `error`,
`none` for `nil`. -/
def FindVPCEndpointRouteTableAssociationExists (k : Consts) (conn : EC2)
    (vpcEndpointID routeTableID : String) : Option Err :=
  match FindVPCEndpointByID k conn vpcEndpointID with
  | .error err => some err
  | .ok vpcEndpoint =>
    if vpcEndpoint.RouteTableIds.any
        (fun vpcEndpointRouteTableID => StringValue vpcEndpointRouteTableID == routeTableID) then
      none
    else
      some (.NotFound { LastError := some (routeTableAssociationNotFound vpcEndpointID routeTableID) })

/-- The text `fmt.Errorf` builds in `FindVPCEndpointSecurityGroupAssociationExists`. -/
def securityGroupAssociationNotFound (vpcEndpointID securityGroupID : String) : GoError :=
  .text ("VPC Endpoint (" ++ vpcEndpointID ++ ") Security Group (" ++ securityGroupID
    ++ ") Association not found")

/-- The loop of `FindVPCEndpointSecurityGroupAssociationExists` over `vpcEndpoint.Groups`:
`some true` when it returns `nil` at a group with the identifier, `some false` when it runs
to the end, `none` when it reads `group.GroupId` of a `nil` group. -/
def scanGroups (securityGroupID : String) : List (Option SecurityGroupIdentifier) → Option Bool
  | [] => some false
  | none :: _ => none
  | some group :: rest =>
    if StringValue group.GroupId == securityGroupID then some true
    else scanGroups securityGroupID rest

/-- Go `FindVPCEndpointSecurityGroupAssociationExists`; `ok ()` is the `nil` error. -/
def FindVPCEndpointSecurityGroupAssociationExists (k : Consts) (conn : EC2)
    (vpcEndpointID securityGroupID : String) : Outcome Unit :=
  match FindVPCEndpointByID k conn vpcEndpointID with
  | .error err => .error err
  | .ok vpcEndpoint =>
    match scanGroups securityGroupID vpcEndpoint.Groups with
    | none => .panic
    | some true => .ok ()
    | some false =>
      .error (.NotFound
        { LastError := some (securityGroupAssociationNotFound vpcEndpointID securityGroupID) })

/-- Go `FindVPCPeeringConnections`. -/
def FindVPCPeeringConnections (k : Consts) (conn : EC2)
    (input : DescribeVpcPeeringConnectionsInput) :
    Except Err (List (Option VpcPeeringConnection)) :=
  finish [k.errCodeInvalidVPCPeeringConnectionIDNotFound] (.describeVpcPeeringConnections input)
    ((conn.DescribeVpcPeeringConnectionsPages input).PagesWithContext
      (pageFn DescribeVpcPeeringConnectionsOutput.VpcPeeringConnections) [])

/-- Go `FindVPCPeeringConnection`; the predicate is `v.Status != nil`. -/
def FindVPCPeeringConnection (k : Consts) (conn : EC2)
    (input : DescribeVpcPeeringConnectionsInput) : Except Err VpcPeeringConnection :=
  match FindVPCPeeringConnections k conn input with
  | .error err => .error err
  | .ok output => AssertSinglePtrResult output [fun v => v.Status.isSome]

/-- Go `FindVPCPeeringConnectionByID`. The `switch` reads `output.Status.Code` through the
pointer `output.Status`. -/
def FindVPCPeeringConnectionByID (k : Consts) (conn : EC2) (id : String) :
    Outcome VpcPeeringConnection :=
  let input : DescribeVpcPeeringConnectionsInput := { VpcPeeringConnectionIds := StringSlice [id] }
  match FindVPCPeeringConnection k conn input with
  | .error err => .error err
  | .ok output =>
    match output.Status with
    | none => .panic
    | some status =>
      let statusCode := StringValue status.Code
      if statusCode == VpcPeeringConnectionStateReasonCodeDeleted
          || statusCode == VpcPeeringConnectionStateReasonCodeExpired
          || statusCode == VpcPeeringConnectionStateReasonCodeFailed
          || statusCode == VpcPeeringConnectionStateReasonCodeRejected then
        .error (.NotFound
          { Message := statusCode, LastRequest := some (.describeVpcPeeringConnections input) })
      -- Eventual consistency check.
      else if StringValue output.VpcPeeringConnectionId != id then
        .error (.NotFound { LastRequest := some (.describeVpcPeeringConnections input) })
      else
        .ok output

/-- Go `FindNATGateways`. -/
def FindNATGateways (k : Consts) (conn : EC2) (input : DescribeNatGatewaysInput) :
    Except Err (List (Option NatGateway)) :=
  finish [k.errCodeNatGatewayNotFound] (.describeNatGateways input)
    ((conn.DescribeNatGatewaysPages input).PagesWithContext
      (pageFn DescribeNatGatewaysOutput.NatGateways) [])

/-- Go `FindNATGateway`. -/
def FindNATGateway (k : Consts) (conn : EC2) (input : DescribeNatGatewaysInput) :
    Except Err NatGateway :=
  match FindNATGateways k conn input with
  | .error err => .error err
  | .ok output => AssertSinglePtrResult output []

/-- Go `FindNATGatewayByID`. -/
def FindNATGatewayByID (k : Consts) (conn : EC2) (id : String) : Except Err NatGateway :=
  let input : DescribeNatGatewaysInput := { NatGatewayIds := StringSlice [id] }
  match FindNATGateway k conn input with
  | .error err => .error err
  | .ok output =>
    let state := StringValue output.State
    if state == NatGatewayStateDeleted then
      .error (.NotFound { Message := state, LastRequest := some (.describeNatGateways input) })
    -- Eventual consistency check.
    else if StringValue output.NatGatewayId != id then
      .error (.NotFound { LastRequest := some (.describeNatGateways input) })
    else
      .ok output

/-- Go `FindSubnetByID`. -/
def FindSubnetByID (k : Consts) (conn : EC2) (id : String) : Except Err Subnet :=
  let input : DescribeSubnetsInput := { SubnetIds := StringSlice [id] }
  match FindSubnet k conn input with
  | .error err => .error err
  | .ok output =>
    -- Eventual consistency check.
    if StringValue output.SubnetId != id then
      .error (.NotFound { LastRequest := some (.describeSubnets input) })
    else
      .ok output

/-- Go `FindSecurityGroupByNameAndVPCID`. The package's `newAttributeFilterList`, which is
declared in another file, is a parameter; its argument is the map literal, as the list of
its entries. -/
def FindSecurityGroupByNameAndVPCID
    (newAttributeFilterList : List (String × String) → List (Option Filter))
    (k : Consts) (conn : EC2) (name vpcID : String) : Except Err SecurityGroup :=
  let input : DescribeSecurityGroupsInput :=
    { Filters := newAttributeFilterList [("group-name", name), ("vpc-id", vpcID)] }
  FindSecurityGroup k conn input

/-- Go `FindVPCEndpointServicePermissions`. -/
def FindVPCEndpointServicePermissions (k : Consts) (conn : EC2)
    (input : DescribeVpcEndpointServicePermissionsInput) :
    Except Err (List (Option AllowedPrincipal)) :=
  finish [k.errCodeInvalidVPCEndpointServiceIdNotFound]
    (.describeVpcEndpointServicePermissions input)
    ((conn.DescribeVpcEndpointServicePermissionsPages input).PagesWithContext
      (pageFn DescribeVpcEndpointServicePermissionsOutput.AllowedPrincipals) [])

/-- Modelled from the spec: `tfslices.Filter` of `internal/slices`, which is not among the
sources. It is the step that "filters ... the paginated results into an in-memory
collection": the elements of `s` for which `f` returns `true`, in their order. The predicate
is run on every element; `f` returns `none`, and so does the filter, when the predicate
panics. -/
def tfslices.Filter {α : Type} (s : List α) (f : α → Option Bool) : Option (List α) :=
  match s with
  | [] => some []
  | e :: rest =>
    match f e with
    | none => none
    | some keep =>
      match tfslices.Filter rest f with
      | none => none
      | some v => some (if keep then e :: v else v)

/-- A returned value or error as the outcome of a call that did not panic. -/
def Outcome.ofExcept {α : Type} : Except Err α → Outcome α
  | .ok v => .ok v
  | .error err => .error err

/-- Go `FindVPCEndpointServicePermission`. The predicate of the client-side filter reads
`v.Principal` through the pointer `v`. -/
def FindVPCEndpointServicePermission (k : Consts) (conn : EC2)
    (serviceID principalARN : String) : Outcome AllowedPrincipal :=
  let input : DescribeVpcEndpointServicePermissionsInput := { ServiceId := some serviceID }
  match FindVPCEndpointServicePermissions k conn input with
  | .error err => .error err
  | .ok allowedPrincipals =>
    match tfslices.Filter allowedPrincipals (fun v =>
        match v with
        | none => none
        | some v => some (StringValue v.Principal == principalARN)) with
    | none => .panic
    | some allowedPrincipals => Outcome.ofExcept (AssertSinglePtrResult allowedPrincipals [])

/-- Go `findEIPs`. -/
def findEIPs (k : Consts) (conn : Client) (input : DescribeAddressesInput) :
    Except Err (List Address) :=
  let r := conn.DescribeAddresses input
  if ErrCodeEquals r.2 [k.errCodeInvalidAddressNotFound, k.errCodeInvalidAllocationIDNotFound]
      || ErrMessageContains r.2 k.errCodeAuthFailure "does not belong to you" then
    .error (.NotFound { LastError := r.2, LastRequest := some (.describeAddresses input) })
  else
    match r.2 with
    | some err => .error (.plain err)
    | none =>
      match r.1 with
      | none => .error (.EmptyResult (some (.describeAddresses input)))
      | some output => .ok output.Addresses

/-- The loop of `FindVPCCIDRBlockAssociationByID` over `vpc.CidrBlockAssociationSet`. It
reads `association.AssociationId` through the element and, at an element with the
identifier, `association.CidrBlockState.State` through its `CidrBlockState`. -/
def cidrBlockAssociationLoop (id : String) (vpc : Vpc) :
    List (Option VpcCidrBlockAssociation) → Outcome (VpcCidrBlockAssociation × Vpc)
  | [] => .error (.NotFound {})
  | none :: _ => .panic
  | some association :: rest =>
    if StringValue association.AssociationId == id then
      match association.CidrBlockState with
      | none => .panic
      | some cidrBlockState =>
        let state := StringValue cidrBlockState.State
        if state == VpcCidrBlockStateCodeDisassociated then
          .error (.NotFound { Message := state })
        else
          .ok (association, vpc)
    else
      cidrBlockAssociationLoop id vpc rest

/-- Go `FindVPCCIDRBlockAssociationByID`; the two returned pointers are a pair. -/
def FindVPCCIDRBlockAssociationByID
    (newAttributeFilterList : List (String × String) → List (Option Filter))
    (k : Consts) (conn : EC2) (id : String) : Outcome (VpcCidrBlockAssociation × Vpc) :=
  let input : DescribeVpcsInput :=
    { Filters := newAttributeFilterList [("cidr-block-association.association-id", id)] }
  match FindVPC k conn input with
  | .error err => .error err
  | .ok vpc => cidrBlockAssociationLoop id vpc vpc.CidrBlockAssociationSet

/-- Modelled from the spec: `tfresource.AssertSingleValueResult` of `internal/tfresource`,
which is not among the sources. It is the step "collapse to single-or-error" on a slice of
values: no element is an empty-result error, more than one a too-many-results error carrying
their number, and the single element is returned unless one of the predicates `fs` rejects
it, which is an empty-result error. -/
def AssertSingleValueResult {α : Type} (a : List α) (fs : List (α → Bool)) : Except Err α :=
  match a with
  | [] => .error (.EmptyResult none)
  | [v] => if fs.all (fun f => f v) then .ok v else .error (.EmptyResult none)
  | _ :: _ :: _ => .error (.TooManyResults a.length none)

/-- The loop `for pages.HasMorePages()` of `FindVerifiedAccessEndpoints` on the remaining
answers of the paginator: a page is appended to `output`; when `NextPage` fails, an error
with the not-found code becomes a `retry.NotFoundError` and any other error is returned. -/
def verifiedAccessEndpointsLoop (k : Consts) (input : DescribeVerifiedAccessEndpointsInput)
    (err : Option GoError) :
    List DescribeVerifiedAccessEndpointsOutput → List VerifiedAccessEndpoint →
      Except Err (List VerifiedAccessEndpoint)
  | [], output =>
    match err with
    | none => .ok output
    | some err =>
      if ErrCodeEquals (some err) [k.errCodeInvalidVerifiedAccessEndpointIdNotFound] then
        .error (.NotFound
          { LastError := some err, LastRequest := some (.describeVerifiedAccessEndpoints input) })
      else
        .error (.plain err)
  | page :: rest, output =>
    verifiedAccessEndpointsLoop k input err rest (output ++ page.VerifiedAccessEndpoints)

/-- Go `FindVerifiedAccessEndpoints`. -/
def FindVerifiedAccessEndpoints (k : Consts) (conn : Client)
    (input : DescribeVerifiedAccessEndpointsInput) : Except Err (List VerifiedAccessEndpoint) :=
  verifiedAccessEndpointsLoop k input (conn.DescribeVerifiedAccessEndpoints input).err
    (conn.DescribeVerifiedAccessEndpoints input).pages []

/-- Go `FindVerifiedAccessEndpoint`. -/
def FindVerifiedAccessEndpoint (k : Consts) (conn : Client)
    (input : DescribeVerifiedAccessEndpointsInput) : Except Err VerifiedAccessEndpoint :=
  match FindVerifiedAccessEndpoints k conn input with
  | .error err => .error err
  | .ok output => AssertSingleValueResult output []

/-- Go `FindVerifiedAccessEndpointByID`; `aws_sdkv2.ToString` is `StringValue`. -/
def FindVerifiedAccessEndpointByID (k : Consts) (conn : Client) (id : String) :
    Except Err VerifiedAccessEndpoint :=
  let input : DescribeVerifiedAccessEndpointsInput := { VerifiedAccessEndpointIds := [id] }
  match FindVerifiedAccessEndpoint k conn input with
  | .error err => .error err
  | .ok output =>
    let checked : Except Err VerifiedAccessEndpoint :=
      -- Eventual consistency check.
      if StringValue output.VerifiedAccessEndpointId != id then
        .error (.NotFound { LastRequest := some (.describeVerifiedAccessEndpoints input) })
      else
        .ok output
    match output.Status with
    | some status =>
      if status.Code == VerifiedAccessEndpointStatusCodeDeleted then
        .error (.NotFound
          { Message := status.Code
            LastRequest := some (.describeVerifiedAccessEndpoints input) })
      else
        checked
    | none => checked

/-- Go `FindNetworkACLs`. -/
def FindNetworkACLs (k : Consts) (conn : EC2) (input : DescribeNetworkAclsInput) :
    Except Err (List (Option NetworkAcl)) :=
  finish [k.errCodeInvalidNetworkACLIDNotFound] (.describeNetworkAcls input)
    ((conn.DescribeNetworkAclsPages input).PagesWithContext
      (pageFn DescribeNetworkAclsOutput.NetworkAcls) [])

/-- Go `FindNetworkACL`. -/
def FindNetworkACL (k : Consts) (conn : EC2) (input : DescribeNetworkAclsInput) :
    Except Err NetworkAcl :=
  match FindNetworkACLs k conn input with
  | .error err => .error err
  | .ok output => AssertSinglePtrResult output []

/-- The loop of `FindNetworkACLEntryByThreePartKey` over `output.Entries`; it reads `v.Egress`
and `v.RuleNumber` through the element `v`. -/
def networkACLEntryLoop (egress : Bool) (ruleNumber : Int) :
    List (Option NetworkAclEntry) → Outcome NetworkAclEntry
  | [] => .error (.NotFound {})
  | none :: _ => .panic
  | some v :: rest =>
    if BoolValue v.Egress == egress && Int64Value v.RuleNumber == ruleNumber then .ok v
    else networkACLEntryLoop egress ruleNumber rest

/-- Go `FindNetworkACLEntryByThreePartKey`. -/
def FindNetworkACLEntryByThreePartKey
    (newAttributeFilterList : List (String × String) → List (Option Filter))
    (k : Consts) (conn : EC2) (naclID : String) (egress : Bool) (ruleNumber : Int) :
    Outcome NetworkAclEntry :=
  let input : DescribeNetworkAclsInput :=
    { Filters := newAttributeFilterList
        [("entry.egress", FormatBool egress), ("entry.rule-number", Itoa ruleNumber)]
      NetworkAclIds := StringSlice [naclID] }
  match FindNetworkACL k conn input with
  | .error err => .error err
  | .ok output => networkACLEntryLoop egress ruleNumber output.Entries

/-- Go `FindTrafficMirrorFilters`. -/
def FindTrafficMirrorFilters (k : Consts) (conn : EC2)
    (input : DescribeTrafficMirrorFiltersInput) :
    Except Err (List (Option TrafficMirrorFilter)) :=
  finish [k.errCodeInvalidTrafficMirrorFilterIdNotFound] (.describeTrafficMirrorFilters input)
    ((conn.DescribeTrafficMirrorFiltersPages input).PagesWithContext
      (pageFn DescribeTrafficMirrorFiltersOutput.TrafficMirrorFilters) [])

/-- Go `FindTrafficMirrorFilter`. -/
def FindTrafficMirrorFilter (k : Consts) (conn : EC2)
    (input : DescribeTrafficMirrorFiltersInput) : Except Err TrafficMirrorFilter :=
  match FindTrafficMirrorFilters k conn input with
  | .error err => .error err
  | .ok output => AssertSinglePtrResult output []

/-- Go `FindTrafficMirrorFilterByID`. -/
def FindTrafficMirrorFilterByID (k : Consts) (conn : EC2) (id : String) :
    Except Err TrafficMirrorFilter :=
  let input : DescribeTrafficMirrorFiltersInput := { TrafficMirrorFilterIds := StringSlice [id] }
  match FindTrafficMirrorFilter k conn input with
  | .error err => .error err
  | .ok output =>
    -- Eventual consistency check.
    if StringValue output.TrafficMirrorFilterId != id then
      .error (.NotFound { LastRequest := some (.describeTrafficMirrorFilters input) })
    else
      .ok output

/-- The inner loop of `FindTrafficMirrorFilterRuleByTwoPartKey` over one list of rules:
`some (some v)` when it returns the rule `v`, `some none` when it runs to the end, `none` when
it reads `v.TrafficMirrorFilterRuleId` of a `nil` rule. -/
def trafficMirrorFilterRuleLoop (ruleID : String) :
    List (Option TrafficMirrorFilterRule) → Option (Option TrafficMirrorFilterRule)
  | [] => some none
  | none :: _ => none
  | some v :: rest =>
    if StringValue v.TrafficMirrorFilterRuleId == ruleID then some (some v)
    else trafficMirrorFilterRuleLoop ruleID rest

/-- The outer loop of `FindTrafficMirrorFilterRuleByTwoPartKey` over the lists of rules. -/
def trafficMirrorFilterRuleLoops (ruleID : String) :
    List (List (Option TrafficMirrorFilterRule)) → Outcome TrafficMirrorFilterRule
  | [] => .error (.NotFound {})
  | v :: rest =>
    match trafficMirrorFilterRuleLoop ruleID v with
    | none => .panic
    | some (some rule) => .ok rule
    | some none => trafficMirrorFilterRuleLoops ruleID rest

/-- Go `FindTrafficMirrorFilterRuleByTwoPartKey`. -/
def FindTrafficMirrorFilterRuleByTwoPartKey (k : Consts) (conn : EC2)
    (filterID ruleID : String) : Outcome TrafficMirrorFilterRule :=
  match FindTrafficMirrorFilterByID k conn filterID with
  | .error err => .error err
  | .ok output =>
    trafficMirrorFilterRuleLoops ruleID [output.IngressFilterRules, output.EgressFilterRules]

/-- The loop `for pages.HasMorePages()` of `FindImportSnapshotTasks` on the remaining answers
of the paginator: a page is appended to `output`; when `NextPage` fails, an error whose code
is `errCodeInvalidConversionTaskIdMalformed` or `"not found"` becomes a
`retry.NotFoundError` and any other error is returned. -/
def importSnapshotTasksLoop (k : Consts) (input : DescribeImportSnapshotTasksInput)
    (err : Option GoError) :
    List DescribeImportSnapshotTasksOutput → List ImportSnapshotTask →
      Except Err (List ImportSnapshotTask)
  | [], output =>
    match err with
    | none => .ok output
    | some err =>
      if ErrCodeEquals (some err) [k.errCodeInvalidConversionTaskIdMalformed, "not found"] then
        .error (.NotFound
          { LastError := some err, LastRequest := some (.describeImportSnapshotTasks input) })
      else
        .error (.plain err)
  | page :: rest, output =>
    importSnapshotTasksLoop k input err rest (output ++ page.ImportSnapshotTasks)

/-- Go `FindImportSnapshotTasks`. -/
def FindImportSnapshotTasks (k : Consts) (conn : Client)
    (input : DescribeImportSnapshotTasksInput) : Except Err (List ImportSnapshotTask) :=
  importSnapshotTasksLoop k input (conn.DescribeImportSnapshotTasks input).err
    (conn.DescribeImportSnapshotTasks input).pages []

/-- The loop of `FindSubnetIPv6CIDRBlockAssociationByID` over
`output.Ipv6CidrBlockAssociationSet`. It reads `association.AssociationId` through the
element and, at an element with the identifier, `association.Ipv6CidrBlockState.State`
through its `Ipv6CidrBlockState`. -/
def subnetIPv6CIDRBlockAssociationLoop (associationID : String) :
    List (Option SubnetIpv6CidrBlockAssociation) → Outcome SubnetIpv6CidrBlockAssociation
  | [] => .error (.NotFound {})
  | none :: _ => .panic
  | some association :: rest =>
    if StringValue association.AssociationId == associationID then
      match association.Ipv6CidrBlockState with
      | none => .panic
      | some ipv6CidrBlockState =>
        let state := StringValue ipv6CidrBlockState.State
        if state == SubnetCidrBlockStateCodeDisassociated then
          .error (.NotFound { Message := state })
        else
          .ok association
    else
      subnetIPv6CIDRBlockAssociationLoop associationID rest

/-- Go `FindSubnetIPv6CIDRBlockAssociationByID`. -/
def FindSubnetIPv6CIDRBlockAssociationByID
    (newAttributeFilterList : List (String × String) → List (Option Filter))
    (k : Consts) (conn : EC2) (associationID : String) :
    Outcome SubnetIpv6CidrBlockAssociation :=
  let input : DescribeSubnetsInput :=
    { Filters := newAttributeFilterList
        [("ipv6-cidr-block-association.association-id", associationID)] }
  match FindSubnet k conn input with
  | .error err => .error err
  | .ok output =>
    subnetIPv6CIDRBlockAssociationLoop associationID output.Ipv6CidrBlockAssociationSet

/-- Go `FindSecurityGroupRules`. -/
def FindSecurityGroupRules (k : Consts) (conn : EC2) (input : DescribeSecurityGroupRulesInput) :
    Except Err (List (Option SecurityGroupRule)) :=
  finish [k.errCodeInvalidSecurityGroupRuleIdNotFound] (.describeSecurityGroupRules input)
    ((conn.DescribeSecurityGroupRulesPages input).PagesWithContext
      (pageFn DescribeSecurityGroupRulesOutput.SecurityGroupRules) [])

/-- Go `FindSecurityGroupRule`. -/
def FindSecurityGroupRule (k : Consts) (conn : EC2) (input : DescribeSecurityGroupRulesInput) :
    Except Err SecurityGroupRule :=
  match FindSecurityGroupRules k conn input with
  | .error err => .error err
  | .ok output => AssertSinglePtrResult output []

/-- Go `FindSecurityGroupRuleByID`. -/
def FindSecurityGroupRuleByID (k : Consts) (conn : EC2) (id : String) :
    Except Err SecurityGroupRule :=
  let input : DescribeSecurityGroupRulesInput := { SecurityGroupRuleIds := StringSlice [id] }
  match FindSecurityGroupRule k conn input with
  | .error err => .error err
  | .ok output =>
    -- Eventual consistency check.
    if StringValue output.SecurityGroupRuleId != id then
      .error (.NotFound { LastRequest := some (.describeSecurityGroupRules input) })
    else
      .ok output

/-- Go `FindSecurityGroupEgressRuleByID`. -/
def FindSecurityGroupEgressRuleByID (k : Consts) (conn : EC2) (id : String) :
    Except Err SecurityGroupRule :=
  match FindSecurityGroupRuleByID k conn id with
  | .error err => .error err
  | .ok output =>
    if !BoolValue output.IsEgress then .error (.NotFound {})
    else .ok output

/-- Go `FindSecurityGroupIngressRuleByID`. -/
def FindSecurityGroupIngressRuleByID (k : Consts) (conn : EC2) (id : String) :
    Except Err SecurityGroupRule :=
  match FindSecurityGroupRuleByID k conn id with
  | .error err => .error err
  | .ok output =>
    if BoolValue output.IsEgress then .error (.NotFound {})
    else .ok output

/-- Go `FindInternetGateways`. -/
def FindInternetGateways (k : Consts) (conn : EC2) (input : DescribeInternetGatewaysInput) :
    Except Err (List (Option InternetGateway)) :=
  finish [k.errCodeInvalidInternetGatewayIDNotFound] (.describeInternetGateways input)
    ((conn.DescribeInternetGatewaysPages input).PagesWithContext
      (pageFn DescribeInternetGatewaysOutput.InternetGateways) [])

/-- Go `FindInternetGateway`. -/
def FindInternetGateway (k : Consts) (conn : EC2) (input : DescribeInternetGatewaysInput) :
    Except Err InternetGateway :=
  match FindInternetGateways k conn input with
  | .error err => .error err
  | .ok output => AssertSinglePtrResult output []

/-- Go `FindInternetGatewayByID`. -/
def FindInternetGatewayByID (k : Consts) (conn : EC2) (id : String) :
    Except Err InternetGateway :=
  let input : DescribeInternetGatewaysInput := { InternetGatewayIds := StringSlice [id] }
  match FindInternetGateway k conn input with
  | .error err => .error err
  | .ok output =>
    -- Eventual consistency check.
    if StringValue output.InternetGatewayId != id then
      .error (.NotFound { LastRequest := some (.describeInternetGateways input) })
    else
      .ok output

/-- Go `FindInternetGatewayAttachment`. The first two alternatives are the test
`len(internetGateway.Attachments) == 0 || internetGateway.Attachments[0] == nil`, so the
attachment read afterwards is not `nil`. -/
def FindInternetGatewayAttachment (k : Consts) (conn : EC2)
    (internetGatewayID vpcID : String) : Except Err InternetGatewayAttachment :=
  match FindInternetGatewayByID k conn internetGatewayID with
  | .error err => .error err
  | .ok internetGateway =>
    match internetGateway.Attachments with
    | [] => .error (.EmptyResult (some (.id internetGatewayID)))
    | none :: _ => .error (.EmptyResult (some (.id internetGatewayID)))
    | some attachment :: _ =>
      let count := internetGateway.Attachments.length
      if count > 1 then
        .error (.TooManyResults count (some (.id internetGatewayID)))
      else if StringValue attachment.VpcId != vpcID then
        .error (.EmptyResult (some (.id vpcID)))
      else
        .ok attachment

/-- The text `fmt.Errorf` builds in `FindVPCAttribute`. -/
def unsupportedVPCAttribute (attributeName : String) : GoError :=
  .text ("unsupported VPC attribute: " ++ attributeName)

/-- Go `FindVPCAttribute`; its parameter `attribute` is `attributeName` here. -/
def FindVPCAttribute (k : Consts) (conn : EC2) (vpcID attributeName : String) :
    Except Err Bool :=
  let input : DescribeVpcAttributeInput :=
    { Attribute := some attributeName, VpcId := some vpcID }
  let r := conn.DescribeVpcAttribute input
  if ErrCodeEquals r.2 [k.errCodeInvalidVPCIDNotFound] then
    .error (.NotFound { LastError := r.2, LastRequest := some (.describeVpcAttribute input) })
  else
    match r.2 with
    | some err => .error (.plain err)
    | none =>
      match r.1 with
      | none => .error (.EmptyResult (some (.describeVpcAttribute input)))
      | some output =>
        let v : Except Err (Option AttributeBooleanValue) :=
          if attributeName == VpcAttributeNameEnableDnsHostnames then
            .ok output.EnableDnsHostnames
          else if attributeName == VpcAttributeNameEnableDnsSupport then
            .ok output.EnableDnsSupport
          else if attributeName == VpcAttributeNameEnableNetworkAddressUsageMetrics then
            .ok output.EnableNetworkAddressUsageMetrics
          else
            .error (.plain (unsupportedVPCAttribute attributeName))
        match v with
        | .error err => .error err
        | .ok none => .error (.EmptyResult (some (.describeVpcAttribute input)))
        | .ok (some v) => .ok (BoolValue v.Value)

/-- One loop of `FindSubnetCIDRReservationBySubnetIDAndReservationID` over a list of
reservations: `some (some r)` when it returns the reservation `r`, `some none` when it runs to
the end, `none` when it reads `r.SubnetCidrReservationId` of a `nil` reservation. -/
def subnetCidrReservationLoop (reservationID : String) :
    List (Option SubnetCidrReservation) → Option (Option SubnetCidrReservation)
  | [] => some none
  | none :: _ => none
  | some r :: rest =>
    if StringValue r.SubnetCidrReservationId == reservationID then some (some r)
    else subnetCidrReservationLoop reservationID rest

/-- Go `FindSubnetCIDRReservationBySubnetIDAndReservationID`. In the last error `LastError`
is the variable `err`, which is `nil` there. -/
def FindSubnetCIDRReservationBySubnetIDAndReservationID (k : Consts) (conn : EC2)
    (subnetID reservationID : String) : Outcome SubnetCidrReservation :=
  let input : GetSubnetCidrReservationsInput := { SubnetId := some subnetID }
  let r := conn.GetSubnetCidrReservations input
  if ErrCodeEquals r.2 [k.errCodeInvalidSubnetIDNotFound] then
    .error (.NotFound { LastError := r.2 })
  else
    match r.2 with
    | some err => .error (.plain err)
    | none =>
      match r.1 with
      | none => .error (.EmptyResult (some (.getSubnetCidrReservations input)))
      | some output =>
        if output.SubnetIpv4CidrReservations.length == 0
            && output.SubnetIpv6CidrReservations.length == 0 then
          .error (.EmptyResult (some (.getSubnetCidrReservations input)))
        else
          match subnetCidrReservationLoop reservationID output.SubnetIpv4CidrReservations with
          | none => .panic
          | some (some r) => .ok r
          | some none =>
            match subnetCidrReservationLoop reservationID output.SubnetIpv6CidrReservations with
            | none => .panic
            | some (some r) => .ok r
            | some none =>
              .error (.NotFound
                { LastError := none, LastRequest := some (.getSubnetCidrReservations input) })

/-! ## The finders of a subnet with the call as an effect -/

/-- The service behind `conn`, with its state: `DescribeSubnetsPages` takes the state in which
a request arrives and gives the answer and the state after the request. The state is
whatever the answers depend on; it may record the requests. The call is the only effect of
the finders of a subnet, which have no variable of their own to read or write. -/
structure Service (σ : Type) where
  DescribeSubnetsPages : σ → DescribeSubnetsInput → Paged DescribeSubnetsOutput × σ

namespace Stateful

/-- Go `FindSubnets`, with the call `conn.DescribeSubnetsPagesWithContext` as a step of the
service. -/
def FindSubnets {σ : Type} (k : Consts) (conn : Service σ) (input : DescribeSubnetsInput)
    (s : σ) : Except Err (List (Option Subnet)) × σ :=
  let answer := conn.DescribeSubnetsPages s input
  (finish [k.errCodeInvalidSubnetIDNotFound] (.describeSubnets input)
    (answer.1.PagesWithContext (pageFn DescribeSubnetsOutput.Subnets) []), answer.2)

/-- Go `FindSubnet`, with the call as a step of the service. -/
def FindSubnet {σ : Type} (k : Consts) (conn : Service σ) (input : DescribeSubnetsInput)
    (s : σ) : Except Err Subnet × σ :=
  let r := FindSubnets k conn input s
  (match r.1 with
    | .error err => .error err
    | .ok output => AssertSinglePtrResult output [], r.2)

/-- Go `FindSubnetByID`, with the call as a step of the service. -/
def FindSubnetByID {σ : Type} (k : Consts) (conn : Service σ) (id : String) (s : σ) :
    Except Err Subnet × σ :=
  let input : DescribeSubnetsInput := { SubnetIds := StringSlice [id] }
  let r := FindSubnet k conn input s
  (match r.1 with
    | .error err => .error err
    | .ok output =>
      -- Eventual consistency check.
      if StringValue output.SubnetId != id then
        .error (.NotFound { LastRequest := some (.describeSubnets input) })
      else
        .ok output, r.2)

end Stateful

/-! ## What the service returned -/

/-- The non-nil records of the non-nil pages of an answer, in page order and then in-page
order. -/
def Paged.records {P α : Type} (items : P → List (Option α)) (resp : Paged P) : List α :=
  (resp.pages.filterMap id).flatMap (fun page => (items page).filterMap id)

/-- The error a plural finder returns when its describe call ends with the error `err`. -/
def callError (codes : List String) (request : Request) (err : GoError) : Err :=
  if ErrCodeEquals (some err) codes then
    .NotFound { LastError := some err, LastRequest := some request }
  else
    .plain err

/-- A client whose `DescribeVpcs` answers every request with one page holding one VPC
record without a `VpcId`. -/
def connVpcWithoutId : EC2 :=
  { DescribeVpcsPages := fun _ => ⟨[some { Vpcs := [some {}] }], none⟩ }

/-- A client whose `DescribeVpcs` answers every request with one page holding the VPC
`vpc-1`. -/
def connVpc1 : EC2 :=
  { DescribeVpcsPages := fun _ => ⟨[some { Vpcs := [some { VpcId := some "vpc-1" }] }], none⟩ }

/-- A client whose `DescribeSubnets` answers every request with two pages, a `nil` page
between them and a `nil` record in the first: the subnets `subnet-a`, then `subnet-b`. -/
def connTwoSubnets : EC2 :=
  { DescribeSubnetsPages := fun _ =>
      ⟨[some { Subnets := [none, some { SubnetId := some "subnet-a" }] }, none,
        some { Subnets := [some { SubnetId := some "subnet-b" }] }], none⟩ }

/-- A client whose `DescribeSubnets` answers every request with one page holding the subnet
`subnet-a`. -/
def connOneSubnet : EC2 :=
  { DescribeSubnetsPages := fun _ =>
      ⟨[some { Subnets := [some { SubnetId := some "subnet-a" }] }], none⟩ }

/-- A client whose `DescribeSecurityGroups` succeeds with one page without a record. -/
def connNoSecurityGroup : EC2 :=
  { DescribeSecurityGroupsPages := fun _ => ⟨[some { SecurityGroups := [] }], none⟩ }

/-- A client whose `DescribeSecurityGroups` fails with the code `InvalidGroup.NotFound`. -/
def connSecurityGroupNotFound : EC2 :=
  { DescribeSecurityGroupsPages := fun _ =>
      ⟨[], some (.aws "InvalidGroup.NotFound" "The security group does not exist")⟩ }

/-- A client whose `DescribeSecurityGroups` fails with the code `RequestLimitExceeded`. -/
def connSecurityGroupThrottled : EC2 :=
  { DescribeSecurityGroupsPages := fun _ =>
      ⟨[], some (.aws "RequestLimitExceeded" "Request limit exceeded.")⟩ }

/-- A client whose `DescribeVpcPeeringConnections` answers every request with the single
connection `pcx-1`, whose status has no code. -/
def connPeeringWithoutCode : EC2 :=
  { DescribeVpcPeeringConnectionsPages := fun _ =>
      ⟨[some { VpcPeeringConnections :=
          [some { VpcPeeringConnectionId := some "pcx-1", Status := some {} }] }], none⟩ }

/-- A client whose `DescribeVpcPeeringConnections` answers every request with the single
connection `pcx-1` in the status `code`. -/
def connPeering (code : String) : EC2 :=
  { DescribeVpcPeeringConnectionsPages := fun _ =>
      ⟨[some { VpcPeeringConnections :=
          [some { VpcPeeringConnectionId := some "pcx-1"
                  Status := some { Code := some code } }] }], none⟩ }

/-- A client whose `DescribeNatGateways` answers every request with the single gateway
`nat-1` in the state `state`. -/
def connNatGateway (state : String) : EC2 :=
  { DescribeNatGatewaysPages := fun _ =>
      ⟨[some { NatGateways :=
          [some { NatGatewayId := some "nat-1", State := some state }] }], none⟩ }

/-- A client whose `DescribeVpcEndpointServiceConfigurations` answers every request with the
single service `vpce-svc-1` in the state `state`. -/
def connService (state : String) : EC2 :=
  { DescribeVpcEndpointServiceConfigurationsPages := fun _ =>
      ⟨[some { ServiceConfigurations :=
          [some { ServiceId := some "vpce-svc-1", ServiceState := some state }] }], none⟩ }

/-- A client whose `DescribeVpcEndpoints` answers every request with the single available
endpoint `vpce-1`, with the route table `rtb-1` and the groups `groups`. -/
def connEndpoint (groups : List (Option SecurityGroupIdentifier)) : EC2 :=
  { DescribeVpcEndpointsPages := fun _ =>
      ⟨[some { VpcEndpoints :=
          [some { VpcEndpointId := some "vpce-1", State := some "available"
                  RouteTableIds := [some "rtb-1"], Groups := groups }] }], none⟩ }

/-- A client whose `DescribeVpcEndpoints` fails with the code `RequestLimitExceeded`. -/
def connEndpointThrottled : EC2 :=
  { DescribeVpcEndpointsPages := fun _ =>
      ⟨[], some (.aws "RequestLimitExceeded" "Request limit exceeded.")⟩ }

/-- A builder of filter lists with one filter for every entry of the map, used to evaluate
the finders that take `newAttributeFilterList` at concrete inputs. -/
def filterPerEntry (m : List (String × String)) : List (Option Filter) :=
  m.map (fun e => some { Name := some e.1, Values := [some e.2] })

/-- The non-nil principals, in the answer to the request that carries the service identifier
and nothing else, whose `Principal` is `principalARN`. -/
def principalsMatching (conn : EC2) (serviceID principalARN : String) : List AllowedPrincipal :=
  ((conn.DescribeVpcEndpointServicePermissionsPages { ServiceId := some serviceID }).records
    DescribeVpcEndpointServicePermissionsOutput.AllowedPrincipals).filter
    (fun p => StringValue p.Principal == principalARN)

/-- A client whose `DescribeVpcEndpointServicePermissions` answers every request with the
three principals `arn:a`, `arn:b` and `arn:b`, and a `nil` record. -/
def connPrincipals : EC2 :=
  { DescribeVpcEndpointServicePermissionsPages := fun _ =>
      ⟨[some { AllowedPrincipals :=
          [some { Principal := some "arn:a" }, none, some { Principal := some "arn:b" }] },
        some { AllowedPrincipals := [some { Principal := some "arn:b" }] }], none⟩ }

/-- A client whose `DescribeSecurityGroups` answers every request with the single group
`other` of the VPC `vpc-9`. -/
def connOtherGroup : EC2 :=
  { DescribeSecurityGroupsPages := fun _ =>
      ⟨[some { SecurityGroups :=
          [some { GroupId := some "sg-9", GroupName := some "other"
                  VpcId := some "vpc-9" }] }], none⟩ }

/-- A client whose `DescribeSecurityGroups` answers every request with the single group
`web` of the VPC `vpc-1`. -/
def connWebGroup : EC2 :=
  { DescribeSecurityGroupsPages := fun _ =>
      ⟨[some { SecurityGroups :=
          [some { GroupId := some "sg-1", GroupName := some "web"
                  VpcId := some "vpc-1" }] }], none⟩ }

/-- A client whose `DescribeAddresses` fails with the API error of the code and message
given. -/
def clientAddressesError (code message : String) : Client :=
  { DescribeAddresses := fun _ => (none, some (.aws code message)) }

/-- A client whose `DescribeVpcs` answers every request with the single VPC `vpc-1`, whose
`CidrBlockAssociationSet` is `associations`. -/
def connVpcAssociations (associations : List (Option VpcCidrBlockAssociation)) : EC2 :=
  { DescribeVpcsPages := fun _ =>
      ⟨[some { Vpcs :=
          [some { VpcId := some "vpc-1", CidrBlockAssociationSet := associations }] }], none⟩ }

/-- A client whose paginator of `DescribeVerifiedAccessEndpoints` returns one page with the
endpoint `vae-1`, whose `Status` is `status`. -/
def clientVerifiedAccessEndpoint (status : Option VerifiedAccessEndpointStatus) : Client :=
  { DescribeVerifiedAccessEndpoints := fun _ =>
      ⟨[{ VerifiedAccessEndpoints :=
          [{ VerifiedAccessEndpointId := some "vae-1", Status := status }] }], none⟩ }

/-- A client that answers `DescribeSubnets` as `connOneSubnet` does and, unlike it, answers
`DescribeVpcs` with the VPC `vpc-1`. -/
def connOneSubnetOneVpc : EC2 :=
  { DescribeSubnetsPages := fun _ =>
      ⟨[some { Subnets := [some { SubnetId := some "subnet-a" }] }], none⟩
    DescribeVpcsPages := fun _ =>
      ⟨[some { Vpcs := [some { VpcId := some "vpc-1" }] }], none⟩ }

/-- A client whose `DescribeNetworkAcls` answers every request with the single ACL `acl-1`,
whose `Entries` are `entries`. -/
def connAclEntries (entries : List (Option NetworkAclEntry)) : EC2 :=
  { DescribeNetworkAclsPages := fun _ =>
      ⟨[some { NetworkAcls :=
          [some { NetworkAclId := some "acl-1", Entries := entries }] }], none⟩ }

/-- A client whose `DescribeTrafficMirrorFilters` answers every request with the single
filter `tmf-1` with the ingress and egress rules given. -/
def connTrafficMirrorFilter (ingress egress : List (Option TrafficMirrorFilterRule)) : EC2 :=
  { DescribeTrafficMirrorFiltersPages := fun _ =>
      ⟨[some { TrafficMirrorFilters :=
          [some { TrafficMirrorFilterId := some "tmf-1", IngressFilterRules := ingress
                  EgressFilterRules := egress }] }], none⟩ }

/-- A client whose paginator of `DescribeImportSnapshotTasks` returns one page and then
fails with the API error of the code and message given. -/
def clientImportTasksError (code message : String) : Client :=
  { DescribeImportSnapshotTasks := fun _ =>
      ⟨[{ ImportSnapshotTasks := [{ ImportTaskId := some "import-snap-1" }] }],
        some (.aws code message)⟩ }

/-- A client whose `DescribeVpcPeeringConnections` answers every request with the single
connection `pcx-1`, which has no `Status`. -/
def connPeeringWithoutStatus : EC2 :=
  { DescribeVpcPeeringConnectionsPages := fun _ =>
      ⟨[some { VpcPeeringConnections :=
          [some { VpcPeeringConnectionId := some "pcx-1" }] }], none⟩ }

/-- A client whose `DescribeSubnets` answers every request with the single subnet
`subnet-a`, whose `Ipv6CidrBlockAssociationSet` is `associations`. -/
def connSubnetAssociations (associations : List (Option SubnetIpv6CidrBlockAssociation)) :
    EC2 :=
  { DescribeSubnetsPages := fun _ =>
      ⟨[some { Subnets :=
          [some { SubnetId := some "subnet-a"
                  Ipv6CidrBlockAssociationSet := associations }] }], none⟩ }

/-- A client whose `DescribeSecurityGroupRules` answers every request with the single rule
`sgr-1`, whose `IsEgress` is `isEgress`. -/
def connSecurityGroupRule (isEgress : Option Bool) : EC2 :=
  { DescribeSecurityGroupRulesPages := fun _ =>
      ⟨[some { SecurityGroupRules :=
          [some { SecurityGroupRuleId := some "sgr-1", IsEgress := isEgress }] }], none⟩ }

/-- A client whose `DescribeInternetGateways` answers every request with the single gateway
`igw-1`, whose `Attachments` are `attachments`. -/
def connInternetGateway (attachments : List (Option InternetGatewayAttachment)) : EC2 :=
  { DescribeInternetGatewaysPages := fun _ =>
      ⟨[some { InternetGateways :=
          [some { InternetGatewayId := some "igw-1", Attachments := attachments }] }], none⟩ }

/-- A client whose `DescribeVpcAttribute` returns `output` and no error. -/
def connVpcAttribute (output : DescribeVpcAttributeOutput) : EC2 :=
  { DescribeVpcAttribute := fun _ => (some output, none) }

/-- A client whose `GetSubnetCidrReservations` returns the two reservation lists given and
no error. -/
def connReservations (ipv4 ipv6 : List (Option SubnetCidrReservation)) : EC2 :=
  { GetSubnetCidrReservations := fun _ =>
      (some { SubnetIpv4CidrReservations := ipv4, SubnetIpv6CidrReservations := ipv6 }, none) }

/-- A service whose state is the list of the requests it has received. It answers the first
request with the subnet `subnet-a` and every later request with no subnet. -/
def serviceSubnetOnce : Service (List DescribeSubnetsInput) :=
  { DescribeSubnetsPages := fun requests input =>
      (if requests.isEmpty then
          ⟨[some { Subnets := [some { SubnetId := some "subnet-a" }] }], none⟩
        else
          ⟨[some { Subnets := [] }], none⟩,
        requests ++ [input]) }

/-- Values for the constants, the error codes of the EC2 API, used only to evaluate the
finders at concrete inputs. -/
def awsConsts : Consts where
  errCodeInvalidGroupNotFound := "InvalidGroup.NotFound"
  errCodeInvalidSecurityGroupIDNotFound := "InvalidSecurityGroupID.NotFound"
  errCodeInvalidSubnetIDNotFound := "InvalidSubnetID.NotFound"
  errCodeInvalidVPCIDNotFound := "InvalidVpcID.NotFound"
  errCodeInvalidVPCEndpointIdNotFound := "InvalidVpcEndpointId.NotFound"
  errCodeInvalidVPCEndpointServiceIdNotFound := "InvalidVpcEndpointServiceId.NotFound"
  errCodeInvalidVPCPeeringConnectionIDNotFound := "InvalidVpcPeeringConnectionID.NotFound"
  errCodeNatGatewayNotFound := "NatGatewayNotFound"
  vpcEndpointStateDeleted := "deleted"
  errCodeInvalidNetworkACLIDNotFound := "InvalidNetworkAclID.NotFound"
  errCodeInvalidTrafficMirrorFilterIdNotFound := "InvalidTrafficMirrorFilterId.NotFound"
  errCodeInvalidAddressNotFound := "InvalidAddress.NotFound"
  errCodeInvalidAllocationIDNotFound := "InvalidAllocationID.NotFound"
  errCodeAuthFailure := "AuthFailure"
  errCodeInvalidVerifiedAccessEndpointIdNotFound := "InvalidVerifiedAccessEndpointId.NotFound"
  errCodeInvalidConversionTaskIdMalformed := "InvalidConversionTaskId.Malformed"
  errCodeInvalidSecurityGroupRuleIdNotFound := "InvalidSecurityGroupRuleId.NotFound"
  errCodeInvalidInternetGatewayIDNotFound := "InvalidInternetGatewayID.NotFound"

/-! ## Lemmas on the paginator -/

theorem appendNonNil_eq {α : Type} (items output : List (Option α)) :
    appendNonNil output items = output ++ (items.filterMap id).map some := by
  unfold appendNonNil
  induction items generalizing output with
  | nil => simp
  | cons v rest ih =>
    cases v with
    | none => simpa using ih output
    | some a => simp [ih]

theorem pagesLoop_pageFn {P α : Type} (items : P → List (Option α)) (err : Option GoError)
    (pages : List (Option P)) (output : List (Option α)) :
    pagesLoop (pageFn items) err pages output
      = (output ++ ((Paged.records items ⟨pages, err⟩).map some), err) := by
  induction pages generalizing output with
  | nil => simp [pagesLoop, Paged.records]
  | cons page rest ih =>
    have key : (pageFn items output page (rest.isEmpty && err.isNone)).1
        ++ ((Paged.records items ⟨rest, err⟩).map some)
        = output ++ ((Paged.records items ⟨page :: rest, err⟩).map some) := by
      cases page with
      | none => simp [pageFn, Paged.records]
      | some p => simp [pageFn, Paged.records, appendNonNil_eq]
    have snd : (pageFn items output page (rest.isEmpty && err.isNone)).2
        = !(rest.isEmpty && err.isNone) := by
      cases page <;> rfl
    unfold pagesLoop
    simp only [snd]
    by_cases h : (rest.isEmpty && err.isNone) = true
    · simp only [h, Bool.not_true, Bool.false_eq_true, if_false]
      rw [h] at key
      simp only [Bool.and_eq_true, List.isEmpty_iff, Option.isNone_iff_eq_none] at h
      obtain ⟨hr, he⟩ := h
      subst hr
      subst he
      rw [← key]
      simp [Paged.records]
    · simp only [Bool.not_eq_true] at h
      simp only [h, Bool.not_false, if_true]
      rw [h] at key
      rw [ih, key]

/-- The paginated call with the collecting callback hands back every non-nil record of
every page, in order, together with the error of the call. -/
theorem PagesWithContext_pageFn {P α : Type} (items : P → List (Option α)) (resp : Paged P) :
    resp.PagesWithContext (pageFn items) []
      = ((resp.records items).map some, resp.err) := by
  simpa [Paged.PagesWithContext] using pagesLoop_pageFn items resp.err resp.pages []

/-! ## Lemmas on the shared tail and on the single-result step -/

theorem finish_ok {α : Type} (codes : List String) (request : Request)
    (output : List (Option α)) : finish codes request (output, none) = .ok output := by
  simp [finish, ErrCodeEquals]

theorem finish_code {α : Type} (codes : List String) (request : Request)
    (output : List (Option α)) (err : GoError) (h : ErrCodeEquals (some err) codes = true) :
    finish codes request (output, some err)
      = .error (.NotFound { LastError := some err, LastRequest := some request }) := by
  simp [finish, h]

theorem finish_other {α : Type} (codes : List String) (request : Request)
    (output : List (Option α)) (err : GoError) (h : ErrCodeEquals (some err) codes = false) :
    finish codes request (output, some err) = .error (.plain err) := by
  simp [finish, h]

theorem AssertSinglePtrResult_map_some {α : Type} (l : List α) (fs : List (α → Bool)) :
    AssertSinglePtrResult (l.map some) fs =
      match l with
      | [] => .error (.EmptyResult none)
      | [v] => if fs.all (fun f => f v) then .ok v else .error (.EmptyResult none)
      | _ :: _ :: _ => .error (.TooManyResults l.length none) := by
  match l with
  | [] => rfl
  | [v] => rfl
  | _ :: _ :: _ => simp [AssertSinglePtrResult]

theorem AssertSinglePtrResult_ok_iff {α : Type} (l : List α) (v : α) :
    AssertSinglePtrResult (l.map some) [] = .ok v ↔ l = [v] := by
  rw [AssertSinglePtrResult_map_some]
  match l with
  | [] => simp
  | [w] => simp
  | _ :: _ :: _ => simp

/-- A plural finder, in terms of the answer of the service: the error of the call, mapped
to a `retry.NotFoundError` when its code says so, or the non-nil records of all pages. -/
theorem finish_eq {P α : Type} (codes : List String) (request : Request)
    (items : P → List (Option α)) (resp : Paged P) :
    finish codes request (resp.PagesWithContext (pageFn items) [])
      = match resp.err with
        | some err => .error (callError codes request err)
        | none => .ok ((resp.records items).map some) := by
  rw [PagesWithContext_pageFn]
  cases h : resp.err with
  | none => simp [finish_ok]
  | some err =>
    cases hc : ErrCodeEquals (some err) codes
    · simp [finish_other _ _ _ _ hc, callError, hc]
    · simp [finish_code _ _ _ _ hc, callError, hc]

theorem FindVPC_eq (k : Consts) (conn : EC2) (input : DescribeVpcsInput) :
    FindVPC k conn input
      = match (conn.DescribeVpcsPages input).err with
        | some err => .error (callError [k.errCodeInvalidVPCIDNotFound] (.describeVpcs input) err)
        | none =>
          AssertSinglePtrResult
            (((conn.DescribeVpcsPages input).records DescribeVpcsOutput.Vpcs).map some) [] := by
  unfold FindVPC FindVPCs
  rw [finish_eq]
  cases (conn.DescribeVpcsPages input).err <;> rfl

theorem FindSubnets_eq (k : Consts) (conn : EC2) (input : DescribeSubnetsInput) :
    FindSubnets k conn input
      = match (conn.DescribeSubnetsPages input).err with
        | some err =>
          .error (callError [k.errCodeInvalidSubnetIDNotFound] (.describeSubnets input) err)
        | none =>
          .ok (((conn.DescribeSubnetsPages input).records DescribeSubnetsOutput.Subnets).map
            some) := by
  unfold FindSubnets
  rw [finish_eq]

theorem FindSubnet_eq (k : Consts) (conn : EC2) (input : DescribeSubnetsInput) :
    FindSubnet k conn input
      = match (conn.DescribeSubnetsPages input).err with
        | some err =>
          .error (callError [k.errCodeInvalidSubnetIDNotFound] (.describeSubnets input) err)
        | none =>
          AssertSinglePtrResult
            (((conn.DescribeSubnetsPages input).records DescribeSubnetsOutput.Subnets).map
              some) [] := by
  unfold FindSubnet
  rw [FindSubnets_eq]
  cases (conn.DescribeSubnetsPages input).err <;> rfl

theorem FindSecurityGroups_eq (k : Consts) (conn : EC2) (input : DescribeSecurityGroupsInput) :
    FindSecurityGroups k conn input
      = match (conn.DescribeSecurityGroupsPages input).err with
        | some err =>
          .error (callError
            [k.errCodeInvalidGroupNotFound, k.errCodeInvalidSecurityGroupIDNotFound]
            (.describeSecurityGroups input) err)
        | none =>
          .ok (((conn.DescribeSecurityGroupsPages input).records
            DescribeSecurityGroupsOutput.SecurityGroups).map some) := by
  unfold FindSecurityGroups
  rw [finish_eq]

theorem FindSecurityGroup_eq (k : Consts) (conn : EC2) (input : DescribeSecurityGroupsInput) :
    FindSecurityGroup k conn input
      = match (conn.DescribeSecurityGroupsPages input).err with
        | some err =>
          .error (callError
            [k.errCodeInvalidGroupNotFound, k.errCodeInvalidSecurityGroupIDNotFound]
            (.describeSecurityGroups input) err)
        | none =>
          AssertSinglePtrResult
            (((conn.DescribeSecurityGroupsPages input).records
              DescribeSecurityGroupsOutput.SecurityGroups).map some) [] := by
  unfold FindSecurityGroup
  rw [FindSecurityGroups_eq]
  cases (conn.DescribeSecurityGroupsPages input).err <;> rfl

theorem ErrCodeEquals_two (err : GoError) (a b : String) :
    ErrCodeEquals (some err) [a, b] = true
      ↔ ∃ code message, err = .aws code message ∧ (code = a ∨ code = b) := by
  cases err with
  | aws code message => simp [ErrCodeEquals]
  | text msg => simp [ErrCodeEquals]

theorem FindVPCPeeringConnection_eq (k : Consts) (conn : EC2)
    (input : DescribeVpcPeeringConnectionsInput) :
    FindVPCPeeringConnection k conn input
      = match (conn.DescribeVpcPeeringConnectionsPages input).err with
        | some err =>
          .error (callError [k.errCodeInvalidVPCPeeringConnectionIDNotFound]
            (.describeVpcPeeringConnections input) err)
        | none =>
          AssertSinglePtrResult
            (((conn.DescribeVpcPeeringConnectionsPages input).records
              DescribeVpcPeeringConnectionsOutput.VpcPeeringConnections).map some)
            [fun v => v.Status.isSome] := by
  unfold FindVPCPeeringConnection FindVPCPeeringConnections
  rw [finish_eq]
  cases (conn.DescribeVpcPeeringConnectionsPages input).err <;> rfl

theorem FindNATGateway_eq (k : Consts) (conn : EC2) (input : DescribeNatGatewaysInput) :
    FindNATGateway k conn input
      = match (conn.DescribeNatGatewaysPages input).err with
        | some err =>
          .error (callError [k.errCodeNatGatewayNotFound] (.describeNatGateways input) err)
        | none =>
          AssertSinglePtrResult
            (((conn.DescribeNatGatewaysPages input).records
              DescribeNatGatewaysOutput.NatGateways).map some) [] := by
  unfold FindNATGateway FindNATGateways
  rw [finish_eq]
  cases (conn.DescribeNatGatewaysPages input).err <;> rfl

theorem FindVPCEndpointServiceConfiguration_eq (k : Consts) (conn : EC2)
    (input : DescribeVpcEndpointServiceConfigurationsInput) :
    FindVPCEndpointServiceConfiguration k conn input
      = match (conn.DescribeVpcEndpointServiceConfigurationsPages input).err with
        | some err =>
          .error (callError [k.errCodeInvalidVPCEndpointServiceIdNotFound]
            (.describeVpcEndpointServiceConfigurations input) err)
        | none =>
          AssertSinglePtrResult
            (((conn.DescribeVpcEndpointServiceConfigurationsPages input).records
              DescribeVpcEndpointServiceConfigurationsOutput.ServiceConfigurations).map some)
            [] := by
  unfold FindVPCEndpointServiceConfiguration FindVPCEndpointServiceConfigurations
  rw [finish_eq]
  cases (conn.DescribeVpcEndpointServiceConfigurationsPages input).err <;> rfl

theorem FindVPCEndpoint_eq (k : Consts) (conn : EC2) (input : DescribeVpcEndpointsInput) :
    FindVPCEndpoint k conn input
      = match (conn.DescribeVpcEndpointsPages input).err with
        | some err =>
          .error (callError [k.errCodeInvalidVPCEndpointIdNotFound]
            (.describeVpcEndpoints input) err)
        | none =>
          AssertSinglePtrResult
            (((conn.DescribeVpcEndpointsPages input).records
              DescribeVpcEndpointsOutput.VpcEndpoints).map some) [] := by
  unfold FindVPCEndpoint FindVPCEndpoints
  rw [finish_eq]
  cases (conn.DescribeVpcEndpointsPages input).err <;> rfl

theorem scanGroups_none_match (securityGroupID : String)
    (groups : List (Option SecurityGroupIdentifier))
    (h : ∀ g ∈ groups, ∃ group, g = some group ∧ StringValue group.GroupId ≠ securityGroupID) :
    scanGroups securityGroupID groups = some false := by
  induction groups with
  | nil => rfl
  | cons g rest ih =>
    obtain ⟨group, hg, hne⟩ := h g (List.mem_cons_self _ _)
    subst hg
    have hrest := ih (fun x hx => h x (List.mem_cons_of_mem _ hx))
    simp [scanGroups, hne, hrest]

theorem scanGroups_found (securityGroupID : String)
    (groups : List (Option SecurityGroupIdentifier))
    (h : scanGroups securityGroupID groups = some true) :
    ∃ group, some group ∈ groups ∧ StringValue group.GroupId = securityGroupID := by
  induction groups with
  | nil => simp [scanGroups] at h
  | cons g rest ih =>
    cases g with
    | none => simp [scanGroups] at h
    | some group =>
      by_cases hg : StringValue group.GroupId = securityGroupID
      · exact ⟨group, List.mem_cons_self _ _, hg⟩
      · simp only [scanGroups, beq_iff_eq, hg, if_false] at h
        obtain ⟨group2, hmem, heq⟩ := ih h
        exact ⟨group2, List.mem_cons_of_mem _ hmem, heq⟩

theorem ErrCodeEquals_one (err : GoError) (a : String) :
    ErrCodeEquals (some err) [a] = true ↔ ∃ message, err = .aws a message := by
  cases err with
  | aws code message =>
    simp only [ErrCodeEquals, List.any_cons, List.any_nil, Bool.or_false, beq_iff_eq,
      GoError.aws.injEq]
    constructor
    · intro h
      exact ⟨message, h, rfl⟩
    · rintro ⟨_, h, -⟩
      exact h
  | text msg => simp [ErrCodeEquals]

/-! ## Theorems -/

/-- C1, as stated, fails: `FindVPCByID` called with the empty identifier, on an answer whose
single record has no `VpcId`, returns that record and no error. -/
theorem FindVPCByID_returns_record_without_VpcId :
    (connVpcWithoutId.DescribeVpcsPages { VpcIds := [some ""] }).err = none
      ∧ (connVpcWithoutId.DescribeVpcsPages { VpcIds := [some ""] }).records
          DescribeVpcsOutput.Vpcs = [({} : Vpc)]
      ∧ ({} : Vpc).VpcId = none
      ∧ FindVPCByID awsConsts connVpcWithoutId "" = .ok {} := by
  refine ⟨rfl, rfl, rfl, ?_⟩
  rfl

/-- C1, amended: a VPC that `FindVPCByID` returns has a `VpcId` that, read with
`aws.StringValue` (absent is the empty string), equals `id`; and when the call succeeds with
a single record whose `VpcId`, read so, differs from `id`, the result is the
`retry.NotFoundError` whose `LastRequest` is the request built from `id` and whose other
fields are unset. An absent `VpcId` is such a difference for every `id` but the empty one. -/
theorem FindVPCByID_consistency (k : Consts) (conn : EC2) (id : String) :
    (∀ v, FindVPCByID k conn id = .ok v → StringValue v.VpcId = id)
      ∧ (∀ v, (conn.DescribeVpcsPages { VpcIds := [some id] }).err = none →
          (conn.DescribeVpcsPages { VpcIds := [some id] }).records DescribeVpcsOutput.Vpcs = [v] →
          StringValue v.VpcId ≠ id →
          FindVPCByID k conn id
            = .error (.NotFound { LastRequest := some (.describeVpcs { VpcIds := [some id] }) }))
      ∧ (∀ v, (conn.DescribeVpcsPages { VpcIds := [some id] }).err = none →
          (conn.DescribeVpcsPages { VpcIds := [some id] }).records DescribeVpcsOutput.Vpcs = [v] →
          v.VpcId = none → id ≠ "" →
          FindVPCByID k conn id
            = .error (.NotFound { LastRequest := some (.describeVpcs { VpcIds := [some id] }) })) := by
  have hb : ∀ v, (conn.DescribeVpcsPages { VpcIds := [some id] }).err = none →
      (conn.DescribeVpcsPages { VpcIds := [some id] }).records DescribeVpcsOutput.Vpcs = [v] →
      StringValue v.VpcId ≠ id →
      FindVPCByID k conn id
        = .error (.NotFound { LastRequest := some (.describeVpcs { VpcIds := [some id] }) }) := by
    intro v herr hrec hne
    have hf : FindVPC k conn { VpcIds := [some id] } = .ok v := by
      rw [FindVPC_eq, herr, hrec]
      rfl
    simp [FindVPCByID, StringSlice, hf, hne]
  refine ⟨?_, hb, ?_⟩
  · intro v h
    unfold FindVPCByID at h
    cases hf : FindVPC k conn { VpcIds := StringSlice [id] } with
    | error e => simp [hf] at h
    | ok output =>
      simp only [hf] at h
      split at h
      · cases h
      · rename_i hc
        cases h
        simpa using hc
  · intro v herr hrec hnone hid
    apply hb v herr hrec
    rw [hnone]
    exact fun h => hid h.symm

/-- The amended C1 at a concrete answer: asked for `vpc-2`, the service returns the single
record `vpc-1`. -/
theorem FindVPCByID_consistency_witness :
    StringValue (some "vpc-1") ≠ "vpc-2"
      ∧ FindVPCByID awsConsts connVpc1 "vpc-2"
        = .error (.NotFound { LastRequest := some (.describeVpcs { VpcIds := [some "vpc-2"] }) }) :=
  ⟨by decide,
    (FindVPCByID_consistency awsConsts connVpc1 "vpc-2").2.1 { VpcId := some "vpc-1" } rfl rfl
      (by decide)⟩

/-- C2: `FindSubnet` returns a subnet without error exactly when the describe call succeeds
and the non-nil records of all its pages are exactly one record, which is the one returned;
after a successful call with no record it fails with the empty-result error, and with two or
more records with the too-many-results error carrying their number. -/
theorem FindSubnet_single_or_error (k : Consts) (conn : EC2) (input : DescribeSubnetsInput) :
    (∀ v, FindSubnet k conn input = .ok v
        ↔ (conn.DescribeSubnetsPages input).err = none
          ∧ (conn.DescribeSubnetsPages input).records DescribeSubnetsOutput.Subnets = [v])
      ∧ ((conn.DescribeSubnetsPages input).err = none →
          (conn.DescribeSubnetsPages input).records DescribeSubnetsOutput.Subnets = [] →
          FindSubnet k conn input = .error (.EmptyResult none))
      ∧ ((conn.DescribeSubnetsPages input).err = none →
          2 ≤ ((conn.DescribeSubnetsPages input).records DescribeSubnetsOutput.Subnets).length →
          FindSubnet k conn input
            = .error (.TooManyResults
                ((conn.DescribeSubnetsPages input).records DescribeSubnetsOutput.Subnets).length
                none)) := by
  rw [FindSubnet_eq]
  refine ⟨?_, ?_, ?_⟩
  · intro v
    cases herr : (conn.DescribeSubnetsPages input).err with
    | some err => simp
    | none => simpa using AssertSinglePtrResult_ok_iff _ v
  · intro herr hrec
    rw [herr, hrec]
    rfl
  · intro herr hlen
    rw [herr]
    simp only [AssertSinglePtrResult_map_some]
    match h : (conn.DescribeSubnetsPages input).records DescribeSubnetsOutput.Subnets with
    | [] => simp [h] at hlen
    | [_] => simp [h] at hlen
    | _ :: _ :: _ => rfl

/-- C2 at concrete answers: one subnet is returned as it is, and of two subnets none is
chosen. -/
theorem FindSubnet_single_or_error_witness :
    FindSubnet awsConsts connOneSubnet {} = .ok { SubnetId := some "subnet-a" }
      ∧ FindSubnet awsConsts connTwoSubnets {} = .error (.TooManyResults 2 none) :=
  ⟨((FindSubnet_single_or_error awsConsts connOneSubnet {}).1 _).2 ⟨rfl, rfl⟩,
    (FindSubnet_single_or_error awsConsts connTwoSubnets {}).2.2 rfl (by decide)⟩

/-- C3, the failing input: `DescribeSecurityGroups` succeeds with one page that holds no
security group. `FindSecurityGroup` passes on the error of the single-result step, which is
the empty-result error and no `retry.NotFoundError`, although its comment says "Returns a
retry.NotFoundError if not found". -/
theorem FindSecurityGroup_empty_is_not_NotFoundError :
    (connNoSecurityGroup.DescribeSecurityGroupsPages {}).err = none
      ∧ (connNoSecurityGroup.DescribeSecurityGroupsPages {}).records
          DescribeSecurityGroupsOutput.SecurityGroups = []
      ∧ FindSecurityGroup awsConsts connNoSecurityGroup {} = .error (.EmptyResult none)
      ∧ ¬ ∃ e, FindSecurityGroup awsConsts connNoSecurityGroup {} = .error (.NotFound e) := by
  have h : FindSecurityGroup awsConsts connNoSecurityGroup {} = .error (.EmptyResult none) := rfl
  refine ⟨rfl, rfl, h, ?_⟩
  rintro ⟨e, he⟩
  rw [h] at he
  cases he

/-- The two errors with which `FindSecurityGroup` says that no security group was found:
when the describe call fails with one of the two not-found codes, a `retry.NotFoundError`
(holding that error and the request); when the call succeeds with an empty result set, the
empty-result error of the single-result step. -/
theorem FindSecurityGroup_not_found (k : Consts) (conn : EC2)
    (input : DescribeSecurityGroupsInput) :
    (∀ code message,
        (conn.DescribeSecurityGroupsPages input).err = some (.aws code message) →
        code = k.errCodeInvalidGroupNotFound ∨ code = k.errCodeInvalidSecurityGroupIDNotFound →
        FindSecurityGroup k conn input
          = .error (.NotFound
              { LastError := some (.aws code message)
                LastRequest := some (.describeSecurityGroups input) }))
      ∧ ((conn.DescribeSecurityGroupsPages input).err = none →
          (conn.DescribeSecurityGroupsPages input).records
            DescribeSecurityGroupsOutput.SecurityGroups = [] →
          FindSecurityGroup k conn input = .error (.EmptyResult none)) := by
  rw [FindSecurityGroup_eq]
  constructor
  · intro code message herr hcode
    have hc : ErrCodeEquals (some (.aws code message))
        [k.errCodeInvalidGroupNotFound, k.errCodeInvalidSecurityGroupIDNotFound] = true :=
      (ErrCodeEquals_two _ _ _).2 ⟨code, message, rfl, hcode⟩
    rw [herr]
    simp [callError, hc]
  · intro herr hrec
    rw [herr, hrec]
    rfl

/-- The two not-found errors of `FindSecurityGroup` at concrete answers: the not-found code
and the empty result set. -/
theorem FindSecurityGroup_not_found_witness :
    FindSecurityGroup awsConsts connSecurityGroupNotFound {}
        = .error (.NotFound
            { LastError := some (.aws "InvalidGroup.NotFound" "The security group does not exist")
              LastRequest := some (.describeSecurityGroups {}) })
      ∧ FindSecurityGroup awsConsts connNoSecurityGroup {} = .error (.EmptyResult none) :=
  ⟨(FindSecurityGroup_not_found awsConsts connSecurityGroupNotFound {}).1 _ _ rfl (Or.inl rfl),
    (FindSecurityGroup_not_found awsConsts connNoSecurityGroup {}).2 rfl rfl⟩

/-- C4: when the paginated call of `FindSecurityGroups` ends with an error whose code is
`errCodeInvalidGroupNotFound` or `errCodeInvalidSecurityGroupIDNotFound`, the result is a
`retry.NotFoundError` whose `LastError` is that error and whose `LastRequest` is the input;
when it ends with any other error, that error is returned as it is. In both cases no list is
returned. -/
theorem FindSecurityGroups_error (k : Consts) (conn : EC2) (input : DescribeSecurityGroupsInput)
    (err : GoError) (herr : (conn.DescribeSecurityGroupsPages input).err = some err) :
    ((∃ code message, err = .aws code message
          ∧ (code = k.errCodeInvalidGroupNotFound
            ∨ code = k.errCodeInvalidSecurityGroupIDNotFound)) →
        FindSecurityGroups k conn input
          = .error (.NotFound
              { LastError := some err, LastRequest := some (.describeSecurityGroups input) }))
      ∧ ((¬ ∃ code message, err = .aws code message
          ∧ (code = k.errCodeInvalidGroupNotFound
            ∨ code = k.errCodeInvalidSecurityGroupIDNotFound)) →
        FindSecurityGroups k conn input = .error (.plain err)) := by
  rw [FindSecurityGroups_eq, herr]
  constructor
  · intro h
    have hc := (ErrCodeEquals_two err _ _).2 h
    simp [callError, hc]
  · intro h
    have hc : ErrCodeEquals (some err)
        [k.errCodeInvalidGroupNotFound, k.errCodeInvalidSecurityGroupIDNotFound] = false := by
      rw [← Bool.not_eq_true]
      exact fun hc => h ((ErrCodeEquals_two err _ _).1 hc)
    simp [callError, hc]

/-- C4 at a concrete answer: a throttling error passes through unchanged. -/
theorem FindSecurityGroups_error_witness :
    FindSecurityGroups awsConsts connSecurityGroupThrottled {}
      = .error (.plain (.aws "RequestLimitExceeded" "Request limit exceeded.")) :=
  (FindSecurityGroups_error awsConsts connSecurityGroupThrottled {} _ rfl).2
    (by simp [awsConsts])

/-- C5: after a successful paginated call, `FindSubnets` returns exactly the non-nil records
of the non-nil pages, in page order and then in-page order, each once: the callback is run
on every page up to the last. -/
theorem FindSubnets_all_records (k : Consts) (conn : EC2) (input : DescribeSubnetsInput)
    (herr : (conn.DescribeSubnetsPages input).err = none) :
    FindSubnets k conn input
      = .ok (((conn.DescribeSubnetsPages input).pages.filterMap id).flatMap
          (fun page => (page.Subnets.filterMap id).map some)) := by
  rw [FindSubnets_eq, herr]
  simp [Paged.records, List.map_flatMap]

/-- C5 at a concrete answer of three pages, one of them `nil`, with a `nil` record. -/
theorem FindSubnets_all_records_witness :
    FindSubnets awsConsts connTwoSubnets {}
      = .ok [some { SubnetId := some "subnet-a" }, some { SubnetId := some "subnet-b" }] :=
  FindSubnets_all_records awsConsts connTwoSubnets {} rfl

/-- C6, as stated, fails: a single connection whose status has no code and whose identifier
differs from `id` yields a `retry.NotFoundError` whose `Message` is that (empty) status
code, and the code is none of deleted, expired, failed, rejected. -/
theorem FindVPCPeeringConnectionByID_empty_code_mismatch :
    FindVPCPeeringConnectionByID awsConsts connPeeringWithoutCode "pcx-2"
        = .error (.NotFound
            { Message := StringValue (none : Option String)
              LastRequest :=
                some (.describeVpcPeeringConnections
                  { VpcPeeringConnectionIds := [some "pcx-2"] }) })
      ∧ StringValue (none : Option String) ≠ VpcPeeringConnectionStateReasonCodeDeleted
      ∧ StringValue (none : Option String) ≠ VpcPeeringConnectionStateReasonCodeExpired
      ∧ StringValue (none : Option String) ≠ VpcPeeringConnectionStateReasonCodeFailed
      ∧ StringValue (none : Option String) ≠ VpcPeeringConnectionStateReasonCodeRejected := by
  refine ⟨rfl, ?_, ?_, ?_, ?_⟩ <;> decide

/-- C6, amended: when the describe call yields exactly one peering connection and it has a
status, `FindVPCPeeringConnectionByID` fails with a `retry.NotFoundError` whose `Message` is
the status code if and only if that code is one of deleted, expired, failed or rejected, or
the code is empty and the connection's identifier differs from `id`. With one of the four
codes the error is raised before the identifiers are compared, and a connection in any
other status whose `VpcPeeringConnectionId` equals `id` is returned without error. -/
theorem FindVPCPeeringConnectionByID_status (k : Consts) (conn : EC2) (id : String)
    (pc : VpcPeeringConnection) (status : VpcPeeringConnectionStateReason)
    (herr : (conn.DescribeVpcPeeringConnectionsPages
      { VpcPeeringConnectionIds := [some id] }).err = none)
    (hrec : (conn.DescribeVpcPeeringConnectionsPages
      { VpcPeeringConnectionIds := [some id] }).records
        DescribeVpcPeeringConnectionsOutput.VpcPeeringConnections = [pc])
    (hst : pc.Status = some status) :
    ((∃ e, FindVPCPeeringConnectionByID k conn id = .error (.NotFound e)
          ∧ e.Message = StringValue status.Code)
        ↔ ((StringValue status.Code = VpcPeeringConnectionStateReasonCodeDeleted
            ∨ StringValue status.Code = VpcPeeringConnectionStateReasonCodeExpired
            ∨ StringValue status.Code = VpcPeeringConnectionStateReasonCodeFailed
            ∨ StringValue status.Code = VpcPeeringConnectionStateReasonCodeRejected)
          ∨ (StringValue status.Code = ""
            ∧ StringValue pc.VpcPeeringConnectionId ≠ id)))
      ∧ ((StringValue status.Code = VpcPeeringConnectionStateReasonCodeDeleted
            ∨ StringValue status.Code = VpcPeeringConnectionStateReasonCodeExpired
            ∨ StringValue status.Code = VpcPeeringConnectionStateReasonCodeFailed
            ∨ StringValue status.Code = VpcPeeringConnectionStateReasonCodeRejected) →
          FindVPCPeeringConnectionByID k conn id
            = .error (.NotFound
                { Message := StringValue status.Code
                  LastRequest :=
                    some (.describeVpcPeeringConnections
                      { VpcPeeringConnectionIds := [some id] }) }))
      ∧ (¬ (StringValue status.Code = VpcPeeringConnectionStateReasonCodeDeleted
            ∨ StringValue status.Code = VpcPeeringConnectionStateReasonCodeExpired
            ∨ StringValue status.Code = VpcPeeringConnectionStateReasonCodeFailed
            ∨ StringValue status.Code = VpcPeeringConnectionStateReasonCodeRejected) →
          StringValue pc.VpcPeeringConnectionId = id →
          FindVPCPeeringConnectionByID k conn id = .ok pc) := by
  have hf : FindVPCPeeringConnection k conn { VpcPeeringConnectionIds := [some id] }
      = .ok pc := by
    rw [FindVPCPeeringConnection_eq, herr, hrec]
    simp [AssertSinglePtrResult, hst]
  by_cases hgone : StringValue status.Code = VpcPeeringConnectionStateReasonCodeDeleted
      ∨ StringValue status.Code = VpcPeeringConnectionStateReasonCodeExpired
      ∨ StringValue status.Code = VpcPeeringConnectionStateReasonCodeFailed
      ∨ StringValue status.Code = VpcPeeringConnectionStateReasonCodeRejected
  · have hres : FindVPCPeeringConnectionByID k conn id
        = .error (.NotFound
            { Message := StringValue status.Code
              LastRequest :=
                some (.describeVpcPeeringConnections
                  { VpcPeeringConnectionIds := [some id] }) }) := by
      simp only [FindVPCPeeringConnectionByID, StringSlice, List.map, hf, hst]
      rw [if_pos]
      simpa [or_assoc] using hgone
    refine ⟨?_, fun _ => hres, fun h => absurd hgone h⟩
    rw [hres]
    simp [hgone]
  · have hcond : ¬ ((StringValue status.Code == VpcPeeringConnectionStateReasonCodeDeleted
          || StringValue status.Code == VpcPeeringConnectionStateReasonCodeExpired
          || StringValue status.Code == VpcPeeringConnectionStateReasonCodeFailed
          || StringValue status.Code == VpcPeeringConnectionStateReasonCodeRejected) = true) := by
      simpa [or_assoc] using hgone
    by_cases hid : StringValue pc.VpcPeeringConnectionId = id
    · have hres : FindVPCPeeringConnectionByID k conn id = .ok pc := by
        simp only [FindVPCPeeringConnectionByID, StringSlice, List.map, hf, hst]
        rw [if_neg hcond]
        simp [hid]
      refine ⟨?_, fun h => absurd h hgone, fun _ _ => hres⟩
      rw [hres]
      simp [hgone, hid]
    · have hres : FindVPCPeeringConnectionByID k conn id
          = .error (.NotFound
              { LastRequest :=
                  some (.describeVpcPeeringConnections
                    { VpcPeeringConnectionIds := [some id] }) }) := by
        simp only [FindVPCPeeringConnectionByID, StringSlice, List.map, hf, hst]
        rw [if_neg hcond]
        simp [hid]
      refine ⟨?_, fun h => absurd h hgone, fun _ h => absurd h hid⟩
      rw [hres]
      simp only [hgone, false_or]
      constructor
      · rintro ⟨e, he, hm⟩
        cases he
        exact ⟨hm.symm, hid⟩
      · intro h
        exact ⟨_, rfl, h.1.symm⟩

/-- The amended C6 at concrete answers: a connection in the status `deleted` with the
requested identifier is reported as not found, one in the status `deleting` is returned. -/
theorem FindVPCPeeringConnectionByID_status_witness :
    FindVPCPeeringConnectionByID awsConsts (connPeering "deleted") "pcx-1"
        = .error (.NotFound
            { Message := "deleted"
              LastRequest :=
                some (.describeVpcPeeringConnections
                  { VpcPeeringConnectionIds := [some "pcx-1"] }) })
      ∧ FindVPCPeeringConnectionByID awsConsts (connPeering "deleting") "pcx-1"
        = .ok { VpcPeeringConnectionId := some "pcx-1"
                Status := some { Code := some "deleting" } } :=
  ⟨(FindVPCPeeringConnectionByID_status awsConsts (connPeering "deleted") "pcx-1" _ _
      rfl rfl rfl).2.1 (Or.inl rfl),
    (FindVPCPeeringConnectionByID_status awsConsts (connPeering "deleting") "pcx-1" _ _
      rfl rfl rfl).2.2 (by decide) rfl⟩

/-- C7: `FindNATGatewayByID` never returns a NAT gateway in the state deleted: a gateway it
returns has a `State` other than deleted and a `NatGatewayId` that, read with
`aws.StringValue` as the code reads it, equals `id`; and when the call succeeds with a single
record in the state deleted, the result is the `retry.NotFoundError` whose `Message` is that
state, whatever the record's identifier. -/
theorem FindNATGatewayByID_never_deleted (k : Consts) (conn : EC2) (id : String) :
    (∀ gw, FindNATGatewayByID k conn id = .ok gw →
        gw.State ≠ some NatGatewayStateDeleted
          ∧ StringValue gw.State ≠ NatGatewayStateDeleted
          ∧ StringValue gw.NatGatewayId = id)
      ∧ (∀ gw, (conn.DescribeNatGatewaysPages { NatGatewayIds := [some id] }).err = none →
          (conn.DescribeNatGatewaysPages { NatGatewayIds := [some id] }).records
            DescribeNatGatewaysOutput.NatGateways = [gw] →
          StringValue gw.State = NatGatewayStateDeleted →
          FindNATGatewayByID k conn id
            = .error (.NotFound
                { Message := StringValue gw.State
                  LastRequest :=
                    some (.describeNatGateways { NatGatewayIds := [some id] }) })) := by
  constructor
  · intro gw h
    unfold FindNATGatewayByID at h
    cases hf : FindNATGateway k conn { NatGatewayIds := StringSlice [id] } with
    | error e => simp [hf] at h
    | ok output =>
      simp only [hf] at h
      split at h
      · cases h
      · rename_i hstate
        split at h
        · cases h
        · rename_i hid
          cases h
          have hs : StringValue gw.State ≠ NatGatewayStateDeleted := by simpa using hstate
          refine ⟨?_, hs, by simpa using hid⟩
          intro hsome
          exact hs (by rw [hsome]; rfl)
  · intro gw herr hrec hstate
    have hf : FindNATGateway k conn { NatGatewayIds := [some id] } = .ok gw := by
      rw [FindNATGateway_eq, herr, hrec]
      rfl
    simp [FindNATGatewayByID, StringSlice, hf, hstate]

/-- C7 at a concrete answer: the gateway `nat-1`, asked for by its identifier, is in the
state deleted. -/
theorem FindNATGatewayByID_never_deleted_witness :
    FindNATGatewayByID awsConsts (connNatGateway "deleted") "nat-1"
      = .error (.NotFound
          { Message := "deleted"
            LastRequest := some (.describeNatGateways { NatGatewayIds := [some "nat-1"] }) }) :=
  (FindNATGatewayByID_never_deleted awsConsts (connNatGateway "deleted") "nat-1").2
    { NatGatewayId := some "nat-1", State := some "deleted" } rfl rfl rfl

/-- C8: `FindVPCEndpointServiceConfigurationByID` returns a service configuration without
error if and only if the describe call returned exactly one non-nil record, its
`ServiceState` is neither Deleted nor Failed and its `ServiceId` equals `id` (both read with
`aws.StringValue`); a single record in the state Deleted or Failed yields the
`retry.NotFoundError` whose `Message` is that state. -/
theorem FindVPCEndpointServiceConfigurationByID_iff (k : Consts) (conn : EC2) (id : String) :
    (∀ sc, FindVPCEndpointServiceConfigurationByID k conn id = .ok sc
        ↔ (conn.DescribeVpcEndpointServiceConfigurationsPages { ServiceIds := [some id] }).err
            = none
          ∧ (conn.DescribeVpcEndpointServiceConfigurationsPages
              { ServiceIds := [some id] }).records
              DescribeVpcEndpointServiceConfigurationsOutput.ServiceConfigurations = [sc]
          ∧ StringValue sc.ServiceState ≠ ServiceStateDeleted
          ∧ StringValue sc.ServiceState ≠ ServiceStateFailed
          ∧ StringValue sc.ServiceId = id)
      ∧ (∀ sc,
          (conn.DescribeVpcEndpointServiceConfigurationsPages { ServiceIds := [some id] }).err
            = none →
          (conn.DescribeVpcEndpointServiceConfigurationsPages
              { ServiceIds := [some id] }).records
              DescribeVpcEndpointServiceConfigurationsOutput.ServiceConfigurations = [sc] →
          (StringValue sc.ServiceState = ServiceStateDeleted
            ∨ StringValue sc.ServiceState = ServiceStateFailed) →
          FindVPCEndpointServiceConfigurationByID k conn id
            = .error (.NotFound
                { Message := StringValue sc.ServiceState
                  LastRequest :=
                    some (.describeVpcEndpointServiceConfigurations
                      { ServiceIds := [some id] }) })) := by
  constructor
  · intro sc
    unfold FindVPCEndpointServiceConfigurationByID
    simp only [StringSlice, List.map]
    rw [FindVPCEndpointServiceConfiguration_eq]
    cases (conn.DescribeVpcEndpointServiceConfigurationsPages { ServiceIds := [some id] }).err with
    | some err => simp
    | none =>
      simp only [AssertSinglePtrResult_map_some]
      match (conn.DescribeVpcEndpointServiceConfigurationsPages
          { ServiceIds := [some id] }).records
          DescribeVpcEndpointServiceConfigurationsOutput.ServiceConfigurations with
      | [] => simp
      | [w] =>
        by_cases hs : StringValue w.ServiceState = ServiceStateDeleted
            ∨ StringValue w.ServiceState = ServiceStateFailed
        · have hc : (StringValue w.ServiceState == ServiceStateDeleted
              || StringValue w.ServiceState == ServiceStateFailed) = true := by
            simpa using hs
          simp only [List.all_nil, if_true, hc]
          constructor
          · intro h
            cases h
          · rintro ⟨-, hw, h1, h2, -⟩
            simp only [List.cons.injEq, and_true] at hw
            subst hw
            rcases hs with hs | hs
            · exact absurd hs h1
            · exact absurd hs h2
        · have hc : ¬ ((StringValue w.ServiceState == ServiceStateDeleted
              || StringValue w.ServiceState == ServiceStateFailed) = true) := by
            simpa using hs
          simp only [List.all_nil, if_true, if_neg hc]
          push_neg at hs
          by_cases hid : StringValue w.ServiceId = id
          · simp only [hid, bne_self_eq_false, Bool.false_eq_true, if_false, Except.ok.injEq,
              List.cons.injEq, and_true, true_and]
            constructor
            · intro h
              subst h
              exact ⟨rfl, hs.1, hs.2, hid⟩
            · intro h
              exact h.1
          · have hb : (StringValue w.ServiceId != id) = true := by simpa using hid
            simp only [hb, if_true, List.cons.injEq, and_true, true_and]
            constructor
            · intro h
              cases h
            · rintro ⟨hw, -, -, h3⟩
              subst hw
              exact absurd h3 hid
      | _ :: _ :: _ => simp
  · intro sc herr hrec hstate
    have hf : FindVPCEndpointServiceConfiguration k conn { ServiceIds := [some id] }
        = .ok sc := by
      rw [FindVPCEndpointServiceConfiguration_eq, herr, hrec]
      rfl
    have hc : (StringValue sc.ServiceState == ServiceStateDeleted
        || StringValue sc.ServiceState == ServiceStateFailed) = true := by
      simpa using hstate
    simp only [FindVPCEndpointServiceConfigurationByID, StringSlice, List.map, hf]
    rw [if_pos hc]

/-- C8 at concrete answers: the available service `vpce-svc-1` is returned, and the same
service in the state Failed is reported as not found. -/
theorem FindVPCEndpointServiceConfigurationByID_iff_witness :
    FindVPCEndpointServiceConfigurationByID awsConsts (connService "Available") "vpce-svc-1"
        = .ok { ServiceId := some "vpce-svc-1", ServiceState := some "Available" }
      ∧ FindVPCEndpointServiceConfigurationByID awsConsts (connService "Failed") "vpce-svc-1"
        = .error (.NotFound
            { Message := "Failed"
              LastRequest :=
                some (.describeVpcEndpointServiceConfigurations
                  { ServiceIds := [some "vpce-svc-1"] }) }) :=
  ⟨((FindVPCEndpointServiceConfigurationByID_iff awsConsts (connService "Available")
      "vpce-svc-1").1 _).2 ⟨rfl, rfl, by decide, by decide, rfl⟩,
    (FindVPCEndpointServiceConfigurationByID_iff awsConsts (connService "Failed")
      "vpce-svc-1").2 { ServiceId := some "vpce-svc-1", ServiceState := some "Failed" }
      rfl rfl (Or.inr rfl)⟩

/-- C9: `FindVPCEndpointRouteTableAssociationExists` returns `nil` if and only if
`FindVPCEndpointByID` succeeds for the endpoint identifier and some element of the endpoint's
`RouteTableIds`, read with `aws.StringValue`, equals the route table identifier; when the
endpoint is found and no element matches, it returns a `retry.NotFoundError`, whose
`LastError` names both identifiers. -/
theorem FindVPCEndpointRouteTableAssociationExists_iff (k : Consts) (conn : EC2)
    (vpcEndpointID routeTableID : String) :
    (FindVPCEndpointRouteTableAssociationExists k conn vpcEndpointID routeTableID = none
        ↔ ∃ vpcEndpoint, FindVPCEndpointByID k conn vpcEndpointID = .ok vpcEndpoint
            ∧ ∃ x ∈ vpcEndpoint.RouteTableIds, StringValue x = routeTableID)
      ∧ (∀ vpcEndpoint, FindVPCEndpointByID k conn vpcEndpointID = .ok vpcEndpoint →
          (∀ x ∈ vpcEndpoint.RouteTableIds, StringValue x ≠ routeTableID) →
          FindVPCEndpointRouteTableAssociationExists k conn vpcEndpointID routeTableID
            = some (.NotFound
                { LastError :=
                    some (routeTableAssociationNotFound vpcEndpointID routeTableID) })) := by
  unfold FindVPCEndpointRouteTableAssociationExists
  cases hf : FindVPCEndpointByID k conn vpcEndpointID with
  | error e => simp
  | ok vpcEndpoint =>
    by_cases hany : ∃ x ∈ vpcEndpoint.RouteTableIds, StringValue x = routeTableID
    · have hb : vpcEndpoint.RouteTableIds.any (fun x => StringValue x == routeTableID) = true := by
        simpa using hany
      simp only [hb, if_true, Except.ok.injEq, true_iff]
      refine ⟨⟨vpcEndpoint, rfl, hany⟩, ?_⟩
      intro ep hep hall
      subst hep
      obtain ⟨x, hx, hxe⟩ := hany
      exact absurd hxe (hall x hx)
    · have hb : ¬ (vpcEndpoint.RouteTableIds.any (fun x => StringValue x == routeTableID) = true) := by
        simpa using hany
      simp only [if_neg hb, Except.ok.injEq]
      refine ⟨⟨fun h => (by cases h), ?_⟩, fun _ _ _ => trivial⟩
      rintro ⟨ep, hep, hex⟩
      subst hep
      exact absurd hex hany

/-- C9 at concrete answers: the endpoint `vpce-1` is associated with `rtb-1` and not with
`rtb-2`. -/
theorem FindVPCEndpointRouteTableAssociationExists_iff_witness :
    FindVPCEndpointRouteTableAssociationExists awsConsts (connEndpoint []) "vpce-1" "rtb-1" = none
      ∧ FindVPCEndpointRouteTableAssociationExists awsConsts (connEndpoint []) "vpce-1" "rtb-2"
        = some (.NotFound
            { LastError :=
                some (.text "VPC Endpoint (vpce-1) Route Table (rtb-2) Association not found") }) :=
  ⟨(FindVPCEndpointRouteTableAssociationExists_iff awsConsts (connEndpoint []) "vpce-1"
      "rtb-1").1.2 ⟨_, rfl, some "rtb-1", by simp, rfl⟩,
    (FindVPCEndpointRouteTableAssociationExists_iff awsConsts (connEndpoint []) "vpce-1"
      "rtb-2").2 _ rfl (by simp [StringValue])⟩

/-- C10, as stated, fails: when the describe call fails with a throttling error, no
endpoint is returned, so none has the group, and the result is that error, which is neither a
`retry.NotFoundError` nor an empty-result or too-many-results error. -/
theorem FindVPCEndpointSecurityGroupAssociationExists_call_error :
    (connEndpointThrottled.DescribeVpcEndpointsPages { VpcEndpointIds := [some "vpce-1"] }).records
        DescribeVpcEndpointsOutput.VpcEndpoints = []
      ∧ FindVPCEndpointSecurityGroupAssociationExists awsConsts connEndpointThrottled
          "vpce-1" "sg-1"
        = .error (.plain (.aws "RequestLimitExceeded" "Request limit exceeded."))
      ∧ (¬ ∃ e, FindVPCEndpointSecurityGroupAssociationExists awsConsts connEndpointThrottled
          "vpce-1" "sg-1" = .error (.NotFound e))
      ∧ (¬ ∃ r, FindVPCEndpointSecurityGroupAssociationExists awsConsts connEndpointThrottled
          "vpce-1" "sg-1" = .error (.EmptyResult r))
      ∧ (¬ ∃ n r, FindVPCEndpointSecurityGroupAssociationExists awsConsts connEndpointThrottled
          "vpce-1" "sg-1" = .error (.TooManyResults n r)) := by
  have h : FindVPCEndpointSecurityGroupAssociationExists awsConsts connEndpointThrottled
      "vpce-1" "sg-1"
      = .error (.plain (.aws "RequestLimitExceeded" "Request limit exceeded.")) := rfl
  refine ⟨rfl, h, ?_, ?_, ?_⟩
  · rintro ⟨e, he⟩
    rw [h] at he
    cases he
  · rintro ⟨r, he⟩
    rw [h] at he
    cases he
  · rintro ⟨n, r, he⟩
    rw [h] at he
    cases he

/-- The loop of `FindVPCEndpointSecurityGroupAssociationExists` reads `group.GroupId` of
every group it visits: on an endpoint whose group list holds a `nil` before any group with
the identifier, the call panics. -/
theorem FindVPCEndpointSecurityGroupAssociationExists_nil_group :
    FindVPCEndpointSecurityGroupAssociationExists awsConsts (connEndpoint [none])
      "vpce-1" "sg-1" = .panic :=
  rfl

/-- C10, amended: when the describe call succeeds, or fails with the endpoint-not-found
code, and every group of every returned endpoint is non-nil and has a `GroupId` other than
the security group identifier, `FindVPCEndpointSecurityGroupAssociationExists` returns one of
the errors that say "not found": a `retry.NotFoundError`, or the empty-result or
too-many-results error of the single-result step. When the call fails with any other error,
that error is returned as it is. The result is `nil` only when the endpoint found by
identifier lists a group with that `GroupId`. -/
theorem FindVPCEndpointSecurityGroupAssociationExists_not_found (k : Consts) (conn : EC2)
    (vpcEndpointID securityGroupID : String) :
    (((conn.DescribeVpcEndpointsPages { VpcEndpointIds := [some vpcEndpointID] }).err = none
          ∨ ∃ message,
            (conn.DescribeVpcEndpointsPages { VpcEndpointIds := [some vpcEndpointID] }).err
              = some (.aws k.errCodeInvalidVPCEndpointIdNotFound message)) →
        (∀ vpcEndpoint ∈
            (conn.DescribeVpcEndpointsPages { VpcEndpointIds := [some vpcEndpointID] }).records
              DescribeVpcEndpointsOutput.VpcEndpoints,
          ∀ g ∈ vpcEndpoint.Groups,
            ∃ group, g = some group ∧ StringValue group.GroupId ≠ securityGroupID) →
        ((∃ e, FindVPCEndpointSecurityGroupAssociationExists k conn vpcEndpointID
              securityGroupID = .error (.NotFound e))
          ∨ FindVPCEndpointSecurityGroupAssociationExists k conn vpcEndpointID securityGroupID
              = .error (.EmptyResult none)
          ∨ ∃ n, FindVPCEndpointSecurityGroupAssociationExists k conn vpcEndpointID
              securityGroupID = .error (.TooManyResults n none)))
      ∧ (∀ err,
          (conn.DescribeVpcEndpointsPages { VpcEndpointIds := [some vpcEndpointID] }).err
            = some err →
          (∀ message, err ≠ .aws k.errCodeInvalidVPCEndpointIdNotFound message) →
          FindVPCEndpointSecurityGroupAssociationExists k conn vpcEndpointID securityGroupID
            = .error (.plain err))
      ∧ (FindVPCEndpointSecurityGroupAssociationExists k conn vpcEndpointID securityGroupID
            = .ok () →
          ∃ vpcEndpoint, FindVPCEndpointByID k conn vpcEndpointID = .ok vpcEndpoint
            ∧ ∃ group, some group ∈ vpcEndpoint.Groups
              ∧ StringValue group.GroupId = securityGroupID) := by
  refine ⟨?_, ?_, ?_⟩
  · intro hcall hgroups
    unfold FindVPCEndpointSecurityGroupAssociationExists FindVPCEndpointByID
    simp only [StringSlice, List.map]
    rw [FindVPCEndpoint_eq]
    rcases hcall with herr | ⟨message, herr⟩
    · rw [herr] at *
      simp only [AssertSinglePtrResult_map_some]
      match hrec : (conn.DescribeVpcEndpointsPages
          { VpcEndpointIds := [some vpcEndpointID] }).records
          DescribeVpcEndpointsOutput.VpcEndpoints with
      | [] => exact Or.inr (Or.inl rfl)
      | [ep] =>
        have hscan : scanGroups securityGroupID ep.Groups = some false :=
          scanGroups_none_match _ _ (hgroups ep (by rw [hrec]; exact List.mem_singleton_self ep))
        simp only [List.all_nil, if_true]
        left
        split_ifs
        · exact ⟨_, rfl⟩
        · exact ⟨_, rfl⟩
        · simp only [hscan]
          exact ⟨_, rfl⟩
      | _ :: _ :: _ => exact Or.inr (Or.inr ⟨_, rfl⟩)
    · rw [herr]
      have hc : ErrCodeEquals (some (.aws k.errCodeInvalidVPCEndpointIdNotFound message))
          [k.errCodeInvalidVPCEndpointIdNotFound] = true :=
        (ErrCodeEquals_one _ _).2 ⟨message, rfl⟩
      left
      simp only [callError, hc, if_true]
      exact ⟨_, rfl⟩
  · intro err herr hcode
    have hc : ErrCodeEquals (some err) [k.errCodeInvalidVPCEndpointIdNotFound] = false := by
      rw [← Bool.not_eq_true]
      intro hc
      obtain ⟨message, hm⟩ := (ErrCodeEquals_one _ _).1 hc
      exact hcode message hm
    unfold FindVPCEndpointSecurityGroupAssociationExists FindVPCEndpointByID
    simp only [StringSlice, List.map]
    rw [FindVPCEndpoint_eq, herr]
    simp [callError, hc]
  · intro h
    unfold FindVPCEndpointSecurityGroupAssociationExists at h
    cases hf : FindVPCEndpointByID k conn vpcEndpointID with
    | error e => simp [hf] at h
    | ok vpcEndpoint =>
      simp only [hf] at h
      cases hscan : scanGroups securityGroupID vpcEndpoint.Groups with
      | none => simp [hscan] at h
      | some b =>
        cases b with
        | false => simp [hscan] at h
        | true => exact ⟨vpcEndpoint, rfl, scanGroups_found _ _ hscan⟩

/-- The amended C10 at concrete answers: the endpoint `vpce-1` lists `sg-2` only, so an
association with `sg-1` is not found, and a throttling error is passed on. -/
theorem FindVPCEndpointSecurityGroupAssociationExists_not_found_witness :
    (∃ e, FindVPCEndpointSecurityGroupAssociationExists awsConsts
          (connEndpoint [some { GroupId := some "sg-2" }]) "vpce-1" "sg-1"
        = .error (.NotFound e))
      ∧ FindVPCEndpointSecurityGroupAssociationExists awsConsts connEndpointThrottled
          "vpce-1" "sg-1"
        = .error (.plain (.aws "RequestLimitExceeded" "Request limit exceeded.")) :=
  ⟨((FindVPCEndpointSecurityGroupAssociationExists_not_found awsConsts
        (connEndpoint [some { GroupId := some "sg-2" }]) "vpce-1" "sg-1").1 (Or.inl rfl)
        (by
          intro ep hep g hg
          have hep2 : ep = { VpcEndpointId := some "vpce-1", State := some "available"
                             RouteTableIds := [some "rtb-1"]
                             Groups := [some { GroupId := some "sg-2" }] } := by
            simpa [connEndpoint, Paged.records] using hep
          subst hep2
          have hg2 : g = some { GroupId := some "sg-2" } := by simpa using hg
          exact ⟨_, hg2, by decide⟩)).elim id
      (fun h => h.elim (fun h => nomatch h) (fun h => h.elim (fun _ h => nomatch h))),
    (FindVPCEndpointSecurityGroupAssociationExists_not_found awsConsts connEndpointThrottled
      "vpce-1" "sg-1").2.1 _ rfl (by simp [awsConsts])⟩

/-! ## The client-side filter and the filtered lookups -/

theorem FindVPCEndpointServicePermissions_eq (k : Consts) (conn : EC2)
    (input : DescribeVpcEndpointServicePermissionsInput) :
    FindVPCEndpointServicePermissions k conn input
      = match (conn.DescribeVpcEndpointServicePermissionsPages input).err with
        | some err =>
          .error (callError [k.errCodeInvalidVPCEndpointServiceIdNotFound]
            (.describeVpcEndpointServicePermissions input) err)
        | none =>
          .ok (((conn.DescribeVpcEndpointServicePermissionsPages input).records
            DescribeVpcEndpointServicePermissionsOutput.AllowedPrincipals).map some) := by
  unfold FindVPCEndpointServicePermissions
  rw [finish_eq]

/-- On a slice without `nil`, the client-side filter does not panic and keeps the elements
with the principal, in their order. -/
theorem Filter_principal (principalARN : String) (l : List AllowedPrincipal) :
    tfslices.Filter (l.map some) (fun v =>
        match v with
        | none => none
        | some v => some (StringValue v.Principal == principalARN))
      = some ((l.filter (fun p => StringValue p.Principal == principalARN)).map some) := by
  induction l with
  | nil => rfl
  | cons p rest ih =>
    simp only [List.map_cons, tfslices.Filter, ih, List.filter_cons]
    cases StringValue p.Principal == principalARN <;> simp

/-- `FindVPCEndpointServicePermission` in terms of the answer to its request. -/
theorem FindVPCEndpointServicePermission_eq (k : Consts) (conn : EC2)
    (serviceID principalARN : String) :
    FindVPCEndpointServicePermission k conn serviceID principalARN
      = match (conn.DescribeVpcEndpointServicePermissionsPages
            { ServiceId := some serviceID }).err with
        | some err =>
          .error (callError [k.errCodeInvalidVPCEndpointServiceIdNotFound]
            (.describeVpcEndpointServicePermissions { ServiceId := some serviceID }) err)
        | none =>
          Outcome.ofExcept (AssertSinglePtrResult
            ((principalsMatching conn serviceID principalARN).map some) []) := by
  unfold FindVPCEndpointServicePermission
  simp only []
  rw [FindVPCEndpointServicePermissions_eq]
  cases (conn.DescribeVpcEndpointServicePermissionsPages { ServiceId := some serviceID }).err with
  | some err => rfl
  | none =>
    simp only [Filter_principal]
    rfl

/-- C11: `FindVPCEndpointServicePermission` filters on the principal after the call. Its
request holds the service identifier and no filter, and its result is settled by the answer
to that request alone. It returns a principal if and only if the call succeeds and exactly
one non-nil returned principal has the `Principal` asked for, which is then the one returned;
with none it fails with the empty-result error and with more than one with the
too-many-results error carrying their number, whatever other principals are returned. The
predicate of the filter never meets a `nil`, so the call does not panic. -/
theorem FindVPCEndpointServicePermission_client_side (k : Consts) (conn : EC2)
    (serviceID principalARN : String) :
    (∀ v, FindVPCEndpointServicePermission k conn serviceID principalARN = .ok v
        ↔ (conn.DescribeVpcEndpointServicePermissionsPages { ServiceId := some serviceID }).err
            = none
          ∧ principalsMatching conn serviceID principalARN = [v])
      ∧ ((conn.DescribeVpcEndpointServicePermissionsPages { ServiceId := some serviceID }).err
            = none →
          principalsMatching conn serviceID principalARN = [] →
          FindVPCEndpointServicePermission k conn serviceID principalARN
            = .error (.EmptyResult none))
      ∧ ((conn.DescribeVpcEndpointServicePermissionsPages { ServiceId := some serviceID }).err
            = none →
          2 ≤ (principalsMatching conn serviceID principalARN).length →
          FindVPCEndpointServicePermission k conn serviceID principalARN
            = .error (.TooManyResults (principalsMatching conn serviceID principalARN).length
                none))
      ∧ (∀ conn2 : EC2,
          conn2.DescribeVpcEndpointServicePermissionsPages
              { ServiceId := some serviceID, Filters := [] }
            = conn.DescribeVpcEndpointServicePermissionsPages
              { ServiceId := some serviceID, Filters := [] } →
          FindVPCEndpointServicePermission k conn2 serviceID principalARN
            = FindVPCEndpointServicePermission k conn serviceID principalARN)
      ∧ FindVPCEndpointServicePermission k conn serviceID principalARN ≠ .panic := by
  refine ⟨?_, ?_, ?_, ?_, ?_⟩
  · intro v
    rw [FindVPCEndpointServicePermission_eq]
    cases (conn.DescribeVpcEndpointServicePermissionsPages { ServiceId := some serviceID }).err with
    | some err => simp
    | none =>
      simp only [AssertSinglePtrResult_map_some, true_and]
      match principalsMatching conn serviceID principalARN with
      | [] => simp [Outcome.ofExcept]
      | [w] => simp [Outcome.ofExcept]
      | _ :: _ :: _ => simp [Outcome.ofExcept]
  · intro herr hnone
    rw [FindVPCEndpointServicePermission_eq, herr, hnone]
    rfl
  · intro herr hlen
    rw [FindVPCEndpointServicePermission_eq, herr]
    simp only [AssertSinglePtrResult_map_some]
    match h : principalsMatching conn serviceID principalARN with
    | [] => simp [h] at hlen
    | [_] => simp [h] at hlen
    | _ :: _ :: _ => rfl
  · intro conn2 h
    rw [FindVPCEndpointServicePermission_eq, FindVPCEndpointServicePermission_eq]
    simp only [principalsMatching]
    rw [h]
  · rw [FindVPCEndpointServicePermission_eq]
    cases (conn.DescribeVpcEndpointServicePermissionsPages { ServiceId := some serviceID }).err with
    | some err => simp
    | none =>
      simp only [AssertSinglePtrResult_map_some]
      match principalsMatching conn serviceID principalARN with
      | [] => simp [Outcome.ofExcept]
      | [w] => simp [Outcome.ofExcept]
      | _ :: _ :: _ => simp [Outcome.ofExcept]

/-- C11 at a concrete answer with the principals `arn:a`, `arn:b`, `arn:b`: the one
`arn:a` is returned, and of the two `arn:b` none is chosen. -/
theorem FindVPCEndpointServicePermission_client_side_witness :
    FindVPCEndpointServicePermission awsConsts connPrincipals "vpce-svc-1" "arn:a"
        = .ok { Principal := some "arn:a" }
      ∧ FindVPCEndpointServicePermission awsConsts connPrincipals "vpce-svc-1" "arn:b"
        = .error (.TooManyResults 2 none) :=
  ⟨((FindVPCEndpointServicePermission_client_side awsConsts connPrincipals "vpce-svc-1"
      "arn:a").1 _).2 ⟨rfl, by decide⟩,
    (FindVPCEndpointServicePermission_client_side awsConsts connPrincipals "vpce-svc-1"
      "arn:b").2.2.1 rfl (by decide)⟩

/-- C12, as stated, fails: asked for the group `web` of `vpc-1`, on an answer whose single
record is the group `other` of `vpc-9`, `FindSecurityGroupByNameAndVPCID` returns that
record and no error. -/
theorem FindSecurityGroupByNameAndVPCID_returns_other_group :
    FindSecurityGroupByNameAndVPCID filterPerEntry awsConsts connOtherGroup "web" "vpc-1"
        = .ok { GroupId := some "sg-9", GroupName := some "other", VpcId := some "vpc-9" }
      ∧ StringValue (some "other") ≠ "web"
      ∧ StringValue (some "vpc-9") ≠ "vpc-1" := by
  refine ⟨rfl, ?_, ?_⟩ <;> decide

/-- C12, amended: `FindSecurityGroupByNameAndVPCID` asks the service to filter on
`group-name` and `vpc-id` and returns the single security group of the answer to that
request, without comparing its `GroupName` or `VpcId`: it succeeds exactly when the call
succeeds with one non-nil record, and returns that record. Hence, whenever every group the
service returns to the request has the name and the VPC asked for, so has the group
returned. -/
theorem FindSecurityGroupByNameAndVPCID_filtered
    (newAttributeFilterList : List (String × String) → List (Option Filter))
    (k : Consts) (conn : EC2) (name vpcID : String) :
    (∀ sg, FindSecurityGroupByNameAndVPCID newAttributeFilterList k conn name vpcID = .ok sg
        ↔ (conn.DescribeSecurityGroupsPages
              { Filters := newAttributeFilterList [("group-name", name), ("vpc-id", vpcID)] }).err
            = none
          ∧ (conn.DescribeSecurityGroupsPages
              { Filters := newAttributeFilterList
                  [("group-name", name), ("vpc-id", vpcID)] }).records
              DescribeSecurityGroupsOutput.SecurityGroups = [sg])
      ∧ ((∀ sg ∈ (conn.DescribeSecurityGroupsPages
              { Filters := newAttributeFilterList
                  [("group-name", name), ("vpc-id", vpcID)] }).records
              DescribeSecurityGroupsOutput.SecurityGroups,
            StringValue sg.GroupName = name ∧ StringValue sg.VpcId = vpcID) →
          ∀ sg, FindSecurityGroupByNameAndVPCID newAttributeFilterList k conn name vpcID
              = .ok sg →
            StringValue sg.GroupName = name ∧ StringValue sg.VpcId = vpcID) := by
  have hiff : ∀ sg,
      FindSecurityGroupByNameAndVPCID newAttributeFilterList k conn name vpcID = .ok sg
        ↔ (conn.DescribeSecurityGroupsPages
              { Filters := newAttributeFilterList [("group-name", name), ("vpc-id", vpcID)] }).err
            = none
          ∧ (conn.DescribeSecurityGroupsPages
              { Filters := newAttributeFilterList
                  [("group-name", name), ("vpc-id", vpcID)] }).records
              DescribeSecurityGroupsOutput.SecurityGroups = [sg] := by
    intro sg
    unfold FindSecurityGroupByNameAndVPCID
    simp only []
    rw [FindSecurityGroup_eq]
    cases (conn.DescribeSecurityGroupsPages
        { Filters := newAttributeFilterList [("group-name", name), ("vpc-id", vpcID)] }).err with
    | some err => simp
    | none => simpa using AssertSinglePtrResult_ok_iff _ sg
  refine ⟨hiff, ?_⟩
  intro hall sg hsg
  obtain ⟨-, hrec⟩ := (hiff sg).1 hsg
  exact hall sg (by rw [hrec]; exact List.mem_singleton_self sg)

/-- The amended C12 at a concrete answer: the service returns the group `web` of `vpc-1`
alone, and that group is returned. -/
theorem FindSecurityGroupByNameAndVPCID_filtered_witness :
    FindSecurityGroupByNameAndVPCID filterPerEntry awsConsts connWebGroup "web" "vpc-1"
      = .ok { GroupId := some "sg-1", GroupName := some "web", VpcId := some "vpc-1" } :=
  ((FindSecurityGroupByNameAndVPCID_filtered filterPerEntry awsConsts connWebGroup "web"
    "vpc-1").1 _).2 ⟨rfl, rfl⟩

/-! ## Error codes of the SDK v2 calls -/

theorem ErrMessageContains_iff (err : GoError) (code message : String) :
    ErrMessageContains (some err) code message = true
      ↔ ∃ m, err = .aws code m ∧ stringsContains m message = true := by
  cases err with
  | aws c m =>
    simp only [ErrMessageContains, Bool.and_eq_true, beq_iff_eq, GoError.aws.injEq]
    constructor
    · rintro ⟨hc, hm⟩
      exact ⟨m, ⟨hc, rfl⟩, hm⟩
    · rintro ⟨m2, ⟨hc, hm2⟩, hm⟩
      subst hm2
      exact ⟨hc, hm⟩
  | text msg => simp [ErrMessageContains]

/-- C13: when `DescribeAddresses` fails, `findEIPs` returns the `retry.NotFoundError` whose
`LastError` is that error (and whose `LastRequest` is the input) exactly when the error is an
API error whose code is `errCodeInvalidAddressNotFound` or
`errCodeInvalidAllocationIDNotFound`, or whose code is `errCodeAuthFailure` and whose message
contains "does not belong to you"; every other error is returned as it is. -/
theorem findEIPs_error (k : Consts) (conn : Client) (input : DescribeAddressesInput)
    (err : GoError) (herr : (conn.DescribeAddresses input).2 = some err) :
    (findEIPs k conn input
          = .error (.NotFound
              { LastError := some err, LastRequest := some (.describeAddresses input) })
        ↔ ∃ code message, err = .aws code message
            ∧ (code = k.errCodeInvalidAddressNotFound
              ∨ code = k.errCodeInvalidAllocationIDNotFound
              ∨ (code = k.errCodeAuthFailure
                ∧ stringsContains message "does not belong to you" = true)))
      ∧ ((¬ ∃ code message, err = .aws code message
            ∧ (code = k.errCodeInvalidAddressNotFound
              ∨ code = k.errCodeInvalidAllocationIDNotFound
              ∨ (code = k.errCodeAuthFailure
                ∧ stringsContains message "does not belong to you" = true))) →
          findEIPs k conn input = .error (.plain err)) := by
  have hcond : (ErrCodeEquals (some err)
        [k.errCodeInvalidAddressNotFound, k.errCodeInvalidAllocationIDNotFound]
        || ErrMessageContains (some err) k.errCodeAuthFailure "does not belong to you") = true
      ↔ ∃ code message, err = .aws code message
          ∧ (code = k.errCodeInvalidAddressNotFound
            ∨ code = k.errCodeInvalidAllocationIDNotFound
            ∨ (code = k.errCodeAuthFailure
              ∧ stringsContains message "does not belong to you" = true)) := by
    rw [Bool.or_eq_true, ErrCodeEquals_two, ErrMessageContains_iff]
    constructor
    · rintro (⟨code, message, he, hc⟩ | ⟨m, he, hm⟩)
      · exact ⟨code, message, he, by tauto⟩
      · exact ⟨_, m, he, Or.inr (Or.inr ⟨rfl, hm⟩)⟩
    · rintro ⟨code, message, he, hc | hc | ⟨hc, hm⟩⟩
      · exact Or.inl ⟨code, message, he, Or.inl hc⟩
      · exact Or.inl ⟨code, message, he, Or.inr hc⟩
      · subst hc
        exact Or.inr ⟨message, he, hm⟩
  unfold findEIPs
  simp only [herr]
  by_cases h : (ErrCodeEquals (some err)
        [k.errCodeInvalidAddressNotFound, k.errCodeInvalidAllocationIDNotFound]
        || ErrMessageContains (some err) k.errCodeAuthFailure "does not belong to you") = true
  · rw [if_pos h]
    exact ⟨⟨fun _ => hcond.1 h, fun _ => rfl⟩, fun hn => absurd (hcond.1 h) hn⟩
  · rw [if_neg h]
    refine ⟨⟨fun he => ?_, fun hc => absurd (hcond.2 hc) h⟩, fun _ => rfl⟩
    cases he

/-- C13 at concrete errors: an `AuthFailure` saying that the address does not belong to the
caller is reported as not found, an `AuthFailure` with another message is returned as it
is. -/
theorem findEIPs_error_witness :
    findEIPs awsConsts
        (clientAddressesError "AuthFailure"
          "The address eipalloc-1 does not belong to you.") {}
        = .error (.NotFound
            { LastError :=
                some (.aws "AuthFailure" "The address eipalloc-1 does not belong to you.")
              LastRequest := some (.describeAddresses {}) })
      ∧ findEIPs awsConsts
          (clientAddressesError "AuthFailure" "You are not authorized.") {}
        = .error (.plain (.aws "AuthFailure" "You are not authorized.")) :=
  ⟨(findEIPs_error awsConsts
      (clientAddressesError "AuthFailure" "The address eipalloc-1 does not belong to you.")
      {} _ rfl).1.2 ⟨_, _, rfl, Or.inr (Or.inr ⟨rfl, by decide⟩)⟩,
    (findEIPs_error awsConsts (clientAddressesError "AuthFailure" "You are not authorized.")
      {} _ rfl).2 (by
        rintro ⟨code, message, he, hc⟩
        cases he
        rcases hc with hc | hc | ⟨-, hm⟩
        · exact absurd hc (by decide)
        · exact absurd hc (by decide)
        · exact absurd hm (by decide))⟩

/-! ## The CIDR block association of a VPC -/

/-- What the loop of `FindVPCCIDRBlockAssociationByID` returns on success: the VPC, and an
element of the list with the identifier whose state is not disassociated. -/
theorem cidrBlockAssociationLoop_ok (id : String) (vpc : Vpc)
    (associations : List (Option VpcCidrBlockAssociation))
    (association : VpcCidrBlockAssociation) (v : Vpc)
    (h : cidrBlockAssociationLoop id vpc associations = .ok (association, v)) :
    v = vpc ∧ some association ∈ associations
      ∧ StringValue association.AssociationId = id
      ∧ ∃ cidrBlockState, association.CidrBlockState = some cidrBlockState
          ∧ StringValue cidrBlockState.State ≠ VpcCidrBlockStateCodeDisassociated := by
  induction associations with
  | nil => simp [cidrBlockAssociationLoop] at h
  | cons a rest ih =>
    cases a with
    | none => simp [cidrBlockAssociationLoop] at h
    | some a =>
      by_cases hid : StringValue a.AssociationId = id
      · cases hstate : a.CidrBlockState with
        | none => simp [cidrBlockAssociationLoop, hid, hstate] at h
        | some cidrBlockState =>
          by_cases hdis : StringValue cidrBlockState.State = VpcCidrBlockStateCodeDisassociated
          · simp [cidrBlockAssociationLoop, hid, hstate, hdis] at h
          · simp only [cidrBlockAssociationLoop, hid, hstate, beq_self_eq_true, if_true,
              beq_iff_eq, hdis, if_false, Outcome.ok.injEq, Prod.mk.injEq] at h
            obtain ⟨ha, hv⟩ := h
            subst ha
            exact ⟨hv.symm, List.mem_cons_self _ _, hid, cidrBlockState, hstate, hdis⟩
      · simp only [cidrBlockAssociationLoop, beq_iff_eq, hid, if_false] at h
        obtain ⟨h1, h2, h3⟩ := ih h
        exact ⟨h1, List.mem_cons_of_mem _ h2, h3⟩

/-- Successful results of `FindVPCCIDRBlockAssociationByID`: the association that it
returns is an element of the returned VPC's
`CidrBlockAssociationSet`, has the identifier, and is not in the state disassociated. -/
theorem FindVPCCIDRBlockAssociationByID_ok
    (newAttributeFilterList : List (String × String) → List (Option Filter))
    (k : Consts) (conn : EC2) (id : String) (association : VpcCidrBlockAssociation) (vpc : Vpc)
    (h : FindVPCCIDRBlockAssociationByID newAttributeFilterList k conn id
      = .ok (association, vpc)) :
    some association ∈ vpc.CidrBlockAssociationSet
      ∧ StringValue association.AssociationId = id
      ∧ ∃ cidrBlockState, association.CidrBlockState = some cidrBlockState
          ∧ StringValue cidrBlockState.State ≠ VpcCidrBlockStateCodeDisassociated := by
  unfold FindVPCCIDRBlockAssociationByID at h
  simp only [] at h
  cases hf : FindVPC k conn
      { Filters := newAttributeFilterList [("cidr-block-association.association-id", id)] } with
  | error e => simp [hf] at h
  | ok found =>
    simp only [hf] at h
    obtain ⟨hv, hmem, hrest⟩ := cidrBlockAssociationLoop_ok _ _ _ _ _ h
    subst hv
    exact ⟨hmem, hrest⟩

/-- On a list without `nil` in which no association has the identifier, the loop of
`FindVPCCIDRBlockAssociationByID` ends with the empty `retry.NotFoundError`. -/
theorem cidrBlockAssociationLoop_no_match (id : String) (vpc : Vpc)
    (associations : List (Option VpcCidrBlockAssociation))
    (h : ∀ a ∈ associations, ∃ association, a = some association
      ∧ StringValue association.AssociationId ≠ id) :
    cidrBlockAssociationLoop id vpc associations = .error (.NotFound {}) := by
  induction associations with
  | nil => rfl
  | cons a rest ih =>
    obtain ⟨association, ha, hne⟩ := h a (List.mem_cons_self _ _)
    subst ha
    simp only [cidrBlockAssociationLoop, beq_iff_eq, hne, if_false]
    exact ih (fun x hx => h x (List.mem_cons_of_mem _ hx))

/-- Where the embedding of `FindVPCCIDRBlockAssociationByID` marks a panic: a
`CidrBlockAssociationSet` with a `nil` element before any association with the identifier.
The theorems on this finder speak of lists of associations, which hold no `nil`. -/
theorem FindVPCCIDRBlockAssociationByID_nil_association :
    FindVPCCIDRBlockAssociationByID filterPerEntry awsConsts (connVpcAssociations [none])
        "vpc-cidr-assoc-1" = .panic
      ∧ FindVPCCIDRBlockAssociationByID filterPerEntry awsConsts
          (connVpcAssociations
            [none, some { AssociationId := some "vpc-cidr-assoc-1"
                          CidrBlockState := some { State := some "disassociated" } }])
          "vpc-cidr-assoc-1" = .panic :=
  ⟨rfl, rfl⟩

/-- On a list of associations, the loop of `FindVPCCIDRBlockAssociationByID` stops at the
first association with the identifier and decides by its state; without such an association
it ends with the empty `retry.NotFoundError`. -/
theorem cidrBlockAssociationLoop_map_some (id : String) (vpc : Vpc)
    (associations : List VpcCidrBlockAssociation) :
    cidrBlockAssociationLoop id vpc (associations.map some)
      = match associations.find? (fun a => StringValue a.AssociationId == id) with
        | none => .error (.NotFound {})
        | some association =>
          match association.CidrBlockState with
          | none => .panic
          | some cidrBlockState =>
            if StringValue cidrBlockState.State == VpcCidrBlockStateCodeDisassociated then
              .error (.NotFound { Message := StringValue cidrBlockState.State })
            else
              .ok (association, vpc) := by
  induction associations with
  | nil => rfl
  | cons a rest ih =>
    simp only [List.map_cons, cidrBlockAssociationLoop, List.find?_cons]
    cases ha : (StringValue a.AssociationId == id)
    · simpa using ih
    · simp only [if_true]

/-- C14: whenever `FindVPCCIDRBlockAssociationByID` returns without error, the returned
association is an element of the returned VPC's `CidrBlockAssociationSet`, its
`AssociationId` equals `id`, and its state is not disassociated. When the VPC is found and
the first association of its list with that identifier is in the state disassociated, the
result is the `retry.NotFoundError` whose `Message` is that state; when that association is
in another state it is returned with the VPC; and when no association has the identifier the
result is the empty `retry.NotFoundError`. The identifier and the state are read with
`aws.StringValue`; in the last two parts the associations are a list of associations: it
holds no `nil`. -/
theorem FindVPCCIDRBlockAssociationByID_cases
    (newAttributeFilterList : List (String × String) → List (Option Filter))
    (k : Consts) (conn : EC2) (id : String) :
    (∀ association vpc,
        FindVPCCIDRBlockAssociationByID newAttributeFilterList k conn id
          = .ok (association, vpc) →
        some association ∈ vpc.CidrBlockAssociationSet
          ∧ StringValue association.AssociationId = id
          ∧ ∃ cidrBlockState, association.CidrBlockState = some cidrBlockState
              ∧ StringValue cidrBlockState.State ≠ VpcCidrBlockStateCodeDisassociated)
      ∧ (∀ vpc (associations : List VpcCidrBlockAssociation) association cidrBlockState,
          FindVPC k conn
            { Filters := newAttributeFilterList
                [("cidr-block-association.association-id", id)] } = .ok vpc →
          vpc.CidrBlockAssociationSet = associations.map some →
          associations.find? (fun a => StringValue a.AssociationId == id) = some association →
          association.CidrBlockState = some cidrBlockState →
          (StringValue cidrBlockState.State = VpcCidrBlockStateCodeDisassociated →
              FindVPCCIDRBlockAssociationByID newAttributeFilterList k conn id
                = .error (.NotFound { Message := StringValue cidrBlockState.State }))
            ∧ (StringValue cidrBlockState.State ≠ VpcCidrBlockStateCodeDisassociated →
              FindVPCCIDRBlockAssociationByID newAttributeFilterList k conn id
                = .ok (association, vpc)))
      ∧ (∀ vpc (associations : List VpcCidrBlockAssociation),
          FindVPC k conn
            { Filters := newAttributeFilterList
                [("cidr-block-association.association-id", id)] } = .ok vpc →
          vpc.CidrBlockAssociationSet = associations.map some →
          (∀ a ∈ associations, StringValue a.AssociationId ≠ id) →
          FindVPCCIDRBlockAssociationByID newAttributeFilterList k conn id
            = .error (.NotFound {})) := by
  refine ⟨?_, ?_, ?_⟩
  · intro association vpc h
    exact FindVPCCIDRBlockAssociationByID_ok newAttributeFilterList k conn id association vpc h
  · intro vpc associations association cidrBlockState hfound hset hfirst hstate
    have hloop : FindVPCCIDRBlockAssociationByID newAttributeFilterList k conn id
        = if StringValue cidrBlockState.State == VpcCidrBlockStateCodeDisassociated then
            .error (.NotFound { Message := StringValue cidrBlockState.State })
          else
            .ok (association, vpc) := by
      unfold FindVPCCIDRBlockAssociationByID
      simp only [hfound, hset, cidrBlockAssociationLoop_map_some, hfirst, hstate]
    constructor
    · intro hdis
      rw [hloop, if_pos (by simpa using hdis)]
    · intro hdis
      rw [hloop, if_neg (by simpa using hdis)]
  · intro vpc associations hfound hset hnone
    have hfind : associations.find? (fun a => StringValue a.AssociationId == id) = none := by
      rw [List.find?_eq_none]
      intro a ha
      simpa using hnone a ha
    unfold FindVPCCIDRBlockAssociationByID
    simp only [hfound, hset, cidrBlockAssociationLoop_map_some, hfind]

/-- C14 at concrete answers: the VPC `vpc-1` has the association `vpc-cidr-assoc-1` in the
state disassociated after an association with another identifier; and it has no association
with the identifier `vpc-cidr-assoc-2`. -/
theorem FindVPCCIDRBlockAssociationByID_cases_witness :
    FindVPCCIDRBlockAssociationByID filterPerEntry awsConsts
        (connVpcAssociations
          [some { AssociationId := some "vpc-cidr-assoc-0"
                  CidrBlockState := some { State := some "associated" } },
           some { AssociationId := some "vpc-cidr-assoc-1"
                  CidrBlockState := some { State := some "disassociated" } }])
        "vpc-cidr-assoc-1" = .error (.NotFound { Message := "disassociated" })
      ∧ FindVPCCIDRBlockAssociationByID filterPerEntry awsConsts
          (connVpcAssociations
            [some { AssociationId := some "vpc-cidr-assoc-0"
                    CidrBlockState := some { State := some "associated" } }])
          "vpc-cidr-assoc-2" = .error (.NotFound {}) :=
  ⟨((FindVPCCIDRBlockAssociationByID_cases filterPerEntry awsConsts
      (connVpcAssociations
        [some { AssociationId := some "vpc-cidr-assoc-0"
                CidrBlockState := some { State := some "associated" } },
         some { AssociationId := some "vpc-cidr-assoc-1"
                CidrBlockState := some { State := some "disassociated" } }])
      "vpc-cidr-assoc-1").2.1 _
      [{ AssociationId := some "vpc-cidr-assoc-0"
         CidrBlockState := some { State := some "associated" } },
       { AssociationId := some "vpc-cidr-assoc-1"
         CidrBlockState := some { State := some "disassociated" } }]
      _ { State := some "disassociated" } rfl rfl rfl rfl).1 rfl,
    (FindVPCCIDRBlockAssociationByID_cases filterPerEntry awsConsts
      (connVpcAssociations
        [some { AssociationId := some "vpc-cidr-assoc-0"
                CidrBlockState := some { State := some "associated" } }])
      "vpc-cidr-assoc-2").2.2 _
      [{ AssociationId := some "vpc-cidr-assoc-0"
         CidrBlockState := some { State := some "associated" } }]
      rfl rfl (by
        intro a ha
        have h : a = { AssociationId := some "vpc-cidr-assoc-0"
                       CidrBlockState := some { State := some "associated" } } := by
          simpa using ha
        subst h
        decide)⟩

/-! ## The SDK v2 paginators -/

theorem verifiedAccessEndpointsLoop_eq (k : Consts)
    (input : DescribeVerifiedAccessEndpointsInput) (err : Option GoError)
    (pages : List DescribeVerifiedAccessEndpointsOutput) (output : List VerifiedAccessEndpoint) :
    verifiedAccessEndpointsLoop k input err pages output
      = match err with
        | some err =>
          .error (callError [k.errCodeInvalidVerifiedAccessEndpointIdNotFound]
            (.describeVerifiedAccessEndpoints input) err)
        | none => .ok (output ++ pages.flatMap (fun page => page.VerifiedAccessEndpoints)) := by
  induction pages generalizing output with
  | nil =>
    cases err with
    | none => simp [verifiedAccessEndpointsLoop]
    | some e =>
      simp only [verifiedAccessEndpointsLoop, callError]
      split <;> rfl
  | cons page rest ih =>
    simp only [verifiedAccessEndpointsLoop, ih]
    cases err with
    | none => simp
    | some e => rfl

theorem FindVerifiedAccessEndpoint_eq (k : Consts) (conn : Client)
    (input : DescribeVerifiedAccessEndpointsInput) :
    FindVerifiedAccessEndpoint k conn input
      = match (conn.DescribeVerifiedAccessEndpoints input).err with
        | some err =>
          .error (callError [k.errCodeInvalidVerifiedAccessEndpointIdNotFound]
            (.describeVerifiedAccessEndpoints input) err)
        | none =>
          AssertSingleValueResult
            ((conn.DescribeVerifiedAccessEndpoints input).pages.flatMap
              (fun page => page.VerifiedAccessEndpoints)) [] := by
  unfold FindVerifiedAccessEndpoint FindVerifiedAccessEndpoints
  rw [verifiedAccessEndpointsLoop_eq]
  cases (conn.DescribeVerifiedAccessEndpoints input).err with
  | none => simp
  | some e => rfl

theorem AssertSingleValueResult_ok_iff {α : Type} (l : List α) (v : α) :
    AssertSingleValueResult l [] = .ok v ↔ l = [v] := by
  match l with
  | [] => simp [AssertSingleValueResult]
  | [w] => simp [AssertSingleValueResult]
  | _ :: _ :: _ => simp [AssertSingleValueResult]

/-- C15: `FindVerifiedAccessEndpointByID` returns an endpoint without error if and only if
every page was fetched without error, the pages hold exactly one endpoint in total, that
endpoint's `Status` is absent or has a code other than deleted, and its
`VerifiedAccessEndpointId` (read with `aws_sdkv2.ToString`) equals `id`. In particular an
endpoint without `Status` and with the identifier asked for is returned: an absent `Status`
is neither read through nor taken for deleted. -/
theorem FindVerifiedAccessEndpointByID_iff (k : Consts) (conn : Client) (id : String) :
    (∀ endpoint, FindVerifiedAccessEndpointByID k conn id = .ok endpoint
        ↔ (conn.DescribeVerifiedAccessEndpoints { VerifiedAccessEndpointIds := [id] }).err = none
          ∧ (conn.DescribeVerifiedAccessEndpoints
              { VerifiedAccessEndpointIds := [id] }).pages.flatMap
              (fun page => page.VerifiedAccessEndpoints) = [endpoint]
          ∧ (endpoint.Status = none
            ∨ ∃ status, endpoint.Status = some status
                ∧ status.Code ≠ VerifiedAccessEndpointStatusCodeDeleted)
          ∧ StringValue endpoint.VerifiedAccessEndpointId = id)
      ∧ (∀ endpoint,
          (conn.DescribeVerifiedAccessEndpoints { VerifiedAccessEndpointIds := [id] }).err
            = none →
          (conn.DescribeVerifiedAccessEndpoints
              { VerifiedAccessEndpointIds := [id] }).pages.flatMap
              (fun page => page.VerifiedAccessEndpoints) = [endpoint] →
          endpoint.Status = none →
          StringValue endpoint.VerifiedAccessEndpointId = id →
          FindVerifiedAccessEndpointByID k conn id = .ok endpoint) := by
  have hiff : ∀ endpoint, FindVerifiedAccessEndpointByID k conn id = .ok endpoint
      ↔ (conn.DescribeVerifiedAccessEndpoints { VerifiedAccessEndpointIds := [id] }).err = none
        ∧ (conn.DescribeVerifiedAccessEndpoints
            { VerifiedAccessEndpointIds := [id] }).pages.flatMap
            (fun page => page.VerifiedAccessEndpoints) = [endpoint]
        ∧ (endpoint.Status = none
          ∨ ∃ status, endpoint.Status = some status
              ∧ status.Code ≠ VerifiedAccessEndpointStatusCodeDeleted)
        ∧ StringValue endpoint.VerifiedAccessEndpointId = id := by
    intro endpoint
    unfold FindVerifiedAccessEndpointByID
    simp only []
    rw [FindVerifiedAccessEndpoint_eq]
    cases (conn.DescribeVerifiedAccessEndpoints { VerifiedAccessEndpointIds := [id] }).err with
    | some err => simp
    | none =>
      simp only [true_and]
      match (conn.DescribeVerifiedAccessEndpoints
          { VerifiedAccessEndpointIds := [id] }).pages.flatMap
          (fun page => page.VerifiedAccessEndpoints) with
      | [] => simp [AssertSingleValueResult]
      | _ :: _ :: _ => simp [AssertSingleValueResult]
      | [w] =>
        simp only [AssertSingleValueResult, List.all_nil, if_true, List.cons.injEq, and_true]
        cases hst : w.Status with
        | none =>
          by_cases hid : StringValue w.VerifiedAccessEndpointId = id
          · simp only [hid, bne_self_eq_false, Bool.false_eq_true, if_false, Except.ok.injEq]
            constructor
            · intro h
              subst h
              exact ⟨rfl, Or.inl hst, hid⟩
            · intro h
              exact h.1
          · have hb : (StringValue w.VerifiedAccessEndpointId != id) = true := by simpa using hid
            simp only [hb, if_true]
            constructor
            · intro h
              cases h
            · rintro ⟨hw, -, h3⟩
              subst hw
              exact absurd h3 hid
        | some status =>
          by_cases hdel : status.Code = VerifiedAccessEndpointStatusCodeDeleted
          · simp only [hdel, beq_self_eq_true, if_true]
            constructor
            · intro h
              cases h
            · rintro ⟨hw, hs, -⟩
              subst hw
              rcases hs with hs | ⟨st, hs, hne⟩
              · rw [hst] at hs
                cases hs
              · rw [hst] at hs
                cases hs
                exact absurd hdel hne
          · have hb : ¬ ((status.Code == VerifiedAccessEndpointStatusCodeDeleted) = true) := by
              simpa using hdel
            simp only [if_neg hb]
            by_cases hid : StringValue w.VerifiedAccessEndpointId = id
            · simp only [hid, bne_self_eq_false, Bool.false_eq_true, if_false, Except.ok.injEq]
              constructor
              · intro h
                subst h
                exact ⟨rfl, Or.inr ⟨status, hst, hdel⟩, hid⟩
              · intro h
                exact h.1
            · have hb2 : (StringValue w.VerifiedAccessEndpointId != id) = true := by
                simpa using hid
              simp only [hb2, if_true]
              constructor
              · intro h
                cases h
              · rintro ⟨hw, -, h3⟩
                subst hw
                exact absurd h3 hid
  refine ⟨hiff, ?_⟩
  intro endpoint herr hrec hst hid
  exact (hiff endpoint).2 ⟨herr, hrec, Or.inl hst, hid⟩

/-- C15 at concrete answers: the endpoint `vae-1` without `Status` is returned, and so is the
one whose status code is `active`. -/
theorem FindVerifiedAccessEndpointByID_iff_witness :
    FindVerifiedAccessEndpointByID awsConsts (clientVerifiedAccessEndpoint none) "vae-1"
        = .ok { VerifiedAccessEndpointId := some "vae-1", Status := none }
      ∧ FindVerifiedAccessEndpointByID awsConsts
          (clientVerifiedAccessEndpoint (some { Code := "active" })) "vae-1"
        = .ok { VerifiedAccessEndpointId := some "vae-1", Status := some { Code := "active" } } :=
  ⟨(FindVerifiedAccessEndpointByID_iff awsConsts (clientVerifiedAccessEndpoint none)
      "vae-1").2 _ rfl rfl rfl rfl,
    ((FindVerifiedAccessEndpointByID_iff awsConsts
      (clientVerifiedAccessEndpoint (some { Code := "active" })) "vae-1").1 _).2
      ⟨rfl, rfl, Or.inr ⟨_, rfl, by decide⟩, rfl⟩⟩

/-! ## No state between calls -/

/-- Two clients that answer the request for the subnet identifiers `[id]` alike give equal
results of `FindSubnetByID`, whatever else they answer. -/
theorem FindSubnetByID_function_of_response (k : Consts) (conn conn2 : EC2) (id : String)
    (h : conn.DescribeSubnetsPages { SubnetIds := [some id] }
      = conn2.DescribeSubnetsPages { SubnetIds := [some id] }) :
    FindSubnetByID k conn id = FindSubnetByID k conn2 id := by
  unfold FindSubnetByID FindSubnet FindSubnets
  simp only [StringSlice, List.map]
  rw [h]

/-- Two concrete clients that answer the subnet request alike and differ elsewhere. -/
theorem FindSubnetByID_function_of_response_witness :
    FindSubnetByID awsConsts connOneSubnet "subnet-a"
      = FindSubnetByID awsConsts connOneSubnetOneVpc "subnet-a" :=
  FindSubnetByID_function_of_response awsConsts connOneSubnet connOneSubnetOneVpc "subnet-a" rfl

/-- `FindSubnetByID` in terms of the answer to its request. -/
theorem FindSubnetByID_eq (k : Consts) (conn : EC2) (id : String) :
    FindSubnetByID k conn id
      = match (conn.DescribeSubnetsPages { SubnetIds := [some id] }).err with
        | some err =>
          .error (callError [k.errCodeInvalidSubnetIDNotFound]
            (.describeSubnets { SubnetIds := [some id] }) err)
        | none =>
          match AssertSinglePtrResult
              (((conn.DescribeSubnetsPages { SubnetIds := [some id] }).records
                DescribeSubnetsOutput.Subnets).map some) [] with
          | .error err => .error err
          | .ok output =>
            if StringValue output.SubnetId != id then
              .error (.NotFound
                { LastRequest := some (.describeSubnets { SubnetIds := [some id] }) })
            else
              .ok output := by
  unfold FindSubnetByID
  simp only [StringSlice, List.map]
  rw [FindSubnet_eq]
  cases (conn.DescribeSubnetsPages { SubnetIds := [some id] }).err <;> rfl

/-- The finder with the call as an effect is the finder on the answer of that call, and it
leaves the service in the state after that one request. -/
theorem Stateful_FindSubnetByID_eq {σ : Type} (k : Consts) (conn : Service σ) (id : String)
    (s : σ) :
    Stateful.FindSubnetByID k conn id s
      = (FindSubnetByID k
          { DescribeSubnetsPages := fun _ =>
              (conn.DescribeSubnetsPages s { SubnetIds := [some id] }).1 } id,
        (conn.DescribeSubnetsPages s { SubnetIds := [some id] }).2) := by
  rfl

/-- C16: the finders keep no state between calls. A call of `FindSubnetByID` issues one
describe request of its own, the request for the subnet identifiers `[id]`: it leaves the
service in the state after exactly that request, and its result is computed from the answer
to that request. So two calls with the same `id` that receive the same answer return equal
results, in whatever states of the service they are made; and the result follows the answer
of the call: a single subnet with the identifier is returned, an answer without a subnet
gives the empty-result error, and an error of the call gives that error. -/
theorem FindSubnetByID_own_request {σ : Type} (k : Consts) (conn : Service σ) (id : String) :
    (∀ s, Stateful.FindSubnetByID k conn id s
        = (FindSubnetByID k
            { DescribeSubnetsPages := fun _ =>
                (conn.DescribeSubnetsPages s { SubnetIds := [some id] }).1 } id,
          (conn.DescribeSubnetsPages s { SubnetIds := [some id] }).2))
      ∧ (∀ s s2,
          (conn.DescribeSubnetsPages s { SubnetIds := [some id] }).1
            = (conn.DescribeSubnetsPages s2 { SubnetIds := [some id] }).1 →
          (Stateful.FindSubnetByID k conn id s).1 = (Stateful.FindSubnetByID k conn id s2).1)
      ∧ (∀ s subnet,
          (conn.DescribeSubnetsPages s { SubnetIds := [some id] }).1.err = none →
          (conn.DescribeSubnetsPages s { SubnetIds := [some id] }).1.records
            DescribeSubnetsOutput.Subnets = [subnet] →
          StringValue subnet.SubnetId = id →
          (Stateful.FindSubnetByID k conn id s).1 = .ok subnet)
      ∧ (∀ s,
          (conn.DescribeSubnetsPages s { SubnetIds := [some id] }).1.err = none →
          (conn.DescribeSubnetsPages s { SubnetIds := [some id] }).1.records
            DescribeSubnetsOutput.Subnets = [] →
          (Stateful.FindSubnetByID k conn id s).1 = .error (.EmptyResult none))
      ∧ (∀ s err,
          (conn.DescribeSubnetsPages s { SubnetIds := [some id] }).1.err = some err →
          (Stateful.FindSubnetByID k conn id s).1
            = .error (callError [k.errCodeInvalidSubnetIDNotFound]
                (.describeSubnets { SubnetIds := [some id] }) err)) := by
  refine ⟨fun s => Stateful_FindSubnetByID_eq k conn id s, ?_, ?_, ?_, ?_⟩
  · intro s s2 h
    rw [Stateful_FindSubnetByID_eq, Stateful_FindSubnetByID_eq]
    simp only [h]
  · intro s subnet herr hrec hid
    rw [Stateful_FindSubnetByID_eq]
    simp only [FindSubnetByID_eq, herr, hrec]
    simp [AssertSinglePtrResult, hid]
  · intro s herr hrec
    rw [Stateful_FindSubnetByID_eq]
    simp only [FindSubnetByID_eq, herr, hrec]
    rfl
  · intro s err herr
    rw [Stateful_FindSubnetByID_eq]
    simp only [FindSubnetByID_eq, herr]

/-- C16 at a service that records its requests and answers the first one with `subnet-a` and
later ones with no subnet: the first call returns the subnet and leaves one request
recorded, the second call, made after it, issues a second request and returns the
empty-result error of its own answer, not the subnet of the first. -/
theorem FindSubnetByID_own_request_witness :
    Stateful.FindSubnetByID awsConsts serviceSubnetOnce "subnet-a" []
        = (.ok { SubnetId := some "subnet-a" }, [{ SubnetIds := [some "subnet-a"] }])
      ∧ Stateful.FindSubnetByID awsConsts serviceSubnetOnce "subnet-a"
          [{ SubnetIds := [some "subnet-a"] }]
        = (.error (.EmptyResult none),
            [{ SubnetIds := [some "subnet-a"] }, { SubnetIds := [some "subnet-a"] }]) :=
  ⟨((FindSubnetByID_own_request awsConsts serviceSubnetOnce "subnet-a").1 []).trans rfl,
    ((FindSubnetByID_own_request awsConsts serviceSubnetOnce "subnet-a").1
      [{ SubnetIds := [some "subnet-a"] }]).trans rfl⟩

/-! ## Linear scans -/

/-- The first element of a list that satisfies `p`, the elements before it failing `p`, is
what `find?` gives. -/
theorem find_first_match {α : Type} (p : α → Bool) (before after : List α) (v : α)
    (hbefore : ∀ u ∈ before, p u = false) (hv : p v = true) :
    (before ++ v :: after).find? p = some v := by
  induction before with
  | nil => simp [List.find?_cons, hv]
  | cons u rest ih =>
    have hu := hbefore u (List.mem_cons_self _ _)
    simp only [List.cons_append, List.find?_cons, hu]
    exact ih (fun w hw => hbefore w (List.mem_cons_of_mem _ hw))

/-- On a list of entries without `nil`, the loop of `FindNetworkACLEntryByThreePartKey`
returns the first entry with the flag and the rule number, and the empty
`retry.NotFoundError` when there is none. -/
theorem networkACLEntryLoop_map_some (egress : Bool) (ruleNumber : Int)
    (entries : List NetworkAclEntry) :
    networkACLEntryLoop egress ruleNumber (entries.map some)
      = match entries.find?
            (fun v => BoolValue v.Egress == egress && Int64Value v.RuleNumber == ruleNumber) with
        | some v => .ok v
        | none => .error (.NotFound {}) := by
  induction entries with
  | nil => rfl
  | cons v rest ih =>
    simp only [List.map_cons, networkACLEntryLoop, List.find?_cons]
    cases hv : (BoolValue v.Egress == egress && Int64Value v.RuleNumber == ruleNumber)
    · simpa using ih
    · simp

/-- Where the embedding of `FindNetworkACLEntryByThreePartKey` marks a panic: the loop reads
`v.Egress` through the element, so on an `Entries` list that holds a `nil` element it
neither returns an entry nor an error. The theorems on this finder speak of lists of
entries, which hold no `nil`. -/
theorem FindNetworkACLEntryByThreePartKey_nil_entry :
    FindNetworkACLEntryByThreePartKey filterPerEntry awsConsts (connAclEntries [none])
        "acl-1" false 100 = .panic
      ∧ FindNetworkACLEntryByThreePartKey filterPerEntry awsConsts
          (connAclEntries [none, some { Egress := some false, RuleNumber := some 100 }])
          "acl-1" false 100 = .panic :=
  ⟨rfl, rfl⟩

/-- On a list of rules without `nil`, the inner loop of
`FindTrafficMirrorFilterRuleByTwoPartKey` finds the first rule with the identifier. -/
theorem trafficMirrorFilterRuleLoop_map_some (ruleID : String)
    (rules : List TrafficMirrorFilterRule) :
    trafficMirrorFilterRuleLoop ruleID (rules.map some)
      = some (rules.find? (fun v => StringValue v.TrafficMirrorFilterRuleId == ruleID)) := by
  induction rules with
  | nil => rfl
  | cons v rest ih =>
    simp only [List.map_cons, trafficMirrorFilterRuleLoop, List.find?_cons]
    cases hv : (StringValue v.TrafficMirrorFilterRuleId == ruleID)
    · simpa using ih
    · simp

/-- On rule lists without `nil`, the two loops of `FindTrafficMirrorFilterRuleByTwoPartKey`
return the first rule with the identifier in the ingress rules followed by the egress
rules, and the empty `retry.NotFoundError` when neither list holds one. -/
theorem trafficMirrorFilterRuleLoops_map_some (ruleID : String)
    (ingress egress : List TrafficMirrorFilterRule) :
    trafficMirrorFilterRuleLoops ruleID [ingress.map some, egress.map some]
      = match (ingress ++ egress).find?
            (fun v => StringValue v.TrafficMirrorFilterRuleId == ruleID) with
        | some v => .ok v
        | none => .error (.NotFound {}) := by
  simp only [trafficMirrorFilterRuleLoops, trafficMirrorFilterRuleLoop_map_some,
    List.find?_append]
  cases ingress.find? (fun v => StringValue v.TrafficMirrorFilterRuleId == ruleID) with
  | some v => rfl
  | none =>
    cases egress.find? (fun v => StringValue v.TrafficMirrorFilterRuleId == ruleID) <;> rfl

/-- Where the embedding of `FindTrafficMirrorFilterRuleByTwoPartKey` marks a panic: the loop
reads `v.TrafficMirrorFilterRuleId` through the element, so on a rule list that holds a
`nil` element it neither returns a rule nor an error. The theorems on this finder speak of
lists of rules, which hold no `nil`. -/
theorem FindTrafficMirrorFilterRuleByTwoPartKey_nil_rule :
    FindTrafficMirrorFilterRuleByTwoPartKey awsConsts (connTrafficMirrorFilter [none] [])
        "tmf-1" "tmfr-1" = .panic
      ∧ FindTrafficMirrorFilterRuleByTwoPartKey awsConsts
          (connTrafficMirrorFilter [none]
            [some { TrafficMirrorFilterRuleId := some "tmfr-1" }])
          "tmf-1" "tmfr-1" = .panic :=
  ⟨rfl, rfl⟩

/-- With the single ACL found and no `nil` among its entries,
`FindNetworkACLEntryByThreePartKey` returns the first entry, in the order of `Entries`, with
the flag and the rule number (an absent `Egress` read as `false`, an absent `RuleNumber` as
`0`), and the empty `retry.NotFoundError` when no entry has both. -/
theorem FindNetworkACLEntryByThreePartKey_map_some
    (newAttributeFilterList : List (String × String) → List (Option Filter))
    (k : Consts) (conn : EC2) (naclID : String) (egress : Bool) (ruleNumber : Int)
    (acl : NetworkAcl) (entries : List NetworkAclEntry)
    (hfound : FindNetworkACL k conn
      { Filters := newAttributeFilterList
          [("entry.egress", FormatBool egress), ("entry.rule-number", Itoa ruleNumber)]
        NetworkAclIds := [some naclID] } = .ok acl)
    (hentries : acl.Entries = entries.map some) :
    FindNetworkACLEntryByThreePartKey newAttributeFilterList k conn naclID egress ruleNumber
      = match entries.find?
            (fun v => BoolValue v.Egress == egress && Int64Value v.RuleNumber == ruleNumber) with
        | some v => .ok v
        | none => .error (.NotFound {}) := by
  unfold FindNetworkACLEntryByThreePartKey
  simp only [StringSlice, List.map, hfound, hentries]
  exact networkACLEntryLoop_map_some egress ruleNumber entries

/-- With the traffic mirror filter found and no `nil` among its rules,
`FindTrafficMirrorFilterRuleByTwoPartKey` returns the first rule with the identifier in the
ingress rules followed by the egress rules, and the empty `retry.NotFoundError` when neither
list holds one. -/
theorem FindTrafficMirrorFilterRuleByTwoPartKey_map_some (k : Consts) (conn : EC2)
    (filterID ruleID : String) (output : TrafficMirrorFilter)
    (ingress egress : List TrafficMirrorFilterRule)
    (hfound : FindTrafficMirrorFilterByID k conn filterID = .ok output)
    (hingress : output.IngressFilterRules = ingress.map some)
    (hegress : output.EgressFilterRules = egress.map some) :
    FindTrafficMirrorFilterRuleByTwoPartKey k conn filterID ruleID
      = match (ingress ++ egress).find?
            (fun v => StringValue v.TrafficMirrorFilterRuleId == ruleID) with
        | some v => .ok v
        | none => .error (.NotFound {}) := by
  unfold FindTrafficMirrorFilterRuleByTwoPartKey
  simp only [hfound, hingress, hegress]
  exact trafficMirrorFilterRuleLoops_map_some ruleID ingress egress

/-- C17: with exactly one ACL found for the request that `FindNetworkACLEntryByThreePartKey`
builds (the ACL identifier `naclID`, filtered on the flag and the rule number),
the finder returns the first entry, in the order of the ACL's `Entries`, whose `Egress`
equals the flag and whose `RuleNumber` equals the rule number: an entry that has both, with
no entry before it that has both, is the result. `Egress` and `RuleNumber` are read with
`aws.BoolValue` and `aws.Int64Value`, so an absent `Egress` counts as `false` and an absent
`RuleNumber` as `0`. If no entry has both, the result is the empty `retry.NotFoundError`.
The entries are a list of entries: it holds no `nil`. -/
theorem FindNetworkACLEntryByThreePartKey_first_entry
    (newAttributeFilterList : List (String × String) → List (Option Filter))
    (k : Consts) (conn : EC2) (naclID : String) (egress : Bool) (ruleNumber : Int)
    (acl : NetworkAcl) (entries : List NetworkAclEntry)
    (hfound : FindNetworkACL k conn
      { Filters := newAttributeFilterList
          [("entry.egress", FormatBool egress), ("entry.rule-number", Itoa ruleNumber)]
        NetworkAclIds := [some naclID] } = .ok acl)
    (hentries : acl.Entries = entries.map some) :
    (∀ before v after, entries = before ++ v :: after →
        (∀ u ∈ before,
          ¬ (BoolValue u.Egress = egress ∧ Int64Value u.RuleNumber = ruleNumber)) →
        BoolValue v.Egress = egress → Int64Value v.RuleNumber = ruleNumber →
        FindNetworkACLEntryByThreePartKey newAttributeFilterList k conn naclID egress
          ruleNumber = .ok v)
      ∧ ((∀ v ∈ entries,
            ¬ (BoolValue v.Egress = egress ∧ Int64Value v.RuleNumber = ruleNumber)) →
          FindNetworkACLEntryByThreePartKey newAttributeFilterList k conn naclID egress
            ruleNumber = .error (.NotFound {}))
      ∧ (∀ v, FindNetworkACLEntryByThreePartKey newAttributeFilterList k conn naclID egress
            ruleNumber = .ok v →
          v ∈ entries ∧ BoolValue v.Egress = egress ∧ Int64Value v.RuleNumber = ruleNumber)
      ∧ (∀ v : NetworkAclEntry, v.Egress = none → BoolValue v.Egress = false)
      ∧ (∀ v : NetworkAclEntry, v.RuleNumber = none → Int64Value v.RuleNumber = 0) := by
  have heq := FindNetworkACLEntryByThreePartKey_map_some newAttributeFilterList k conn naclID
    egress ruleNumber acl entries hfound hentries
  refine ⟨?_, ?_, ?_, ?_, ?_⟩
  · intro before v after hsplit hbefore hflag hnumber
    have hfind : entries.find?
        (fun v => BoolValue v.Egress == egress && Int64Value v.RuleNumber == ruleNumber)
          = some v := by
      rw [hsplit]
      apply find_first_match
      · intro u hu
        have := hbefore u hu
        simpa using this
      · simp [hflag, hnumber]
    rw [heq, hfind]
  · intro hnone
    have hfind : entries.find?
        (fun v => BoolValue v.Egress == egress && Int64Value v.RuleNumber == ruleNumber)
          = none := by
      rw [List.find?_eq_none]
      intro v hv
      have := hnone v hv
      simpa using this
    rw [heq, hfind]
  · intro v hv
    rw [heq] at hv
    cases hfind : entries.find?
        (fun v => BoolValue v.Egress == egress && Int64Value v.RuleNumber == ruleNumber) with
    | none =>
      rw [hfind] at hv
      cases hv
    | some w =>
      rw [hfind] at hv
      have hw : w = v := by
        cases hv
        rfl
      subst hw
      have hmem := List.mem_of_find?_eq_some hfind
      have hp := List.find?_some hfind
      simp only [Bool.and_eq_true, beq_iff_eq] at hp
      exact ⟨hmem, hp.1, hp.2⟩
  · intro v hv
    rw [hv]
    rfl
  · intro v hv
    rw [hv]
    rfl

/-- C17 at concrete answers: the ACL `acl-1` has three entries, an ingress rule 100, an
egress rule without rule number, and an egress rule 100 that comes after it; the lookup of
the egress rule 100 returns the third entry, the lookup of the egress rule 0 returns the
second, whose absent number reads as 0, and the lookup of the ingress rule 200 returns the
empty `retry.NotFoundError`. -/
theorem FindNetworkACLEntryByThreePartKey_first_entry_witness :
    FindNetworkACLEntryByThreePartKey filterPerEntry awsConsts
        (connAclEntries
          [some { Egress := some false, RuleNumber := some 100 },
            some { Egress := some true },
            some { Egress := some true, RuleNumber := some 100 }])
        "acl-1" true 100
        = .ok { Egress := some true, RuleNumber := some 100 }
      ∧ FindNetworkACLEntryByThreePartKey filterPerEntry awsConsts
          (connAclEntries
            [some { Egress := some false, RuleNumber := some 100 },
              some { Egress := some true },
              some { Egress := some true, RuleNumber := some 100 }])
          "acl-1" true 0
          = .ok { Egress := some true }
      ∧ FindNetworkACLEntryByThreePartKey filterPerEntry awsConsts
          (connAclEntries
            [some { Egress := some false, RuleNumber := some 100 },
              some { Egress := some true },
              some { Egress := some true, RuleNumber := some 100 }])
          "acl-1" false 200
          = .error (.NotFound {}) :=
  ⟨(FindNetworkACLEntryByThreePartKey_first_entry filterPerEntry awsConsts
      (connAclEntries
        [some { Egress := some false, RuleNumber := some 100 },
          some { Egress := some true },
          some { Egress := some true, RuleNumber := some 100 }])
      "acl-1" true 100
      { NetworkAclId := some "acl-1"
        Entries :=
          [some { Egress := some false, RuleNumber := some 100 },
            some { Egress := some true },
            some { Egress := some true, RuleNumber := some 100 }] }
      [{ Egress := some false, RuleNumber := some 100 },
        { Egress := some true },
        { Egress := some true, RuleNumber := some 100 }]
      rfl rfl).1
      [{ Egress := some false, RuleNumber := some 100 }, { Egress := some true }]
      { Egress := some true, RuleNumber := some 100 } [] rfl (by decide) rfl rfl,
    (FindNetworkACLEntryByThreePartKey_first_entry filterPerEntry awsConsts
      (connAclEntries
        [some { Egress := some false, RuleNumber := some 100 },
          some { Egress := some true },
          some { Egress := some true, RuleNumber := some 100 }])
      "acl-1" true 0
      { NetworkAclId := some "acl-1"
        Entries :=
          [some { Egress := some false, RuleNumber := some 100 },
            some { Egress := some true },
            some { Egress := some true, RuleNumber := some 100 }] }
      [{ Egress := some false, RuleNumber := some 100 },
        { Egress := some true },
        { Egress := some true, RuleNumber := some 100 }]
      rfl rfl).1
      [{ Egress := some false, RuleNumber := some 100 }]
      { Egress := some true } [{ Egress := some true, RuleNumber := some 100 }]
      rfl (by decide) rfl rfl,
    (FindNetworkACLEntryByThreePartKey_first_entry filterPerEntry awsConsts
      (connAclEntries
        [some { Egress := some false, RuleNumber := some 100 },
          some { Egress := some true },
          some { Egress := some true, RuleNumber := some 100 }])
      "acl-1" false 200
      { NetworkAclId := some "acl-1"
        Entries :=
          [some { Egress := some false, RuleNumber := some 100 },
            some { Egress := some true },
            some { Egress := some true, RuleNumber := some 100 }] }
      [{ Egress := some false, RuleNumber := some 100 },
        { Egress := some true },
        { Egress := some true, RuleNumber := some 100 }]
      rfl rfl).2.1 (by decide)⟩

/-- C18: with the traffic mirror filter found, `FindTrafficMirrorFilterRuleByTwoPartKey`
returns the first rule whose `TrafficMirrorFilterRuleId` equals the rule identifier in the
ingress rules followed by the egress rules: a rule with the identifier, with no rule before
it in that concatenation that has it, is the result, so a match among the ingress rules wins
over a match among the egress rules. The result is a `retry.NotFoundError` if and only if
neither list holds a rule with the identifier; it is then the empty one, and the finder
fails with no other error. The identifier is read with `aws.StringValue`; the rules are
lists of rules: they hold no `nil`. -/
theorem FindTrafficMirrorFilterRuleByTwoPartKey_first_rule (k : Consts) (conn : EC2)
    (filterID ruleID : String) (output : TrafficMirrorFilter)
    (ingress egress : List TrafficMirrorFilterRule)
    (hfound : FindTrafficMirrorFilterByID k conn filterID = .ok output)
    (hingress : output.IngressFilterRules = ingress.map some)
    (hegress : output.EgressFilterRules = egress.map some) :
    (∀ before v after, ingress ++ egress = before ++ v :: after →
        (∀ u ∈ before, StringValue u.TrafficMirrorFilterRuleId ≠ ruleID) →
        StringValue v.TrafficMirrorFilterRuleId = ruleID →
        FindTrafficMirrorFilterRuleByTwoPartKey k conn filterID ruleID = .ok v)
      ∧ (∀ before v after, ingress = before ++ v :: after →
          (∀ u ∈ before, StringValue u.TrafficMirrorFilterRuleId ≠ ruleID) →
          StringValue v.TrafficMirrorFilterRuleId = ruleID →
          FindTrafficMirrorFilterRuleByTwoPartKey k conn filterID ruleID = .ok v)
      ∧ ((∃ e, FindTrafficMirrorFilterRuleByTwoPartKey k conn filterID ruleID
              = .error (.NotFound e))
          ↔ (∀ v ∈ ingress, StringValue v.TrafficMirrorFilterRuleId ≠ ruleID)
            ∧ (∀ v ∈ egress, StringValue v.TrafficMirrorFilterRuleId ≠ ruleID))
      ∧ (∀ err, FindTrafficMirrorFilterRuleByTwoPartKey k conn filterID ruleID = .error err →
          err = .NotFound {})
      ∧ (∀ v, FindTrafficMirrorFilterRuleByTwoPartKey k conn filterID ruleID = .ok v →
          v ∈ ingress ++ egress ∧ StringValue v.TrafficMirrorFilterRuleId = ruleID) := by
  have heq := FindTrafficMirrorFilterRuleByTwoPartKey_map_some k conn filterID ruleID output
    ingress egress hfound hingress hegress
  have hfirst : ∀ before v after, ingress ++ egress = before ++ v :: after →
      (∀ u ∈ before, StringValue u.TrafficMirrorFilterRuleId ≠ ruleID) →
      StringValue v.TrafficMirrorFilterRuleId = ruleID →
      FindTrafficMirrorFilterRuleByTwoPartKey k conn filterID ruleID = .ok v := by
    intro before v after hsplit hbefore hv
    have hfind : (ingress ++ egress).find?
        (fun v => StringValue v.TrafficMirrorFilterRuleId == ruleID) = some v := by
      rw [hsplit]
      apply find_first_match
      · intro u hu
        have := hbefore u hu
        simpa using this
      · simp [hv]
    rw [heq, hfind]
  refine ⟨hfirst, ?_, ?_, ?_, ?_⟩
  · intro before v after hsplit hbefore hv
    exact hfirst before v (after ++ egress) (by rw [hsplit]; simp) hbefore hv
  · constructor
    · rintro ⟨e, he⟩
      rw [heq] at he
      cases hfind : (ingress ++ egress).find?
          (fun v => StringValue v.TrafficMirrorFilterRuleId == ruleID) with
      | some w =>
        rw [hfind] at he
        cases he
      | none =>
        rw [List.find?_eq_none] at hfind
        constructor
        · intro v hv
          have := hfind v (List.mem_append_left _ hv)
          simpa using this
        · intro v hv
          have := hfind v (List.mem_append_right _ hv)
          simpa using this
    · rintro ⟨hin, heg⟩
      have hfind : (ingress ++ egress).find?
          (fun v => StringValue v.TrafficMirrorFilterRuleId == ruleID) = none := by
        rw [List.find?_eq_none]
        intro v hv
        rcases List.mem_append.mp hv with h | h
        · simpa using hin v h
        · simpa using heg v h
      exact ⟨{}, by rw [heq, hfind]⟩
  · intro err herr
    rw [heq] at herr
    cases hfind : (ingress ++ egress).find?
        (fun v => StringValue v.TrafficMirrorFilterRuleId == ruleID) with
    | some w =>
      rw [hfind] at herr
      cases herr
    | none =>
      rw [hfind] at herr
      cases herr
      rfl
  · intro v hv
    rw [heq] at hv
    cases hfind : (ingress ++ egress).find?
        (fun v => StringValue v.TrafficMirrorFilterRuleId == ruleID) with
    | none =>
      rw [hfind] at hv
      cases hv
    | some w =>
      rw [hfind] at hv
      have hw : w = v := by
        cases hv
        rfl
      subst hw
      have hmem := List.mem_of_find?_eq_some hfind
      have hp := List.find?_some hfind
      simp only [beq_iff_eq] at hp
      exact ⟨hmem, hp⟩

/-- C18 at concrete answers: the filter `tmf-1` has the ingress rules `tmfr-1` and `tmfr-2`
and the egress rules `tmfr-2` and `tmfr-3`, the ingress rule `tmfr-2` alone having its
`TrafficMirrorFilterId` set; the lookup of
`tmfr-2` returns the ingress rule, the lookup of `tmfr-3` the egress rule, and the lookup of
`tmfr-4` is a `retry.NotFoundError`. -/
theorem FindTrafficMirrorFilterRuleByTwoPartKey_first_rule_witness :
    FindTrafficMirrorFilterRuleByTwoPartKey awsConsts
        (connTrafficMirrorFilter
          [some { TrafficMirrorFilterRuleId := some "tmfr-1" },
            some { TrafficMirrorFilterRuleId := some "tmfr-2",
                   TrafficMirrorFilterId := some "tmf-1" }]
          [some { TrafficMirrorFilterRuleId := some "tmfr-2" },
            some { TrafficMirrorFilterRuleId := some "tmfr-3" }])
        "tmf-1" "tmfr-2"
        = .ok { TrafficMirrorFilterRuleId := some "tmfr-2",
                TrafficMirrorFilterId := some "tmf-1" }
      ∧ FindTrafficMirrorFilterRuleByTwoPartKey awsConsts
          (connTrafficMirrorFilter
            [some { TrafficMirrorFilterRuleId := some "tmfr-1" },
              some { TrafficMirrorFilterRuleId := some "tmfr-2",
                     TrafficMirrorFilterId := some "tmf-1" }]
            [some { TrafficMirrorFilterRuleId := some "tmfr-2" },
              some { TrafficMirrorFilterRuleId := some "tmfr-3" }])
          "tmf-1" "tmfr-3"
          = .ok { TrafficMirrorFilterRuleId := some "tmfr-3" }
      ∧ ∃ e, FindTrafficMirrorFilterRuleByTwoPartKey awsConsts
          (connTrafficMirrorFilter
            [some { TrafficMirrorFilterRuleId := some "tmfr-1" },
              some { TrafficMirrorFilterRuleId := some "tmfr-2",
                     TrafficMirrorFilterId := some "tmf-1" }]
            [some { TrafficMirrorFilterRuleId := some "tmfr-2" },
              some { TrafficMirrorFilterRuleId := some "tmfr-3" }])
          "tmf-1" "tmfr-4"
          = .error (.NotFound e) :=
  ⟨(FindTrafficMirrorFilterRuleByTwoPartKey_first_rule awsConsts
      (connTrafficMirrorFilter
        [some { TrafficMirrorFilterRuleId := some "tmfr-1" },
          some { TrafficMirrorFilterRuleId := some "tmfr-2",
                 TrafficMirrorFilterId := some "tmf-1" }]
        [some { TrafficMirrorFilterRuleId := some "tmfr-2" },
          some { TrafficMirrorFilterRuleId := some "tmfr-3" }])
      "tmf-1" "tmfr-2"
      { TrafficMirrorFilterId := some "tmf-1"
        IngressFilterRules :=
          [some { TrafficMirrorFilterRuleId := some "tmfr-1" },
            some { TrafficMirrorFilterRuleId := some "tmfr-2",
                   TrafficMirrorFilterId := some "tmf-1" }]
        EgressFilterRules :=
          [some { TrafficMirrorFilterRuleId := some "tmfr-2" },
            some { TrafficMirrorFilterRuleId := some "tmfr-3" }] }
      [{ TrafficMirrorFilterRuleId := some "tmfr-1" },
        { TrafficMirrorFilterRuleId := some "tmfr-2",
          TrafficMirrorFilterId := some "tmf-1" }]
      [{ TrafficMirrorFilterRuleId := some "tmfr-2" },
        { TrafficMirrorFilterRuleId := some "tmfr-3" }]
      rfl rfl rfl).2.1
      [{ TrafficMirrorFilterRuleId := some "tmfr-1" }]
      { TrafficMirrorFilterRuleId := some "tmfr-2",
        TrafficMirrorFilterId := some "tmf-1" } []
      rfl (by decide) rfl,
    (FindTrafficMirrorFilterRuleByTwoPartKey_first_rule awsConsts
      (connTrafficMirrorFilter
        [some { TrafficMirrorFilterRuleId := some "tmfr-1" },
          some { TrafficMirrorFilterRuleId := some "tmfr-2",
                 TrafficMirrorFilterId := some "tmf-1" }]
        [some { TrafficMirrorFilterRuleId := some "tmfr-2" },
          some { TrafficMirrorFilterRuleId := some "tmfr-3" }])
      "tmf-1" "tmfr-3"
      { TrafficMirrorFilterId := some "tmf-1"
        IngressFilterRules :=
          [some { TrafficMirrorFilterRuleId := some "tmfr-1" },
            some { TrafficMirrorFilterRuleId := some "tmfr-2",
                   TrafficMirrorFilterId := some "tmf-1" }]
        EgressFilterRules :=
          [some { TrafficMirrorFilterRuleId := some "tmfr-2" },
            some { TrafficMirrorFilterRuleId := some "tmfr-3" }] }
      [{ TrafficMirrorFilterRuleId := some "tmfr-1" },
        { TrafficMirrorFilterRuleId := some "tmfr-2",
          TrafficMirrorFilterId := some "tmf-1" }]
      [{ TrafficMirrorFilterRuleId := some "tmfr-2" },
        { TrafficMirrorFilterRuleId := some "tmfr-3" }]
      rfl rfl rfl).1
      [{ TrafficMirrorFilterRuleId := some "tmfr-1" },
        { TrafficMirrorFilterRuleId := some "tmfr-2",
          TrafficMirrorFilterId := some "tmf-1" },
        { TrafficMirrorFilterRuleId := some "tmfr-2" }]
      { TrafficMirrorFilterRuleId := some "tmfr-3" } []
      rfl (by decide) rfl,
    ((FindTrafficMirrorFilterRuleByTwoPartKey_first_rule awsConsts
      (connTrafficMirrorFilter
        [some { TrafficMirrorFilterRuleId := some "tmfr-1" },
          some { TrafficMirrorFilterRuleId := some "tmfr-2",
                 TrafficMirrorFilterId := some "tmf-1" }]
        [some { TrafficMirrorFilterRuleId := some "tmfr-2" },
          some { TrafficMirrorFilterRuleId := some "tmfr-3" }])
      "tmf-1" "tmfr-4"
      { TrafficMirrorFilterId := some "tmf-1"
        IngressFilterRules :=
          [some { TrafficMirrorFilterRuleId := some "tmfr-1" },
            some { TrafficMirrorFilterRuleId := some "tmfr-2",
                   TrafficMirrorFilterId := some "tmf-1" }]
        EgressFilterRules :=
          [some { TrafficMirrorFilterRuleId := some "tmfr-2" },
            some { TrafficMirrorFilterRuleId := some "tmfr-3" }] }
      [{ TrafficMirrorFilterRuleId := some "tmfr-1" },
        { TrafficMirrorFilterRuleId := some "tmfr-2",
          TrafficMirrorFilterId := some "tmf-1" }]
      [{ TrafficMirrorFilterRuleId := some "tmfr-2" },
        { TrafficMirrorFilterRuleId := some "tmfr-3" }]
      rfl rfl rfl).2.2.1).mpr ⟨by decide, by decide⟩⟩

theorem importSnapshotTasksLoop_eq (k : Consts) (input : DescribeImportSnapshotTasksInput)
    (err : Option GoError) (pages : List DescribeImportSnapshotTasksOutput)
    (output : List ImportSnapshotTask) :
    importSnapshotTasksLoop k input err pages output
      = match err with
        | some err =>
          .error (callError [k.errCodeInvalidConversionTaskIdMalformed, "not found"]
            (.describeImportSnapshotTasks input) err)
        | none => .ok (output ++ pages.flatMap (fun page => page.ImportSnapshotTasks)) := by
  induction pages generalizing output with
  | nil =>
    cases err with
    | none => simp [importSnapshotTasksLoop]
    | some e =>
      simp only [importSnapshotTasksLoop, callError]
      split <;> rfl
  | cons page rest ih =>
    simp only [importSnapshotTasksLoop, ih]
    cases err with
    | none => simp
    | some e => rfl

/-- C19: when a page fetch of `FindImportSnapshotTasks` fails, after any number of pages, the
result is the `retry.NotFoundError` holding the error and the input exactly when the error is
an API error whose code is `errCodeInvalidConversionTaskIdMalformed` or is the string
"not found"; the condition says nothing of the message. Any other error, whatever its
message, is returned as it is. -/
theorem FindImportSnapshotTasks_error (k : Consts) (conn : Client)
    (input : DescribeImportSnapshotTasksInput) (err : GoError)
    (herr : (conn.DescribeImportSnapshotTasks input).err = some err) :
    (FindImportSnapshotTasks k conn input
          = .error (.NotFound
              { LastError := some err, LastRequest := some (.describeImportSnapshotTasks input) })
        ↔ ∃ code message, err = .aws code message
            ∧ (code = k.errCodeInvalidConversionTaskIdMalformed ∨ code = "not found"))
      ∧ ((¬ ∃ code message, err = .aws code message
            ∧ (code = k.errCodeInvalidConversionTaskIdMalformed ∨ code = "not found")) →
          FindImportSnapshotTasks k conn input = .error (.plain err)) := by
  unfold FindImportSnapshotTasks
  rw [importSnapshotTasksLoop_eq, herr]
  simp only [callError]
  by_cases h : ErrCodeEquals (some err)
      [k.errCodeInvalidConversionTaskIdMalformed, "not found"] = true
  · have hc := (ErrCodeEquals_two err _ _).1 h
    simp only [h, if_true]
    exact ⟨⟨fun _ => hc, fun _ => trivial⟩, fun hn => absurd hc hn⟩
  · have hn : ¬ ∃ code message, err = .aws code message
        ∧ (code = k.errCodeInvalidConversionTaskIdMalformed ∨ code = "not found") :=
      fun hc => h ((ErrCodeEquals_two err _ _).2 hc)
    simp only [if_neg h]
    refine ⟨⟨fun he => ?_, fun hc => absurd hc hn⟩, fun _ => trivial⟩
    cases he

/-- C19 at concrete errors: an error with the malformed-identifier code is reported as not
found although its message says nothing of the kind, and an error with another code whose
message contains "not found" is returned as it is. -/
theorem FindImportSnapshotTasks_error_witness :
    FindImportSnapshotTasks awsConsts
        (clientImportTasksError "InvalidConversionTaskId.Malformed" "bad identifier") {}
        = .error (.NotFound
            { LastError := some (.aws "InvalidConversionTaskId.Malformed" "bad identifier")
              LastRequest := some (.describeImportSnapshotTasks {}) })
      ∧ FindImportSnapshotTasks awsConsts
          (clientImportTasksError "InvalidParameterValue" "task not found") {}
        = .error (.plain (.aws "InvalidParameterValue" "task not found")) :=
  ⟨(FindImportSnapshotTasks_error awsConsts
      (clientImportTasksError "InvalidConversionTaskId.Malformed" "bad identifier") {} _
      rfl).1.2 ⟨_, _, rfl, Or.inl rfl⟩,
    (FindImportSnapshotTasks_error awsConsts
      (clientImportTasksError "InvalidParameterValue" "task not found") {} _ rfl).2 (by
        rintro ⟨code, message, he, hc⟩
        cases he
        rcases hc with hc | hc
        · exact absurd hc (by decide)
        · exact absurd hc (by decide))⟩

/-! ## The guarded read of the peering status -/

/-- C20: `FindVPCPeeringConnectionByID` never reads through an absent `Status`. Every
connection that `FindVPCPeeringConnection` returns has a `Status`: a single record without
one fails the predicate of the single-result step, which makes it the empty-result error.
So for every answer of the service the read of `output.Status.Code` finds a `Status`, and
the call does not panic. -/
theorem FindVPCPeeringConnectionByID_status_present (k : Consts) (conn : EC2) :
    (∀ input pc, FindVPCPeeringConnection k conn input = .ok pc → pc.Status ≠ none)
      ∧ (∀ input pc, (conn.DescribeVpcPeeringConnectionsPages input).err = none →
          (conn.DescribeVpcPeeringConnectionsPages input).records
            DescribeVpcPeeringConnectionsOutput.VpcPeeringConnections = [pc] →
          pc.Status = none →
          FindVPCPeeringConnection k conn input = .error (.EmptyResult none))
      ∧ (∀ id, FindVPCPeeringConnectionByID k conn id ≠ .panic) := by
  have hpresent : ∀ input pc, FindVPCPeeringConnection k conn input = .ok pc →
      pc.Status ≠ none := by
    intro input pc h
    rw [FindVPCPeeringConnection_eq] at h
    cases herr : (conn.DescribeVpcPeeringConnectionsPages input).err with
    | some err => simp [herr] at h
    | none =>
      simp only [herr, AssertSinglePtrResult_map_some] at h
      match hrec : (conn.DescribeVpcPeeringConnectionsPages input).records
          DescribeVpcPeeringConnectionsOutput.VpcPeeringConnections with
      | [] => simp [hrec] at h
      | _ :: _ :: _ => simp [hrec] at h
      | [w] =>
        simp only [hrec, List.all_cons, List.all_nil, Bool.and_true] at h
        cases hw : w.Status with
        | none => simp [hw] at h
        | some st =>
          simp only [hw, Option.isSome_some, if_true, Except.ok.injEq] at h
          subst h
          simp [hw]
  refine ⟨hpresent, ?_, ?_⟩
  · intro input pc herr hrec hst
    rw [FindVPCPeeringConnection_eq, herr, hrec]
    simp [AssertSinglePtrResult, hst]
  · intro id h
    unfold FindVPCPeeringConnectionByID at h
    simp only [] at h
    cases hf : FindVPCPeeringConnection k conn
        { VpcPeeringConnectionIds := StringSlice [id] } with
    | error e => simp [hf] at h
    | ok output =>
      simp only [hf] at h
      cases hst : output.Status with
      | none => exact hpresent _ _ hf hst
      | some status =>
        simp only [hst] at h
        split_ifs at h

/-- C20 at a concrete answer: the single connection `pcx-1` has no `Status`, and the singular
finder returns the empty-result error instead of the record. -/
theorem FindVPCPeeringConnectionByID_status_present_witness :
    FindVPCPeeringConnection awsConsts connPeeringWithoutStatus
        { VpcPeeringConnectionIds := [some "pcx-1"] } = .error (.EmptyResult none)
      ∧ FindVPCPeeringConnectionByID awsConsts connPeeringWithoutStatus "pcx-1" ≠ .panic :=
  ⟨(FindVPCPeeringConnectionByID_status_present awsConsts connPeeringWithoutStatus).2.1
      _ { VpcPeeringConnectionId := some "pcx-1" } rfl rfl rfl,
    (FindVPCPeeringConnectionByID_status_present awsConsts connPeeringWithoutStatus).2.2 "pcx-1"⟩

/-! ## The IPv6 CIDR block association of a subnet -/

/-- On a list in which every element is present and has an `Ipv6CidrBlockState`, the loop of
`FindSubnetIPv6CIDRBlockAssociationByID` returns an association or an error. -/
theorem subnetIPv6CIDRBlockAssociationLoop_total (associationID : String)
    (associations : List (Option SubnetIpv6CidrBlockAssociation))
    (h : ∀ a ∈ associations, ∃ association, a = some association
      ∧ association.Ipv6CidrBlockState ≠ none) :
    subnetIPv6CIDRBlockAssociationLoop associationID associations ≠ .panic := by
  induction associations with
  | nil => simp [subnetIPv6CIDRBlockAssociationLoop]
  | cons a rest ih =>
    obtain ⟨association, ha, hstate⟩ := h a (List.mem_cons_self _ _)
    subst ha
    have hrest := ih (fun x hx => h x (List.mem_cons_of_mem _ hx))
    cases hs : association.Ipv6CidrBlockState with
    | none => exact absurd hs hstate
    | some ipv6CidrBlockState =>
      simp only [subnetIPv6CIDRBlockAssociationLoop, hs]
      split_ifs <;> simp [hrest]

/-- C21, the failing inputs: the single subnet returned has an association with the
requested identifier and no `Ipv6CidrBlockState`, or an association list that holds a `nil`
element. In both cases `FindSubnetIPv6CIDRBlockAssociationByID` returns neither an
association nor an error: it reads `association.Ipv6CidrBlockState.State` through the missing
record, or `association.AssociationId` through the `nil` element, and panics. -/
theorem FindSubnetIPv6CIDRBlockAssociationByID_not_total :
    FindSubnetIPv6CIDRBlockAssociationByID filterPerEntry awsConsts
        (connSubnetAssociations
          [some { AssociationId := some "subnet-cidr-assoc-1", Ipv6CidrBlockState := none }])
        "subnet-cidr-assoc-1" = .panic
      ∧ FindSubnetIPv6CIDRBlockAssociationByID filterPerEntry awsConsts
          (connSubnetAssociations [none]) "subnet-cidr-assoc-1" = .panic :=
  ⟨rfl, rfl⟩

/-! ## Egress and ingress rules -/

/-- C22: `FindSecurityGroupEgressRuleByID` and `FindSecurityGroupIngressRuleByID` partition
the successes of `FindSecurityGroupRuleByID`. When `FindSecurityGroupRuleByID` returns a rule
whose `IsEgress` is `true`, the egress finder returns it and the ingress finder returns the
empty `retry.NotFoundError`; when `IsEgress` is `false` or absent, the ingress finder returns
it and the egress finder returns the empty `retry.NotFoundError`. When
`FindSecurityGroupRuleByID` fails, both fail with its error. -/
theorem FindSecurityGroupRuleByID_partition (k : Consts) (conn : EC2) (id : String) :
    (∀ rule, FindSecurityGroupRuleByID k conn id = .ok rule →
        (rule.IsEgress = some true →
          FindSecurityGroupEgressRuleByID k conn id = .ok rule
            ∧ FindSecurityGroupIngressRuleByID k conn id = .error (.NotFound {}))
          ∧ (rule.IsEgress = some false ∨ rule.IsEgress = none →
            FindSecurityGroupIngressRuleByID k conn id = .ok rule
              ∧ FindSecurityGroupEgressRuleByID k conn id = .error (.NotFound {})))
      ∧ (∀ err, FindSecurityGroupRuleByID k conn id = .error err →
          FindSecurityGroupEgressRuleByID k conn id = .error err
            ∧ FindSecurityGroupIngressRuleByID k conn id = .error err) := by
  constructor
  · intro rule hrule
    constructor
    · intro hegress
      simp [FindSecurityGroupEgressRuleByID, FindSecurityGroupIngressRuleByID, hrule, hegress,
        BoolValue]
    · intro hingress
      rcases hingress with h | h <;>
        simp [FindSecurityGroupEgressRuleByID, FindSecurityGroupIngressRuleByID, hrule, h,
          BoolValue]
  · intro err herr
    simp [FindSecurityGroupEgressRuleByID, FindSecurityGroupIngressRuleByID, herr]

/-- C22 at concrete answers: the rule `sgr-1` is an egress rule in the first, and has no
`IsEgress` in the second. -/
theorem FindSecurityGroupRuleByID_partition_witness :
    (FindSecurityGroupEgressRuleByID awsConsts (connSecurityGroupRule (some true)) "sgr-1"
          = .ok { SecurityGroupRuleId := some "sgr-1", IsEgress := some true }
        ∧ FindSecurityGroupIngressRuleByID awsConsts (connSecurityGroupRule (some true)) "sgr-1"
          = .error (.NotFound {}))
      ∧ (FindSecurityGroupIngressRuleByID awsConsts (connSecurityGroupRule none) "sgr-1"
          = .ok { SecurityGroupRuleId := some "sgr-1", IsEgress := none }
        ∧ FindSecurityGroupEgressRuleByID awsConsts (connSecurityGroupRule none) "sgr-1"
          = .error (.NotFound {})) :=
  ⟨((FindSecurityGroupRuleByID_partition awsConsts (connSecurityGroupRule (some true))
      "sgr-1").1 _ rfl).1 rfl,
    ((FindSecurityGroupRuleByID_partition awsConsts (connSecurityGroupRule none)
      "sgr-1").1 _ rfl).2 (Or.inr rfl)⟩

/-! ## The attachment of an internet gateway -/

/-- `FindInternetGatewayAttachment` on a gateway that is found, by the shape of its
attachment list. -/
theorem FindInternetGatewayAttachment_eq (k : Consts) (conn : EC2)
    (internetGatewayID vpcID : String) (internetGateway : InternetGateway)
    (hfound : FindInternetGatewayByID k conn internetGatewayID = .ok internetGateway) :
    FindInternetGatewayAttachment k conn internetGatewayID vpcID
      = match internetGateway.Attachments with
        | [] => .error (.EmptyResult (some (.id internetGatewayID)))
        | none :: _ => .error (.EmptyResult (some (.id internetGatewayID)))
        | [some attachment] =>
          if StringValue attachment.VpcId = vpcID then .ok attachment
          else .error (.EmptyResult (some (.id vpcID)))
        | some _ :: _ :: _ =>
          .error (.TooManyResults internetGateway.Attachments.length
            (some (.id internetGatewayID))) := by
  unfold FindInternetGatewayAttachment
  simp only [hfound]
  obtain ⟨gatewayId, attachments⟩ := internetGateway
  simp only []
  rcases attachments with _ | ⟨_ | a, _ | ⟨b, rest⟩⟩
  · rfl
  · rfl
  · rfl
  · by_cases h : StringValue a.VpcId = vpcID <;> simp [h]
  · simp

/-- C23: when the gateway is found, `FindInternetGatewayAttachment` returns an attachment
without error if and only if the gateway has exactly one attachment, that attachment is
non-nil and its `VpcId` equals the VPC identifier. It fails with a too-many-results error
exactly when there are two or more attachments and the first is non-nil, and with an
empty-result error in every other failing case: no attachment or a `nil` first attachment
(the error names the gateway), or another `VpcId` (the error names the VPC). -/
theorem FindInternetGatewayAttachment_cases (k : Consts) (conn : EC2)
    (internetGatewayID vpcID : String) (internetGateway : InternetGateway)
    (hfound : FindInternetGatewayByID k conn internetGatewayID = .ok internetGateway) :
    (∀ attachment, FindInternetGatewayAttachment k conn internetGatewayID vpcID = .ok attachment
        ↔ internetGateway.Attachments = [some attachment]
          ∧ StringValue attachment.VpcId = vpcID)
      ∧ ((∃ count request, FindInternetGatewayAttachment k conn internetGatewayID vpcID
            = .error (.TooManyResults count request))
        ↔ 2 ≤ internetGateway.Attachments.length
          ∧ ∃ first rest, internetGateway.Attachments = some first :: rest)
      ∧ (2 ≤ internetGateway.Attachments.length →
          (∃ first rest, internetGateway.Attachments = some first :: rest) →
          FindInternetGatewayAttachment k conn internetGatewayID vpcID
            = .error (.TooManyResults internetGateway.Attachments.length
                (some (.id internetGatewayID))))
      ∧ ((∃ request, FindInternetGatewayAttachment k conn internetGatewayID vpcID
            = .error (.EmptyResult request))
        ↔ (¬ ∃ attachment, internetGateway.Attachments = [some attachment]
              ∧ StringValue attachment.VpcId = vpcID)
          ∧ ¬ (2 ≤ internetGateway.Attachments.length
              ∧ ∃ first rest, internetGateway.Attachments = some first :: rest))
      ∧ ((internetGateway.Attachments = []
            ∨ ∃ rest, internetGateway.Attachments = none :: rest) →
          FindInternetGatewayAttachment k conn internetGatewayID vpcID
            = .error (.EmptyResult (some (.id internetGatewayID))))
      ∧ (∀ attachment, internetGateway.Attachments = [some attachment] →
          StringValue attachment.VpcId ≠ vpcID →
          FindInternetGatewayAttachment k conn internetGatewayID vpcID
            = .error (.EmptyResult (some (.id vpcID)))) := by
  rw [FindInternetGatewayAttachment_eq k conn internetGatewayID vpcID internetGateway hfound]
  obtain ⟨gatewayId, attachments⟩ := internetGateway
  simp only []
  rcases attachments with _ | ⟨_ | a, _ | ⟨b, rest⟩⟩
  · simp
  · simp
  · simp
  · by_cases h : StringValue a.VpcId = vpcID
    · simp [h]
    · simp only [h, if_false]
      refine ⟨?_, ?_, ?_, ?_, ?_, ?_⟩
      · intro attachment
        constructor
        · intro he
          cases he
        · rintro ⟨hl, hv⟩
          simp only [List.cons.injEq, Option.some.injEq, and_true] at hl
          subst hl
          exact absurd hv h
      · simp
      · simp
      · simp only [Except.error.injEq, Err.EmptyResult.injEq, exists_eq', true_iff]
        constructor
        · rintro ⟨attachment, hl, hv⟩
          simp only [List.cons.injEq, Option.some.injEq, and_true] at hl
          subst hl
          exact absurd hv h
        · simp
      · simp
      · intro attachment hl _
        trivial
  · simp

/-- C23 at concrete answers: the gateway `igw-1` attached to `vpc-1` alone, asked for with
`vpc-1`; attached to two VPCs; and asked for with `vpc-2`. -/
theorem FindInternetGatewayAttachment_cases_witness :
    FindInternetGatewayAttachment awsConsts
        (connInternetGateway [some { VpcId := some "vpc-1" }]) "igw-1" "vpc-1"
        = .ok { VpcId := some "vpc-1" }
      ∧ FindInternetGatewayAttachment awsConsts
          (connInternetGateway [some { VpcId := some "vpc-1" }, some { VpcId := some "vpc-2" }])
          "igw-1" "vpc-1"
        = .error (.TooManyResults 2 (some (.id "igw-1")))
      ∧ FindInternetGatewayAttachment awsConsts
          (connInternetGateway [some { VpcId := some "vpc-1" }]) "igw-1" "vpc-2"
        = .error (.EmptyResult (some (.id "vpc-2"))) :=
  ⟨((FindInternetGatewayAttachment_cases awsConsts
      (connInternetGateway [some { VpcId := some "vpc-1" }]) "igw-1" "vpc-1" _ rfl).1 _).2
      ⟨rfl, rfl⟩,
    (FindInternetGatewayAttachment_cases awsConsts
      (connInternetGateway [some { VpcId := some "vpc-1" }, some { VpcId := some "vpc-2" }])
      "igw-1" "vpc-1" _ rfl).2.2.1 (by decide) ⟨_, _, rfl⟩,
    (FindInternetGatewayAttachment_cases awsConsts
      (connInternetGateway [some { VpcId := some "vpc-1" }]) "igw-1" "vpc-2" _ rfl).2.2.2.2.2
      _ rfl (by decide)⟩

/-! ## The attributes of a VPC -/

/-- C24: for an attribute name other than `enableDnsHostnames`, `enableDnsSupport` and
`enableNetworkAddressUsageMetrics`, `FindVPCAttribute` never returns success: a failed call
gives the call's error (as a `retry.NotFoundError` when its code says so), a `nil` output the
empty-result error, and only a successful call with a non-nil output the unsupported-attribute
error. For each of the three supported names, after a successful call with a non-nil output,
it returns the `Value` of the response field of that name, `false` when the `Value` is absent,
and the empty-result error when the field is absent; the other two fields are not read. -/
theorem FindVPCAttribute_cases (k : Consts) (conn : EC2) (vpcID : String) :
    (∀ attributeName, attributeName ≠ VpcAttributeNameEnableDnsHostnames →
        attributeName ≠ VpcAttributeNameEnableDnsSupport →
        attributeName ≠ VpcAttributeNameEnableNetworkAddressUsageMetrics →
        (∀ value, FindVPCAttribute k conn vpcID attributeName ≠ .ok value)
          ∧ (∀ output err,
              conn.DescribeVpcAttribute { Attribute := some attributeName, VpcId := some vpcID }
                = (output, some err) →
              FindVPCAttribute k conn vpcID attributeName
                = .error (callError [k.errCodeInvalidVPCIDNotFound]
                    (.describeVpcAttribute
                      { Attribute := some attributeName, VpcId := some vpcID }) err))
          ∧ (conn.DescribeVpcAttribute { Attribute := some attributeName, VpcId := some vpcID }
                = (none, none) →
              FindVPCAttribute k conn vpcID attributeName
                = .error (.EmptyResult (some (.describeVpcAttribute
                    { Attribute := some attributeName, VpcId := some vpcID }))))
          ∧ (∀ output,
              conn.DescribeVpcAttribute { Attribute := some attributeName, VpcId := some vpcID }
                = (some output, none) →
              FindVPCAttribute k conn vpcID attributeName
                = .error (.plain (unsupportedVPCAttribute attributeName))))
      ∧ (∀ output,
          conn.DescribeVpcAttribute
              { Attribute := some VpcAttributeNameEnableDnsHostnames, VpcId := some vpcID }
            = (some output, none) →
          FindVPCAttribute k conn vpcID VpcAttributeNameEnableDnsHostnames
            = match output.EnableDnsHostnames with
              | some v => .ok (BoolValue v.Value)
              | none =>
                .error (.EmptyResult (some (.describeVpcAttribute
                  { Attribute := some VpcAttributeNameEnableDnsHostnames
                    VpcId := some vpcID }))))
      ∧ (∀ output,
          conn.DescribeVpcAttribute
              { Attribute := some VpcAttributeNameEnableDnsSupport, VpcId := some vpcID }
            = (some output, none) →
          FindVPCAttribute k conn vpcID VpcAttributeNameEnableDnsSupport
            = match output.EnableDnsSupport with
              | some v => .ok (BoolValue v.Value)
              | none =>
                .error (.EmptyResult (some (.describeVpcAttribute
                  { Attribute := some VpcAttributeNameEnableDnsSupport
                    VpcId := some vpcID }))))
      ∧ (∀ output,
          conn.DescribeVpcAttribute
              { Attribute := some VpcAttributeNameEnableNetworkAddressUsageMetrics
                VpcId := some vpcID }
            = (some output, none) →
          FindVPCAttribute k conn vpcID VpcAttributeNameEnableNetworkAddressUsageMetrics
            = match output.EnableNetworkAddressUsageMetrics with
              | some v => .ok (BoolValue v.Value)
              | none =>
                .error (.EmptyResult (some (.describeVpcAttribute
                  { Attribute := some VpcAttributeNameEnableNetworkAddressUsageMetrics
                    VpcId := some vpcID })))) := by
  refine ⟨?_, ?_, ?_, ?_⟩
  · intro attributeName h1 h2 h3
    have hfail : ∀ output err,
        conn.DescribeVpcAttribute { Attribute := some attributeName, VpcId := some vpcID }
          = (output, some err) →
        FindVPCAttribute k conn vpcID attributeName
          = .error (callError [k.errCodeInvalidVPCIDNotFound]
              (.describeVpcAttribute
                { Attribute := some attributeName, VpcId := some vpcID }) err) := by
      intro output err hcall
      unfold FindVPCAttribute
      simp only [hcall, callError]
      split <;> rfl
    have hnil :
        conn.DescribeVpcAttribute { Attribute := some attributeName, VpcId := some vpcID }
          = (none, none) →
        FindVPCAttribute k conn vpcID attributeName
          = .error (.EmptyResult (some (.describeVpcAttribute
              { Attribute := some attributeName, VpcId := some vpcID }))) := by
      intro hcall
      unfold FindVPCAttribute
      simp [hcall, ErrCodeEquals]
    have hunsupported : ∀ output,
        conn.DescribeVpcAttribute { Attribute := some attributeName, VpcId := some vpcID }
          = (some output, none) →
        FindVPCAttribute k conn vpcID attributeName
          = .error (.plain (unsupportedVPCAttribute attributeName)) := by
      intro output hcall
      unfold FindVPCAttribute
      simp [hcall, ErrCodeEquals, h1, h2, h3]
    refine ⟨?_, hfail, hnil, hunsupported⟩
    intro value hvalue
    rcases hcall : conn.DescribeVpcAttribute
        { Attribute := some attributeName, VpcId := some vpcID } with ⟨output, err⟩
    cases err with
    | some err =>
      rw [hfail output err hcall] at hvalue
      cases hvalue
    | none =>
      cases output with
      | none =>
        rw [hnil hcall] at hvalue
        cases hvalue
      | some output =>
        rw [hunsupported output hcall] at hvalue
        cases hvalue
  · intro output hcall
    unfold FindVPCAttribute
    simp only [hcall, ErrCodeEquals]
    cases output.EnableDnsHostnames <;> simp
  · intro output hcall
    unfold FindVPCAttribute
    simp only [hcall, ErrCodeEquals]
    have hne : (VpcAttributeNameEnableDnsSupport == VpcAttributeNameEnableDnsHostnames)
        = false := by decide
    cases output.EnableDnsSupport <;> simp [hne]
  · intro output hcall
    unfold FindVPCAttribute
    simp only [hcall, ErrCodeEquals]
    have hne1 : (VpcAttributeNameEnableNetworkAddressUsageMetrics
        == VpcAttributeNameEnableDnsHostnames) = false := by decide
    have hne2 : (VpcAttributeNameEnableNetworkAddressUsageMetrics
        == VpcAttributeNameEnableDnsSupport) = false := by decide
    cases output.EnableNetworkAddressUsageMetrics <;> simp [hne1, hne2]

/-- C24 at a concrete output whose DNS hostnames are on and whose DNS support is off: each
name gives the value of its own field, and another name gives no value. -/
theorem FindVPCAttribute_cases_witness :
    FindVPCAttribute awsConsts
        (connVpcAttribute
          { EnableDnsHostnames := some { Value := some true }
            EnableDnsSupport := some { Value := some false } })
        "vpc-1" "enableDnsHostnames" = .ok true
      ∧ FindVPCAttribute awsConsts
          (connVpcAttribute
            { EnableDnsHostnames := some { Value := some true }
              EnableDnsSupport := some { Value := some false } })
          "vpc-1" "enableDnsSupport" = .ok false
      ∧ FindVPCAttribute awsConsts
          (connVpcAttribute
            { EnableDnsHostnames := some { Value := some true }
              EnableDnsSupport := some { Value := some false } })
          "vpc-1" "enableClassicLink"
        = .error (.plain (.text "unsupported VPC attribute: enableClassicLink")) :=
  ⟨(FindVPCAttribute_cases awsConsts
      (connVpcAttribute
        { EnableDnsHostnames := some { Value := some true }
          EnableDnsSupport := some { Value := some false } }) "vpc-1").2.1 _ rfl,
    (FindVPCAttribute_cases awsConsts
      (connVpcAttribute
        { EnableDnsHostnames := some { Value := some true }
          EnableDnsSupport := some { Value := some false } }) "vpc-1").2.2.1 _ rfl,
    ((FindVPCAttribute_cases awsConsts
      (connVpcAttribute
        { EnableDnsHostnames := some { Value := some true }
          EnableDnsSupport := some { Value := some false } }) "vpc-1").1 "enableClassicLink"
      (by decide) (by decide) (by decide)).2.2.2 _ rfl⟩

/-! ## The CIDR reservations of a subnet -/

/-- On a list of reservations without `nil`, a loop of
`FindSubnetCIDRReservationBySubnetIDAndReservationID` finds the first reservation with the
identifier. -/
theorem subnetCidrReservationLoop_map_some (reservationID : String)
    (reservations : List SubnetCidrReservation) :
    subnetCidrReservationLoop reservationID (reservations.map some)
      = some (reservations.find?
          (fun r => StringValue r.SubnetCidrReservationId == reservationID)) := by
  induction reservations with
  | nil => rfl
  | cons r rest ih =>
    simp only [List.map_cons, subnetCidrReservationLoop, List.find?_cons]
    cases hr : (StringValue r.SubnetCidrReservationId == reservationID)
    · simpa using ih
    · simp

/-- After a successful call whose output is non-nil and holds no `nil` reservation,
`FindSubnetCIDRReservationBySubnetIDAndReservationID` fails with the empty-result error when
both lists are empty, and otherwise returns the first reservation with the identifier in the
IPv4 list followed by the IPv6 list, or the `retry.NotFoundError` without `LastError` when
there is none. -/
theorem FindSubnetCIDRReservationBySubnetIDAndReservationID_map_some (k : Consts) (conn : EC2)
    (subnetID reservationID : String) (output : GetSubnetCidrReservationsOutput)
    (ipv4 ipv6 : List SubnetCidrReservation)
    (hcall : conn.GetSubnetCidrReservations { SubnetId := some subnetID } = (some output, none))
    (hipv4 : output.SubnetIpv4CidrReservations = ipv4.map some)
    (hipv6 : output.SubnetIpv6CidrReservations = ipv6.map some) :
    FindSubnetCIDRReservationBySubnetIDAndReservationID k conn subnetID reservationID
      = if ipv4 = [] ∧ ipv6 = [] then
          .error (.EmptyResult (some (.getSubnetCidrReservations { SubnetId := some subnetID })))
        else
          match (ipv4 ++ ipv6).find?
              (fun r => StringValue r.SubnetCidrReservationId == reservationID) with
          | some r => .ok r
          | none =>
            .error (.NotFound
              { LastError := none
                LastRequest :=
                  some (.getSubnetCidrReservations { SubnetId := some subnetID }) }) := by
  unfold FindSubnetCIDRReservationBySubnetIDAndReservationID
  simp only [hcall, ErrCodeEquals, hipv4, hipv6, subnetCidrReservationLoop_map_some,
    List.length_map, List.find?_append]
  by_cases hempty : ipv4 = [] ∧ ipv6 = []
  · obtain ⟨h4, h6⟩ := hempty
    subst h4
    subst h6
    simp
  · have hlen : ¬ ((ipv4.length == 0 && ipv6.length == 0) = true) := by
      simpa [List.length_eq_zero] using hempty
    simp only [Bool.false_eq_true, if_false, if_neg hlen, if_neg hempty]
    cases ipv4.find? (fun r => StringValue r.SubnetCidrReservationId == reservationID) with
    | some r => rfl
    | none =>
      cases ipv6.find? (fun r => StringValue r.SubnetCidrReservationId == reservationID) <;> rfl

/-- C25: after a successful call of `GetSubnetCidrReservations`,
`FindSubnetCIDRReservationBySubnetIDAndReservationID` fails with an empty-result error if
and only if the output is nil or both reservation lists are empty. Otherwise it returns the
first reservation whose `SubnetCidrReservationId` equals the reservation identifier in the
IPv4 list followed by the IPv6 list: a reservation with the identifier, with no reservation
before it in that concatenation that has it, is the result, so a match in the IPv4 list
wins over a match in the IPv6 list. When the lists are not both empty and hold no
reservation with the identifier, the result is the `retry.NotFoundError` whose `LastError`
is nil and whose `LastRequest` is the request. The identifier is read with
`aws.StringValue`; the reservations are lists of reservations: they hold no `nil`. -/
theorem FindSubnetCIDRReservationBySubnetIDAndReservationID_cases (k : Consts) (conn : EC2)
    (subnetID reservationID : String)
    (hcall : (conn.GetSubnetCidrReservations { SubnetId := some subnetID }).2 = none) :
    ((∃ request,
          FindSubnetCIDRReservationBySubnetIDAndReservationID k conn subnetID reservationID
            = .error (.EmptyResult request))
        ↔ ((conn.GetSubnetCidrReservations { SubnetId := some subnetID }).1 = none
            ∨ ∃ output,
                (conn.GetSubnetCidrReservations { SubnetId := some subnetID }).1 = some output
                  ∧ output.SubnetIpv4CidrReservations = []
                  ∧ output.SubnetIpv6CidrReservations = []))
      ∧ (∀ output (ipv4 ipv6 : List SubnetCidrReservation),
          (conn.GetSubnetCidrReservations { SubnetId := some subnetID }).1 = some output →
          output.SubnetIpv4CidrReservations = ipv4.map some →
          output.SubnetIpv6CidrReservations = ipv6.map some →
          (∀ before r after, ipv4 ++ ipv6 = before ++ r :: after →
              (∀ u ∈ before, StringValue u.SubnetCidrReservationId ≠ reservationID) →
              StringValue r.SubnetCidrReservationId = reservationID →
              FindSubnetCIDRReservationBySubnetIDAndReservationID k conn subnetID
                reservationID = .ok r)
            ∧ (∀ before r after, ipv4 = before ++ r :: after →
                (∀ u ∈ before, StringValue u.SubnetCidrReservationId ≠ reservationID) →
                StringValue r.SubnetCidrReservationId = reservationID →
                FindSubnetCIDRReservationBySubnetIDAndReservationID k conn subnetID
                  reservationID = .ok r)
            ∧ (¬ (ipv4 = [] ∧ ipv6 = []) →
                (∀ r ∈ ipv4 ++ ipv6,
                  StringValue r.SubnetCidrReservationId ≠ reservationID) →
                FindSubnetCIDRReservationBySubnetIDAndReservationID k conn subnetID
                  reservationID
                  = .error (.NotFound
                      { LastError := none
                        LastRequest :=
                          some (.getSubnetCidrReservations { SubnetId := some subnetID }) }))
            ∧ (∀ r, FindSubnetCIDRReservationBySubnetIDAndReservationID k conn subnetID
                  reservationID = .ok r →
                r ∈ ipv4 ++ ipv6 ∧ StringValue r.SubnetCidrReservationId = reservationID)) := by
  constructor
  · unfold FindSubnetCIDRReservationBySubnetIDAndReservationID
    simp only [hcall, ErrCodeEquals]
    cases hout : (conn.GetSubnetCidrReservations { SubnetId := some subnetID }).1 with
    | none => simp
    | some output =>
      simp only [Bool.false_eq_true, if_false]
      by_cases hlen : (output.SubnetIpv4CidrReservations.length == 0
          && output.SubnetIpv6CidrReservations.length == 0) = true
      · simp only [hlen, if_true]
        have hboth : output.SubnetIpv4CidrReservations = []
            ∧ output.SubnetIpv6CidrReservations = [] := by
          simpa [List.length_eq_zero] using hlen
        simp [hboth.1, hboth.2]
      · simp only [hlen, if_false]
        have hboth : ¬ (output.SubnetIpv4CidrReservations = []
            ∧ output.SubnetIpv6CidrReservations = []) := by
          simpa [List.length_eq_zero] using hlen
        constructor
        · rintro ⟨request, hrequest⟩
          exfalso
          cases h4 : subnetCidrReservationLoop reservationID
              output.SubnetIpv4CidrReservations with
          | none =>
            rw [h4] at hrequest
            cases hrequest
          | some found4 =>
            cases found4 with
            | some r =>
              rw [h4] at hrequest
              cases hrequest
            | none =>
              rw [h4] at hrequest
              cases h6 : subnetCidrReservationLoop reservationID
                  output.SubnetIpv6CidrReservations with
              | none =>
                rw [h6] at hrequest
                cases hrequest
              | some found6 =>
                cases found6 with
                | some r =>
                  rw [h6] at hrequest
                  cases hrequest
                | none =>
                  rw [h6] at hrequest
                  cases hrequest
        · rintro (h | ⟨output2, hsome, h4, h6⟩)
          · cases h
          · cases hsome
            exact absurd ⟨h4, h6⟩ hboth
  · intro output ipv4 ipv6 hout hipv4 hipv6
    have hpair : conn.GetSubnetCidrReservations { SubnetId := some subnetID }
        = (some output, none) := Prod.ext hout hcall
    have heq := FindSubnetCIDRReservationBySubnetIDAndReservationID_map_some k conn subnetID
      reservationID output ipv4 ipv6 hpair hipv4 hipv6
    have hfirst : ∀ before r after, ipv4 ++ ipv6 = before ++ r :: after →
        (∀ u ∈ before, StringValue u.SubnetCidrReservationId ≠ reservationID) →
        StringValue r.SubnetCidrReservationId = reservationID →
        FindSubnetCIDRReservationBySubnetIDAndReservationID k conn subnetID reservationID
          = .ok r := by
      intro before r after hsplit hbefore hr
      have hfind : (ipv4 ++ ipv6).find?
          (fun r => StringValue r.SubnetCidrReservationId == reservationID) = some r := by
        rw [hsplit]
        apply find_first_match
        · intro u hu
          have := hbefore u hu
          simpa using this
        · simp [hr]
      have hne : ¬ (ipv4 = [] ∧ ipv6 = []) := by
        rintro ⟨h4, h6⟩
        rw [h4, h6] at hsplit
        cases before <;> cases hsplit
      rw [heq, if_neg hne, hfind]
    refine ⟨hfirst, ?_, ?_, ?_⟩
    · intro before r after hsplit hbefore hr
      exact hfirst before r (after ++ ipv6) (by rw [hsplit]; simp) hbefore hr
    · intro hne hnone
      have hfind : (ipv4 ++ ipv6).find?
          (fun r => StringValue r.SubnetCidrReservationId == reservationID) = none := by
        rw [List.find?_eq_none]
        intro r hr
        simpa using hnone r hr
      rw [heq, if_neg hne, hfind]
    · intro r hr
      rw [heq] at hr
      by_cases hne : ipv4 = [] ∧ ipv6 = []
      · rw [if_pos hne] at hr
        cases hr
      · rw [if_neg hne] at hr
        cases hfind : (ipv4 ++ ipv6).find?
            (fun r => StringValue r.SubnetCidrReservationId == reservationID) with
        | none =>
          rw [hfind] at hr
          cases hr
        | some w =>
          rw [hfind] at hr
          have hw : w = r := by
            cases hr
            rfl
          subst hw
          have hmem := List.mem_of_find?_eq_some hfind
          have hp := List.find?_some hfind
          simp only [beq_iff_eq] at hp
          exact ⟨hmem, hp⟩

/-- C25 at concrete answers: for the subnet `subnet-a` the service returns the IPv4
reservations `scr-1` and `scr-2` and the IPv6 reservations `scr-2` and `scr-3`, the IPv4
reservation `scr-2` alone having its `SubnetId` set; the lookup of `scr-2` returns the IPv4
reservation, the lookup of `scr-4` is the `retry.NotFoundError` without `LastError`, and
with two empty lists the lookup is an empty-result error. -/
theorem FindSubnetCIDRReservationBySubnetIDAndReservationID_cases_witness :
    FindSubnetCIDRReservationBySubnetIDAndReservationID awsConsts
        (connReservations
          [some { SubnetCidrReservationId := some "scr-1" },
            some { SubnetCidrReservationId := some "scr-2", SubnetId := some "subnet-a" }]
          [some { SubnetCidrReservationId := some "scr-2" },
            some { SubnetCidrReservationId := some "scr-3" }])
        "subnet-a" "scr-2"
        = .ok { SubnetCidrReservationId := some "scr-2", SubnetId := some "subnet-a" }
      ∧ FindSubnetCIDRReservationBySubnetIDAndReservationID awsConsts
          (connReservations
            [some { SubnetCidrReservationId := some "scr-1" },
              some { SubnetCidrReservationId := some "scr-2", SubnetId := some "subnet-a" }]
            [some { SubnetCidrReservationId := some "scr-2" },
              some { SubnetCidrReservationId := some "scr-3" }])
          "subnet-a" "scr-4"
          = .error (.NotFound
              { LastError := none
                LastRequest :=
                  some (.getSubnetCidrReservations { SubnetId := some "subnet-a" }) })
      ∧ ∃ request,
          FindSubnetCIDRReservationBySubnetIDAndReservationID awsConsts
            (connReservations [] []) "subnet-a" "scr-1"
            = .error (.EmptyResult request) :=
  ⟨((FindSubnetCIDRReservationBySubnetIDAndReservationID_cases awsConsts
      (connReservations
        [some { SubnetCidrReservationId := some "scr-1" },
          some { SubnetCidrReservationId := some "scr-2", SubnetId := some "subnet-a" }]
        [some { SubnetCidrReservationId := some "scr-2" },
          some { SubnetCidrReservationId := some "scr-3" }])
      "subnet-a" "scr-2" rfl).2
      { SubnetIpv4CidrReservations :=
          [some { SubnetCidrReservationId := some "scr-1" },
            some { SubnetCidrReservationId := some "scr-2", SubnetId := some "subnet-a" }]
        SubnetIpv6CidrReservations :=
          [some { SubnetCidrReservationId := some "scr-2" },
            some { SubnetCidrReservationId := some "scr-3" }] }
      [{ SubnetCidrReservationId := some "scr-1" },
        { SubnetCidrReservationId := some "scr-2", SubnetId := some "subnet-a" }]
      [{ SubnetCidrReservationId := some "scr-2" },
        { SubnetCidrReservationId := some "scr-3" }]
      rfl rfl rfl).2.1
      [{ SubnetCidrReservationId := some "scr-1" }]
      { SubnetCidrReservationId := some "scr-2", SubnetId := some "subnet-a" } []
      rfl (by decide) rfl,
    ((FindSubnetCIDRReservationBySubnetIDAndReservationID_cases awsConsts
      (connReservations
        [some { SubnetCidrReservationId := some "scr-1" },
          some { SubnetCidrReservationId := some "scr-2", SubnetId := some "subnet-a" }]
        [some { SubnetCidrReservationId := some "scr-2" },
          some { SubnetCidrReservationId := some "scr-3" }])
      "subnet-a" "scr-4" rfl).2
      { SubnetIpv4CidrReservations :=
          [some { SubnetCidrReservationId := some "scr-1" },
            some { SubnetCidrReservationId := some "scr-2", SubnetId := some "subnet-a" }]
        SubnetIpv6CidrReservations :=
          [some { SubnetCidrReservationId := some "scr-2" },
            some { SubnetCidrReservationId := some "scr-3" }] }
      [{ SubnetCidrReservationId := some "scr-1" },
        { SubnetCidrReservationId := some "scr-2", SubnetId := some "subnet-a" }]
      [{ SubnetCidrReservationId := some "scr-2" },
        { SubnetCidrReservationId := some "scr-3" }]
      rfl rfl rfl).2.2.1 (by decide) (by decide),
    ((FindSubnetCIDRReservationBySubnetIDAndReservationID_cases awsConsts
      (connReservations [] []) "subnet-a" "scr-1" rfl).1).mpr
      (Or.inr ⟨{ SubnetIpv4CidrReservations := [], SubnetIpv6CidrReservations := [] },
        rfl, rfl, rfl⟩)⟩

/-- Where the embedding of `FindSubnetCIDRReservationBySubnetIDAndReservationID` marks a
panic: the loops read `r.SubnetCidrReservationId` through the element, so on a reservation
list that holds a `nil` element they neither return a reservation nor an error. The theorems
on this finder speak of lists of reservations, which hold no `nil`. -/
theorem FindSubnetCIDRReservationBySubnetIDAndReservationID_nil_reservation :
    FindSubnetCIDRReservationBySubnetIDAndReservationID awsConsts (connReservations [none] [])
        "subnet-a" "scr-1" = .panic
      ∧ FindSubnetCIDRReservationBySubnetIDAndReservationID awsConsts
          (connReservations [none] [some { SubnetCidrReservationId := some "scr-1" }])
          "subnet-a" "scr-1" = .panic :=
  ⟨rfl, rfl⟩

end EC2Find
